import Mathlib

/-!
# rovio — `RovioNode` (include/rovio/RovioNode.hpp)

A shallow embedding of the ROS node that feeds the ROVIO estimator and publishes its
safe state, followed by theorems about it.

Modelling conventions
* `double` values (time stamps, coordinates, covariance entries) are rationals; the
  comparisons the node performs (`!=`, `>`) are the rational ones, which is what they are
  on every non-NaN `double`.
* C arrays of template size (`isValidPyr_[nCam]`, `pyr_[nCam]`, `boost::array<double,36>`)
  and Eigen matrices are total functions on indices; `std::vector`s are lists.
* `uint32_t` arithmetic of the point-cloud descriptor and of the byte offsets is taken
  modulo `2^32`. The covariance indices `getId<...>()+i` are plain naturals (they index a
  matrix of the output dimension, far below `2^32`).
* The counter `int poseMsgSeq_` is an integer in `[-2^31, 2^31)`: the increment at
  `INT_MAX` wraps to `INT_MIN`, as the compiled two's-complement increment does. Its
  assignment to the `uint32` field `Header.seq` stores its residue modulo `2^32`.
* Bytes are naturals below 256; a 32-bit object is stored least significant byte first.
* Everything the node only calls (the filter, cv_bridge, the coordinate transforms, the
  state accessors, float conversions) is collected in one record `Ext`.
* Side effects (console output, calls into the filter, published messages) are appended,
  in program order, to the field `log` of the node.
-/

namespace rovio

/-! ## Plain data -/

/-- The type `Eigen::Vector3d`. -/
structure V3D where
  x : ℚ
  y : ℚ
  z : ℚ
deriving DecidableEq

/-- Component access `v(i)`. -/
def V3D.get (v : V3D) (i : Nat) : ℚ :=
  if i = 0 then v.x else if i = 1 then v.y else v.z

/-- The type `rot::RotationQuaternionPD`, also used for `tf::Quaternion`. -/
structure QPD where
  w : ℚ
  x : ℚ
  y : ℚ
  z : ℚ
deriving DecidableEq

/-- The type `Eigen::MatrixXd` (alias `MXD`). -/
abbrev MXD := Nat → Nat → ℚ

/-- The expression `M.block<3,3>(r,c)` (and any other fixed-size block read). -/
def MXD.block (M : MXD) (r c : Nat) : MXD := fun i j => M (r + i) (c + j)

/-- Reduction of an unsigned 32-bit result. -/
def u32 (x : Nat) : Nat := x % 2 ^ 32

/-- The value a C++ `int` holds after the mathematical result `x` is stored in it: the
representative of `x` modulo `2^32` in `[-2^31, 2^31)`. -/
def wrapInt32 (x : Int) : Int := (x + 2147483648) % 4294967296 - 2147483648

/-- The conversion of an `int` to the `uint32` of `Header.seq`: its residue modulo `2^32`
in `[0, 2^32)`. -/
def toUInt32 (x : Int) : Int := x % 4294967296

/-- The class `cv::Mat`, represented by its pixel payload. -/
structure CvMat where
  pixels : List Nat
deriving DecidableEq

/-- The method `cv::Mat::empty`. -/
def CvMat.empty (m : CvMat) : Bool := m.pixels.isEmpty

/-- One image pyramid of the update measurement, represented by the image it was last
computed from (`computeFromImage` overwrites every level from its argument). -/
structure ImagePyramid where
  img : CvMat
deriving DecidableEq

/-- The call `pyr.computeFromImage(img,true)`. -/
def ImagePyramid.computeFromImage (_p : ImagePyramid) (img : CvMat) : ImagePyramid :=
  { img := img }

/-- The class `FeatureDistance`: a distance parameter `p_` and the kind of
parametrisation `type_`. -/
structure FeatureDistance where
  type_ : Nat
  p_ : ℚ
deriving DecidableEq

/-! ## ROS messages -/

/-- The message `std_msgs/Header`. -/
structure Header where
  seq : Int
  stamp : ℚ
  frame_id : String
deriving DecidableEq

/-- The message `sensor_msgs/Image`, as far as the node reads it. -/
structure Image where
  stamp : ℚ
  encoding : String
  data : List Nat
deriving DecidableEq

/-- The message `sensor_msgs/Imu`, as far as the node reads it. -/
structure Imu where
  stamp : ℚ
  linear_acceleration : V3D
  angular_velocity : V3D
deriving DecidableEq

/-- The message `geometry_msgs/PoseStamped`. -/
structure PoseStamped where
  header : Header
  position : V3D
  orientation : QPD
deriving DecidableEq

/-- The message `geometry_msgs/TransformStamped`. -/
structure TransformStamped where
  header : Header
  child_frame_id : String
  translation : V3D
  rotation : QPD
deriving DecidableEq

/-- The class `tf::StampedTransform`. -/
structure StampedTransform where
  frame_id_ : String
  child_frame_id_ : String
  stamp_ : ℚ
  origin : V3D
  rotation : QPD
deriving DecidableEq

/-- The message `geometry_msgs/PoseWithCovariance`. -/
structure PoseWithCovariance where
  position : V3D
  orientation : QPD
  covariance : Nat → ℚ

/-- The message `geometry_msgs/TwistWithCovariance`. -/
structure TwistWithCovariance where
  linear : V3D
  angular : V3D
  covariance : Nat → ℚ

/-- The message `nav_msgs/Odometry`. -/
structure Odometry where
  header : Header
  child_frame_id : String
  pose : PoseWithCovariance
  twist : TwistWithCovariance

/-- The message `sensor_msgs/PointField`. -/
structure PointField where
  name : String
  offset : Nat
  datatype : Nat
  count : Nat
deriving DecidableEq

/-- The constant `sensor_msgs::PointField::UINT32`. -/
def PointField.UINT32 : Nat := 6

/-- The constant `sensor_msgs::PointField::FLOAT32`. -/
def PointField.FLOAT32 : Nat := 7

/-- A value-initialised `PointField`, as produced by `fields.resize`. -/
def PointField.empty : PointField := { name := "", offset := 0, datatype := 0, count := 0 }

/-- The message `sensor_msgs/PointCloud2`; `data` is the byte buffer. -/
structure PointCloud2 where
  header : Header
  height : Nat
  width : Nat
  fields : List PointField
  point_step : Nat
  row_step : Nat
  data : List Nat
  is_dense : Bool
deriving DecidableEq

/-- The message `rovio/RovioOutput`. -/
structure RovioOutput where
  header : Header
  odometry : Odometry
  ypr_odometry : V3D
  ypr_odometry_sigma : V3D
  acc_bias : V3D
  acc_bias_sigma : V3D
  gyr_bias : V3D
  gyr_bias_sigma : V3D
  extrinsics : PoseWithCovariance
  ypr_extrinsics : V3D
  ypr_extrinsics_sigma : V3D
  points : PointCloud2

/-- The message `visualization_msgs/Marker`, as far as the node fills it: header and the
list of line end points (type `LINE_LIST`, action `ADD`, identity pose, fixed colour). -/
structure Marker where
  frame_id : String
  stamp : ℚ
  points : List V3D
deriving DecidableEq

/-! ## Filter-side data -/

/-- The prediction measurement (`mtPredictionMeas`): accelerometer and gyroscope. -/
structure PredictionMeas where
  acc : V3D
  gyr : V3D
deriving DecidableEq

/-- The pose update measurement (`mtPoseMeas`). -/
structure PoseUpdateMeas where
  pos : V3D
  att : QPD
deriving DecidableEq

/-- The auxiliary element of the image update measurement
(`imgUpdateMeas_.template get<mtImgMeas::_aux>()`): the synchronisation batch. -/
structure ImgUpdateMeasAuxiliary where
  imgTime_ : ℚ
  pyr_ : Nat → ImagePyramid
  isValidPyr_ : Nat → Bool

/-- Modelled from the spec: `ImgUpdateMeasAuxiliary::reset(t)` is declared outside
`RovioNode.hpp`; the batch is "created/reset when a new timestamp is observed or after dispatch",
"the synchronizer immediately resets all slots": the time becomes `t` and every slot is
invalid. -/
def ImgUpdateMeasAuxiliary.reset (a : ImgUpdateMeasAuxiliary) (t : ℚ) : ImgUpdateMeasAuxiliary :=
  { a with imgTime_ := t, isValidPyr_ := fun _ => false }

/-- Modelled from the spec: `ImgUpdateMeasAuxiliary::areAllValid()` is declared outside
this file; "a batch is complete iff every slot is valid", over the `nCam` slots. -/
def ImgUpdateMeasAuxiliary.areAllValid (nCam : Nat) (a : ImgUpdateMeasAuxiliary) : Bool :=
  (List.range nCam).all fun i => a.isValidPyr_ i

/-- Number of valid slots among the `nCam` slots of a batch. -/
def ImgUpdateMeasAuxiliary.validSlots (nCam : Nat) (a : ImgUpdateMeasAuxiliary) : Nat :=
  (List.range nCam).countP fun i => a.isValidPyr_ i

/-- The output of the camera-frame stage (`StandardOutput`). -/
structure StandardOutput where
  WrWB : V3D
  qBW : QPD
  BvB : V3D
  BwWB : V3D
deriving DecidableEq

/-- The output `FeatureOutputReadable`: bearing vector and distance. -/
structure FeatureOutputReadable where
  bea : V3D
  dis : ℚ
deriving DecidableEq

/-- The filter state `mtFilterState`, as far as the node reads `safe_`. -/
structure FilterState (S : Type) where
  t_ : ℚ
  state_ : S
  cov_ : MXD
  isValid_ : Nat → Bool
  camID_ : Nat → Nat
  imgEmpty : Nat → Bool
  patchDrawingEmpty : Bool

/-! ## External collaborators -/

/-- Everything `RovioNode` is instantiated with or calls but does not define: the template
constants of the filter, the filter operations, cv_bridge, the state accessors, the layout
indices (`getId`), the coordinate transforms and the float conversions. -/
structure Ext where
  /-- The filter type `FILTER` behind `mpFilter_`. -/
  F : Type
  /-- The filter state vector type `mtState`. -/
  S : Type
  /-- The type `rovio::FeatureOutput`. -/
  FO : Type
  /-- A default-constructed `FeatureOutput`. -/
  featureOutput0 : FO
  nCam_ : Nat
  nMax_ : Nat
  /-- Time the update measurement's batch is created with. -/
  imgTime0 : ℚ
  /-- Result of `cv_bridge::toCvCopy(img, TYPE_8UC1)`; `none` is the thrown exception. -/
  toCvCopy : Image → Option CvMat
  addPredictionMeas : F → PredictionMeas → ℚ → F
  resetWithAccelerometer : F → V3D → ℚ → F
  /-- The call `addUpdateMeas<0>` (image update). -/
  addUpdateMeas0 : F → ImgUpdateMeasAuxiliary → ℚ → F
  /-- The call `addUpdateMeas<1>` (pose update). -/
  addUpdateMeas1 : F → PoseUpdateMeas → ℚ → F
  updateSafe : F → F
  safe_ : F → FilterState S
  doFrameVisualisation_ : F → Bool
  visualizePatches_ : F → Bool
  verbose_ : F → Bool
  inertialPoseIndex_ : F → Int
  bodyPoseIndex_ : F → Int
  timeOffset_ : F → ℚ
  WrWM : S → V3D
  qWM : S → QPD
  acb : S → V3D
  gyb : S → V3D
  MrMC : S → Nat → V3D
  qCM : S → Nat → QPD
  poseLin : S → Int → V3D
  poseRot : S → Int → QPD
  dep : S → Nat → FeatureDistance
  /-- The bearing `state.CfP(i).get_nor().getVec()`. -/
  CfP_nor_vec : S → Nat → V3D
  /-- The indices `mtOutput::getId<_pos>()`, `<_att>`, `<_vel>`, `<_ror>`. -/
  outId_pos : Nat
  outId_att : Nat
  outId_vel : Nat
  outId_ror : Nat
  /-- The indices `mtState::getId<_acb>()`, `<_gyb>`, `<_vep>(c)`, `<_vea>(c)`, `<_fea>(i)`. -/
  stateId_acb : Nat
  stateId_gyb : Nat
  stateId_vep : Nat → Nat
  stateId_vea : Nat → Nat
  stateId_fea : Nat → Nat
  /-- The dimension `mtState::D_` of the filter covariance. -/
  stateD : Nat
  /-- Stage 1, `cameraOutputCF_`: value map and Jacobian at a state. -/
  cameraOutput : S → StandardOutput
  cameraOutputJ : S → MXD
  /-- Stage 2, `attitudeToYprCF_`: value map and Jacobian at an attitude. -/
  attitudeToYpr : QPD → V3D
  attitudeToYprJ : QPD → MXD
  /-- Stage 3, `transformFeatureOutputCT_` for a feature id and an output camera id. -/
  transformFeature : Nat → Nat → S → FO
  transformFeatureJ : Nat → Nat → S → MXD
  /-- Stage 4, `featureOutputReadableCT_`. -/
  featureReadable : FO → FeatureOutputReadable
  featureReadableJ : FO → MXD
  /-- The method `FeatureDistance::getDistance`. -/
  getDistance : FeatureDistance → ℚ
  sqrt : ℚ → ℚ
  /-- The method `inverted()` of a rotation quaternion. -/
  inverted : QPD → QPD
  /-- One component of `bearingVector.cast<float>()*d`, as the value of the float. -/
  mulF32 : ℚ → ℚ → ℚ
  /-- The 32-bit pattern of a float value. -/
  bitsF32 : ℚ → Nat
  /-- The first `sizeof(float)` bytes of the object representation of a `double`, as a
  little-endian word: what `memcpy(dst,&someDouble,sizeof(float))` copies. -/
  lowWordF64 : ℚ → Nat
  /-- The test `featureOutput_.c().isInFront()` on the bearing of a feature output. -/
  isInFront : FO → Bool
  /-- The feature output after
  `c().set_nor(c().get_nor().rotated(QPD(0.0,1.0,0.0,0.0)),false)`. -/
  rotatedNor : FO → FO

/-- Modelled from the spec: the coordinate transforms' `transformCovMat` is declared
outside `RovioNode.hpp`; "each stage ... `OutputCovariance = J · Covariance · Jᵗ` where J is the
Jacobian of transformState evaluated at the current state". `n` is the dimension of the
input covariance. -/
def transformCovMat (n : Nat) (J C : MXD) : MXD := fun i j =>
  ((List.range n).map fun k => ((List.range n).map fun l => J i k * C k l * J j l).sum).sum

/-- The settings of `transformFeatureOutputCT_` (`setFeatureID`, `setOutputCameraID`). -/
structure TransformFeatureOutputCT where
  ID_ : Nat
  outputCamID_ : Nat
deriving DecidableEq

/-! ## Observable effects -/

/-- One side effect of the node. -/
inductive Effect (E : Ext) where
  /-- The report `ROS_ERROR("cv_bridge exception: ...")`. -/
  | rosError
  /-- The line "Failed Synchronization of Camera Frames, t = ...". -/
  | coutFailedSync (t : ℚ)
  /-- The line "-- Filter: Initialized at t = ...". -/
  | coutInitialized (t : ℚ)
  /-- The verbose print of `poseLin(idx)`, `poseRot(idx)`. -/
  | coutPose (idx : Int)
  | addPredictionMeas (m : PredictionMeas) (t : ℚ)
  | resetWithAccelerometer (acc : V3D) (t : ℚ)
  | addUpdateMeas0 (m : ImgUpdateMeasAuxiliary) (t : ℚ)
  | addUpdateMeas1 (m : PoseUpdateMeas) (t : ℚ)
  | updateSafe
  | imshow (window : String)
  | sendTransform (tf : StampedTransform)
  | pubPose (m : PoseStamped)
  | pubTransform (m : TransformStamped)
  | pubRovioOutput (m : RovioOutput)
  | pubOdometry (m : Odometry)
  | pubPcl (m : PointCloud2)
  | pubURays (m : Marker)

/-! ## The node -/

/-- The data members of `RovioNode` (publishers and subscribers are represented by `log`). -/
structure RovioNode (E : Ext) where
  mpFilter_ : E.F
  predictionMeas_ : PredictionMeas
  imgUpdateMeas_ : ImgUpdateMeasAuxiliary
  poseUpdateMeas_ : PoseUpdateMeas
  isInitialized_ : Bool
  poseMsg_ : PoseStamped
  transformMsg_ : TransformStamped
  odometryMsg_ : Odometry
  rovioOutputMsg_ : RovioOutput
  /-- The counter `int poseMsgSeq_`. -/
  poseMsgSeq_ : Int
  output_ : StandardOutput
  outputCov_ : MXD
  pclMsg_ : PointCloud2
  attitudeOutput_ : QPD
  yprOutput_ : V3D
  attitudeOutputCov_ : MXD
  yprOutputCov_ : MXD
  transformFeatureOutputCT_ : TransformFeatureOutputCT
  featureOutput_ : E.FO
  featureOutputCov_ : MXD
  featureOutputReadable_ : FeatureOutputReadable
  featureOutputReadableCov_ : MXD
  map_frame_ : String
  world_frame_ : String
  camera_frame_ : String
  imu_frame_ : String
  /-- Side effects so far, oldest first. -/
  log : List (Effect E)

/-! ## Construction -/

/-- A zero vector (value-initialised message field). -/
def V3D.zero : V3D := { x := 0, y := 0, z := 0 }

/-- A value-initialised quaternion message field. -/
def QPD.zero : QPD := { w := 0, x := 0, y := 0, z := 0 }

/-- A value-initialised header. -/
def Header.zero : Header := { seq := 0, stamp := 0, frame_id := "" }

/-- A value-initialised `PoseWithCovariance`. -/
def PoseWithCovariance.zero : PoseWithCovariance :=
  { position := V3D.zero, orientation := QPD.zero, covariance := fun _ => 0 }

/-- A value-initialised `TwistWithCovariance`. -/
def TwistWithCovariance.zero : TwistWithCovariance :=
  { linear := V3D.zero, angular := V3D.zero, covariance := fun _ => 0 }

/-- A value-initialised `Odometry`. -/
def Odometry.zero : Odometry :=
  { header := Header.zero, child_frame_id := "", pose := PoseWithCovariance.zero,
    twist := TwistWithCovariance.zero }

/-- A value-initialised `PointCloud2`. -/
def PointCloud2.zero : PointCloud2 :=
  { header := Header.zero, height := 0, width := 0, fields := [], point_step := 0,
    row_step := 0, data := [], is_dense := false }

/-- A value-initialised `RovioOutput`. -/
def RovioOutput.zero : RovioOutput :=
  { header := Header.zero, odometry := Odometry.zero, ypr_odometry := V3D.zero,
    ypr_odometry_sigma := V3D.zero, acc_bias := V3D.zero, acc_bias_sigma := V3D.zero,
    gyr_bias := V3D.zero, gyr_bias_sigma := V3D.zero, extrinsics := PoseWithCovariance.zero,
    ypr_extrinsics := V3D.zero, ypr_extrinsics_sigma := V3D.zero, points := PointCloud2.zero }

/-- The private node parameters `world_frame`, `camera_frame`, `imu_frame`, when set. -/
structure NodeParams where
  world_frame : Option String
  camera_frame : Option String
  imu_frame : Option String

/-- The constant `nFields` of the constructor. -/
def nFields : Nat := 18

/-- The array `name[nFields]` of the constructor. -/
def fieldName : List String :=
  ["x", "y", "z", "rgb", "b_x", "b_y", "b_z", "d", "c_00", "c_01", "c_02", "c_03", "c_11",
   "c_12", "c_13", "c_22", "c_23", "c_33"]

/-- The array `size[nFields]` of the constructor. -/
def fieldSize : List Nat := [4, 4, 4, 4, 4, 4, 4, 4, 4, 4, 4, 4, 4, 4, 4, 4, 4, 4]

/-- The array `datatype[nFields]` of the constructor. -/
def fieldDatatype : List Nat :=
  [PointField.FLOAT32, PointField.FLOAT32, PointField.FLOAT32, PointField.UINT32,
   PointField.FLOAT32, PointField.FLOAT32, PointField.FLOAT32, PointField.FLOAT32,
   PointField.FLOAT32, PointField.FLOAT32, PointField.FLOAT32, PointField.FLOAT32,
   PointField.FLOAT32, PointField.FLOAT32, PointField.FLOAT32, PointField.FLOAT32,
   PointField.FLOAT32, PointField.FLOAT32]

/-- An assignment to a member of `fields[k]`. -/
def assignField (fields : List PointField) (k : Nat) (g : PointField → PointField) :
    List PointField :=
  fields.set k (g (fields.getD k PointField.empty))

/-- Body of the constructor's loop `for(int i=0;i<nFields;i++)`, on the pair
(`pclMsg_.fields`, `byteCounter`). Every assignment is to `pclMsg_.fields[0]`. -/
def fieldLoopBody (st : List PointField × Nat) (i : Nat) : List PointField × Nat :=
  let fields := st.1
  let byteCounter := st.2
  let fields := assignField fields 0 fun f => { f with name := fieldName.getD i "" }
  let fields := assignField fields 0 fun f => { f with offset := u32 byteCounter }
  let fields := assignField fields 0 fun f => { f with count := 1 }
  let fields := assignField fields 0 fun f => { f with datatype := fieldDatatype.getD i 0 }
  (fields, byteCounter + fieldSize.getD i 0)

/-- The point-cloud part of the constructor (`// PointCloud2 message.`). -/
def initPclMsg (nMax : Nat) (camera_frame : String) (pcl : PointCloud2) : PointCloud2 :=
  let pcl := { pcl with header := { pcl.header with frame_id := camera_frame } }
  let pcl := { pcl with height := 1 }
  let pcl := { pcl with width := u32 nMax }
  let fields := List.replicate nFields PointField.empty
  let st := (List.range nFields).foldl fieldLoopBody (fields, 0)
  let pcl := { pcl with fields := st.1 }
  let pcl := { pcl with point_step := u32 st.2 }
  let pcl := { pcl with row_step := u32 (pcl.point_step * pcl.width) }
  let pcl := { pcl with data := List.replicate (u32 (pcl.row_step * pcl.height)) 0 }
  { pcl with is_dense := false }

/-- Modelled from the spec: the constructor of the image update measurement is declared
outside `RovioNode.hpp`; the batch is "created/reset", that is, created in its reset
state. -/
def ImgUpdateMeasAuxiliary.init (t : ℚ) : ImgUpdateMeasAuxiliary :=
  { imgTime_ := t, pyr_ := fun _ => { img := { pixels := [] } }, isValidPyr_ := fun _ => false }

/-- The constructor `RovioNode(nh, nh_private, mpFilter)`. Members the constructor does not
mention start from their value-initialised form. -/
def RovioNode.init (E : Ext) (params : NodeParams) (mpFilter : E.F) : RovioNode E :=
  let map_frame := "/map"
  let world_frame := params.world_frame.getD "/world"
  let camera_frame := params.camera_frame.getD "/camera"
  let imu_frame := params.imu_frame.getD "/imu"
  let rovioOutputMsg : RovioOutput :=
    { RovioOutput.zero with
      header := { Header.zero with frame_id := world_frame }
      points := { PointCloud2.zero with header := { Header.zero with frame_id := camera_frame } } }
  { mpFilter_ := mpFilter
    predictionMeas_ := { acc := V3D.zero, gyr := V3D.zero }
    imgUpdateMeas_ := ImgUpdateMeasAuxiliary.init E.imgTime0
    poseUpdateMeas_ := { pos := V3D.zero, att := QPD.zero }
    isInitialized_ := false
    poseMsg_ := { header := { Header.zero with frame_id := world_frame }, position := V3D.zero,
                  orientation := QPD.zero }
    transformMsg_ := { header := Header.zero, child_frame_id := "", translation := V3D.zero,
                       rotation := QPD.zero }
    odometryMsg_ := { Odometry.zero with
                      header := { Header.zero with frame_id := world_frame }
                      child_frame_id := camera_frame }
    rovioOutputMsg_ := rovioOutputMsg
    poseMsgSeq_ := 1
    output_ := { WrWB := V3D.zero, qBW := QPD.zero, BvB := V3D.zero, BwWB := V3D.zero }
    outputCov_ := fun _ _ => 0
    pclMsg_ := initPclMsg E.nMax_ camera_frame PointCloud2.zero
    attitudeOutput_ := QPD.zero
    yprOutput_ := V3D.zero
    attitudeOutputCov_ := fun _ _ => 0
    yprOutputCov_ := fun _ _ => 0
    transformFeatureOutputCT_ := { ID_ := 0, outputCamID_ := 0 }
    featureOutput_ := E.featureOutput0
    featureOutputCov_ := fun _ _ => 0
    featureOutputReadable_ := { bea := V3D.zero, dis := 0 }
    featureOutputReadableCov_ := fun _ _ => 0
    map_frame_ := map_frame
    world_frame_ := world_frame
    camera_frame_ := camera_frame
    imu_frame_ := imu_frame
    log := [] }

/-! ## `updateAndPublish` -/

/-- Appends one side effect. -/
def RovioNode.emit {E : Ext} (n : RovioNode E) (e : Effect E) : RovioNode E :=
  { n with log := n.log ++ [e] }

/-- The loop `for(int i=0;i<mtState::nCam_;i++)` showing the tracker images and the
patch window (lines 382-391). -/
def showImages {E : Ext} (n : RovioNode E) : RovioNode E :=
  let safe := E.safe_ n.mpFilter_
  let n := (List.range E.nCam_).foldl (fun (n : RovioNode E) i =>
    if !safe.imgEmpty i && E.doFrameVisualisation_ n.mpFilter_ then
      n.emit (Effect.imshow ("Tracker" ++ toString i))
    else n) n
  if !safe.patchDrawingEmpty && E.visualizePatches_ n.mpFilter_ then
    n.emit (Effect.imshow "Patches")
  else n

/-- Stage 1 on the safe state (lines 394-398). -/
def transformOutput {E : Ext} (n : RovioNode E) : RovioNode E :=
  let state := (E.safe_ n.mpFilter_).state_
  let cov := (E.safe_ n.mpFilter_).cov_
  let n := { n with output_ := E.cameraOutput state }
  { n with outputCov_ := transformCovMat E.stateD (E.cameraOutputJ state) cov }

/-- The verbose console output for pose measurements (lines 401-412). -/
def verbosePose {E : Ext} (n : RovioNode E) : RovioNode E :=
  if E.verbose_ n.mpFilter_ then
    let n := if E.inertialPoseIndex_ n.mpFilter_ ≥ 0 then
      n.emit (Effect.coutPose (E.inertialPoseIndex_ n.mpFilter_)) else n
    if E.bodyPoseIndex_ n.mpFilter_ ≥ 0 then
      n.emit (Effect.coutPose (E.bodyPoseIndex_ n.mpFilter_)) else n
  else n

/-- The map-to-world transform (lines 421-432). -/
def sendMapToWorld {E : Ext} (n : RovioNode E) : RovioNode E :=
  let state := (E.safe_ n.mpFilter_).state_
  if E.inertialPoseIndex_ n.mpFilter_ ≥ 0 then
    let IrIW := E.poseLin state (E.inertialPoseIndex_ n.mpFilter_)
    let qWI := E.poseRot state (E.inertialPoseIndex_ n.mpFilter_)
    n.emit (Effect.sendTransform
      { frame_id_ := n.map_frame_, child_frame_id_ := n.world_frame_,
        stamp_ := (E.safe_ n.mpFilter_).t_, origin := IrIW, rotation := qWI })
  else n

/-- The camera pose message and the camera and IMU transforms (lines 436-476). -/
def sendPoses {E : Ext} (n : RovioNode E) : RovioNode E :=
  let state := (E.safe_ n.mpFilter_).state_
  let t := (E.safe_ n.mpFilter_).t_
  let WrWC := n.output_.WrWB
  let qCW := n.output_.qBW
  -- Send camera pose message.
  let poseMsg := n.poseMsg_
  let poseMsg := { poseMsg with header := { poseMsg.header with seq := toUInt32 n.poseMsgSeq_ } }
  let poseMsg := { poseMsg with header := { poseMsg.header with stamp := t } }
  let poseMsg := { poseMsg with position := WrWC, orientation := qCW }
  let n := { n with poseMsg_ := poseMsg }
  let n := n.emit (Effect.pubPose n.poseMsg_)
  -- Send camera pose.
  let n := n.emit (Effect.sendTransform
    { frame_id_ := n.world_frame_, child_frame_id_ := n.camera_frame_, stamp_ := t,
      origin := WrWC, rotation := qCW })
  -- Send IMU pose.
  let WrWM := E.WrWM state
  let qMW := E.inverted (E.qWM state)
  let n := n.emit (Effect.sendTransform
    { frame_id_ := n.world_frame_, child_frame_id_ := n.imu_frame_, stamp_ := t,
      origin := WrWM, rotation := qMW })
  -- Send IMU pose message.
  let transformMsg := n.transformMsg_
  let transformMsg := { transformMsg with header := n.poseMsg_.header }
  let transformMsg := { transformMsg with translation := WrWM, rotation := qMW }
  let n := { n with transformMsg_ := transformMsg }
  n.emit (Effect.pubTransform n.transformMsg_)

/-- The double loop `for i<6, for j<6: dst[j+6*i] = src(ind1,ind2)` with
`ind = idLow + k`, replaced by `idHigh + k - 3` when `k >= 3` (lines 488-496, 503-511 and
550-558, which differ in the indices and matrices only). For `k >= 3` the unsigned
expression `idHigh + k - 3` is the natural-number difference. -/
def reindexCov (idLow idHigh : Nat) (src : MXD) (dst : Nat → ℚ) : Nat → ℚ :=
  (List.range 6).foldl (fun dst i =>
    let ind1 := idLow + i
    let ind1 := if i ≥ 3 then idHigh + i - 3 else ind1
    (List.range 6).foldl (fun dst j =>
      let ind2 := idLow + j
      let ind2 := if j ≥ 3 then idHigh + j - 3 else ind2
      Function.update dst (j + 6 * i) (src ind1 ind2)) dst) dst

/-- The odometry message (lines 479-511). -/
def fillOdometry {E : Ext} (n : RovioNode E) : RovioNode E :=
  let t := (E.safe_ n.mpFilter_).t_
  let o := n.odometryMsg_
  let o := { o with header := { o.header with seq := toUInt32 n.poseMsgSeq_ } }
  let o := { o with header := { o.header with stamp := t } }
  let o := { o with pose := { o.pose with position := n.output_.WrWB, orientation := n.output_.qBW } }
  let o := { o with pose := { o.pose with
    covariance := reindexCov E.outId_pos E.outId_att n.outputCov_ o.pose.covariance } }
  let o := { o with twist := { o.twist with linear := n.output_.BvB, angular := n.output_.BwWB } }
  let o := { o with twist := { o.twist with
    covariance := reindexCov E.outId_vel E.outId_ror n.outputCov_ o.twist.covariance } }
  { n with odometryMsg_ := o }

/-- The diagonal `(M(0,0), M(1,1), M(2,2))` shifted by `k`. -/
def diag3 (M : MXD) (k : Nat) : V3D := { x := M (k + 0) (k + 0), y := M (k + 1) (k + 1), z := M (k + 2) (k + 2) }

/-- Stage 2 on an attitude and its 3x3 covariance block: sets `attitudeOutput_`,
`attitudeOutputCov_`, `yprOutput_`, `yprOutputCov_` (lines 513-516 and 559-562). -/
def attitudeToYprStage {E : Ext} (n : RovioNode E) (att : QPD) (attCov : MXD) : RovioNode E :=
  let n := { n with attitudeOutput_ := att }
  let n := { n with attitudeOutputCov_ := attCov }
  let n := { n with yprOutput_ := E.attitudeToYpr n.attitudeOutput_ }
  { n with yprOutputCov_ := transformCovMat 3 (E.attitudeToYprJ n.attitudeOutput_) n.attitudeOutputCov_ }

/-- The extended summary message (lines 513-573). -/
def fillRovioOutput {E : Ext} (n : RovioNode E) : RovioNode E :=
  let state := (E.safe_ n.mpFilter_).state_
  let cov := (E.safe_ n.mpFilter_).cov_
  let t := (E.safe_ n.mpFilter_).t_
  let n := attitudeToYprStage n n.output_.qBW (n.outputCov_.block E.outId_att E.outId_att)
  let r := n.rovioOutputMsg_
  let r := { r with header := { r.header with seq := toUInt32 n.poseMsgSeq_ } }
  let r := { r with header := { r.header with stamp := t } }
  let r := { r with odometry := n.odometryMsg_ }
  let r := { r with ypr_odometry := n.yprOutput_, ypr_odometry_sigma := diag3 n.yprOutputCov_ 0 }
  -- IMU biases
  let r := { r with acc_bias := E.acb state, acc_bias_sigma := diag3 cov E.stateId_acb }
  let r := { r with gyr_bias := E.gyb state, gyr_bias_sigma := diag3 cov E.stateId_gyb }
  -- Extrinsics
  let r := { r with extrinsics := { r.extrinsics with
    position := E.MrMC state 0, orientation := E.qCM state 0 } }
  let r := { r with extrinsics := { r.extrinsics with
    covariance := reindexCov (E.stateId_vep 0) (E.stateId_vea 0) cov r.extrinsics.covariance } }
  let n := attitudeToYprStage n (E.qCM state 0) (MXD.block cov (E.stateId_vea 0) (E.stateId_vea 0))
  let r := { r with ypr_extrinsics := n.yprOutput_, ypr_extrinsics_sigma := diag3 n.yprOutputCov_ 0 }
  -- Point cloud
  let seq := toUInt32 n.poseMsgSeq_
  let r := { r with points := { r.points with header := { r.points.header with seq := seq } } }
  let r := { r with points := { r.points with header := { r.points.header with stamp := t } } }
  let r := { r with points := { r.points with height := 1 } }
  { n with rovioOutputMsg_ := r }

/-- Publication of the summary and the odometry, then `poseMsgSeq_++` (lines 575-577). -/
def publishOutput {E : Ext} (n : RovioNode E) : RovioNode E :=
  let n := n.emit (Effect.pubRovioOutput n.rovioOutputMsg_)
  let n := n.emit (Effect.pubOdometry n.odometryMsg_)
  { n with poseMsgSeq_ := wrapInt32 (n.poseMsgSeq_ + 1) }

/-! ### Point cloud and uncertainty rays (lines 583-683) -/

/-- The write `memcpy(&data[k], &w, 4)` of a 32-bit object `w`, least significant byte
first. -/
def memcpy4 (data : List Nat) (k w : Nat) : List Nat :=
  (((data.set k (w % 256)).set (k + 1) (w / 256 % 256)).set (k + 2) (w / 65536 % 256)).set
    (k + 3) (w / 16777216 % 256)

/-- The bit pattern `0x7FC00000` of `std::numeric_limits<float>::quiet_NaN()`. -/
def badPoint : Nat := 2143289344

/-- The constant `stretchFactor`. -/
def stretchFactor : ℚ := 3

/-- The write `memcpy(&pclMsg_.data[offset + pclMsg_.fields[j].offset], &w, 4)`. -/
def pclWrite (pcl : PointCloud2) (offset j w : Nat) : PointCloud2 :=
  { pcl with data := memcpy4 pcl.data (u32 (offset + (pcl.fields.getD j PointField.empty).offset)) w }

/-- The three distances of one landmark (lines 614-622). -/
structure RayDistances where
  d : ℚ
  d_minus : ℚ
  d_plus : ℚ
deriving DecidableEq

/-- Lines 614-622: nominal distance and the two clamped distances at the depth parameter
shifted by `-stretchFactor*sigma` and then by `+2*stretchFactor*sigma`. -/
def rayDistances (E : Ext) (state : E.S) (cov : MXD) (i : Nat) : RayDistances :=
  let distance := E.dep state i
  let d := E.getDistance distance
  let sigma := E.sqrt (cov (E.stateId_fea i + 2) (E.stateId_fea i + 2))
  let distance := { distance with p_ := distance.p_ - stretchFactor * sigma }
  let d_minus := E.getDistance distance
  let d_minus := if d_minus > 1000 then 1000 else d_minus
  let distance := { distance with p_ := distance.p_ + 2 * stretchFactor * sigma }
  let d_plus := E.getDistance distance
  let d_plus := if d_plus > 1000 then 1000 else d_plus
  { d := d, d_minus := d_minus, d_plus := d_plus }

/-- The float vector `bearingVector.cast<float>()*d`. -/
def scaledBearing (E : Ext) (b : V3D) (d : ℚ) : V3D :=
  { x := E.mulF32 b.x d, y := E.mulF32 b.y d, z := E.mulF32 b.z d }

/-- The loop `for row<4, for col=row..3` copying the upper triangle of
`featureOutputReadableCov_` into the fields `mCounter = 8, 9, ...` (lines 653-659). -/
def pclWriteCov (E : Ext) (pcl : PointCloud2) (offset : Nat) (cov : MXD) : PointCloud2 :=
  ((List.range 4).foldl (fun (st : PointCloud2 × Nat) row =>
    (List.range' row (4 - row)).foldl (fun (st : PointCloud2 × Nat) col =>
      (pclWrite st.1 offset st.2 (E.lowWordF64 (cov row col)), st.2 + 1)) st) (pcl, 8)).1

/-- State of the landmark loop: the node, `marker_msg.points` and `offset`. -/
structure PclLoop (E : Ext) where
  node : RovioNode E
  points : List V3D
  offset : Nat

/-- Body of the landmark loop for a valid landmark `i` (lines 613-671); the members of
the node set on the way are collected in one update at the end. -/
def pclValid {E : Ext} (filterState : FilterState E.S) (st : PclLoop E) (i : Nat) : PclLoop E :=
  let state := filterState.state_
  let cov := filterState.cov_
  let offset := st.offset
  -- Get 3D feature coordinates.
  let r := rayDistances E state cov i
  let bearingVector := E.CfP_nor_vec filterState.state_ i
  let pos := scaledBearing E bearingVector r.d
  let pos_minus := scaledBearing E bearingVector r.d_minus
  let pos_plus := scaledBearing E bearingVector r.d_plus
  -- Get human readable output
  let ct : TransformFeatureOutputCT := { ID_ := i, outputCamID_ := filterState.camID_ i }
  let featureOutput := E.transformFeature ct.ID_ ct.outputCamID_ state
  let featureJ := E.transformFeatureJ ct.ID_ ct.outputCamID_ state
  let featureOutputCov := transformCovMat E.stateD featureJ cov
  let featureOutputReadable := E.featureReadable featureOutput
  let readableJ := E.featureReadableJ featureOutput
  let featureOutputReadableCov := transformCovMat 3 readableJ featureOutputCov
  -- Add feature coordinates to pcl message.
  let pcl := st.node.pclMsg_
  let pcl := pclWrite pcl offset 0 (E.bitsF32 pos.x)
  let pcl := pclWrite pcl offset 1 (E.bitsF32 pos.y)
  let pcl := pclWrite pcl offset 2 (E.bitsF32 pos.z)
  -- Add color (gray values).
  let gray := 255
  let rgb := (gray <<< 16) ||| (gray <<< 8) ||| gray
  let pcl := pclWrite pcl offset 3 rgb
  -- Add feature bearing vector and distance
  let pcl := pclWrite pcl offset 4 (E.lowWordF64 featureOutputReadable.bea.x)
  let pcl := pclWrite pcl offset 5 (E.lowWordF64 featureOutputReadable.bea.y)
  let pcl := pclWrite pcl offset 6 (E.lowWordF64 featureOutputReadable.bea.z)
  let pcl := pclWrite pcl offset 7 (E.lowWordF64 featureOutputReadable.dis)
  -- Add the corresponding covariance (upper triangular)
  let pcl := pclWriteCov E pcl offset featureOutputReadableCov
  -- Line markers (Uncertainty rays).
  let point_near_msg := pos_plus
  let point_far_msg := pos_minus
  { node := { st.node with
      transformFeatureOutputCT_ := ct
      featureOutput_ := featureOutput
      featureOutputCov_ := featureOutputCov
      featureOutputReadable_ := featureOutputReadable
      featureOutputReadableCov_ := featureOutputReadableCov
      pclMsg_ := pcl }
    points := st.points ++ [point_near_msg] ++ [point_far_msg]
    offset := offset }

/-- Body of the landmark loop for an invalid landmark (lines 674-677): the loop
`for(int j=0;j<pclMsg_.fields.size();j++)` copying `badPoint`. -/
def pclInvalid {E : Ext} (st : PclLoop E) : PclLoop E :=
  let pcl := (List.range st.node.pclMsg_.fields.length).foldl
    (fun pcl j => pclWrite pcl st.offset j badPoint) st.node.pclMsg_
  { st with node := { st.node with pclMsg_ := pcl } }

/-- One pass of `for (unsigned int i=0;i<mtState::nMax_; i++, offset += pclMsg_.point_step)`. -/
def pclLoopBody {E : Ext} (filterState : FilterState E.S) (st : PclLoop E) (i : Nat) : PclLoop E :=
  let st := if filterState.isValid_ i then pclValid filterState st i else pclInvalid st
  { st with offset := u32 (st.offset + st.node.pclMsg_.point_step) }

/-- The point cloud and the uncertainty rays (lines 583-683). -/
def publishPcl {E : Ext} (n : RovioNode E) : RovioNode E :=
  let filterState := E.safe_ n.mpFilter_
  let t := filterState.t_
  -- PointCloud2 message.
  let pcl := n.pclMsg_
  let pcl := { pcl with header := { pcl.header with seq := toUInt32 n.poseMsgSeq_ } }
  let pcl := { pcl with header := { pcl.header with stamp := t } }
  let n := { n with pclMsg_ := pcl }
  -- Marker message (Uncertainty rays).
  let st := (List.range E.nMax_).foldl (pclLoopBody filterState)
    { node := n, points := [], offset := 0 }
  let n := st.node
  let marker_msg : Marker := { frame_id := n.camera_frame_, stamp := t, points := st.points }
  -- Publish point cloud.
  let n := n.emit (Effect.pubPcl n.pclMsg_)
  -- Publish uncertainty rays.
  n.emit (Effect.pubURays marker_msg)

/-- The branch `if(mpFilter_->safe_.t_ > oldSafeTime)` of `updateAndPublish`
(lines 382-683). -/
def publish {E : Ext} (n : RovioNode E) : RovioNode E :=
  publishPcl (publishOutput (fillRovioOutput (fillOdometry (sendPoses (sendMapToWorld
    (verbosePose (transformOutput (showImages n))))))))

/-- The method `updateAndPublish` (lines 364-686). The timing statistics kept in the
function-local statics are never printed (`plotTiming` is `false`) and are left out. -/
def updateAndPublish {E : Ext} (n : RovioNode E) : RovioNode E :=
  if n.isInitialized_ then
    let oldSafeTime := (E.safe_ n.mpFilter_).t_
    let n := { n with mpFilter_ := E.updateSafe n.mpFilter_ }
    let n := n.emit Effect.updateSafe
    if (E.safe_ n.mpFilter_).t_ > oldSafeTime then publish n else n
  else n

/-! ## Callbacks -/

/-- The method `imuCallback` (lines 280-292). -/
def imuCallback {E : Ext} (n : RovioNode E) (imu_msg : Imu) : RovioNode E :=
  let n := { n with predictionMeas_ := { n.predictionMeas_ with acc := imu_msg.linear_acceleration } }
  let n := { n with predictionMeas_ := { n.predictionMeas_ with gyr := imu_msg.angular_velocity } }
  if n.isInitialized_ then
    let n := { n with mpFilter_ := E.addPredictionMeas n.mpFilter_ n.predictionMeas_ imu_msg.stamp }
    let n := n.emit (Effect.addPredictionMeas n.predictionMeas_ imu_msg.stamp)
    updateAndPublish n
  else
    let acc := n.predictionMeas_.acc
    let n := { n with mpFilter_ := E.resetWithAccelerometer n.mpFilter_ acc imu_msg.stamp }
    let n := n.emit (Effect.resetWithAccelerometer n.predictionMeas_.acc imu_msg.stamp)
    let n := n.emit (Effect.coutInitialized imu_msg.stamp)
    { n with isInitialized_ := true }

/-- The loop of lines 331-335: one "Failed Synchronization" line per valid slot. -/
def reportFailedSync {E : Ext} (n : RovioNode E) (msgTime : ℚ) : RovioNode E :=
  (List.range E.nCam_).foldl (fun (n : RovioNode E) i =>
    if n.imgUpdateMeas_.isValidPyr_ i then n.emit (Effect.coutFailedSync msgTime) else n) n

/-- Lines 330-337 of `imgCallback`: a message time different from the batch time reports
every valid slot and resets the batch to the message time. -/
def resync {E : Ext} (n : RovioNode E) (msgTime : ℚ) : RovioNode E :=
  if msgTime ≠ n.imgUpdateMeas_.imgTime_ then
    let n := reportFailedSync n msgTime
    { n with imgUpdateMeas_ := n.imgUpdateMeas_.reset msgTime }
  else n

/-- Lines 338-339 of `imgCallback`: the pyramid of camera `camID` is computed from the
image and the slot is marked valid. -/
def storeFrame {E : Ext} (n : RovioNode E) (cv_img : CvMat) (camID : Nat) : RovioNode E :=
  let aux := n.imgUpdateMeas_
  let aux := { aux with pyr_ := Function.update aux.pyr_ camID ((aux.pyr_ camID).computeFromImage cv_img) }
  let aux := { aux with isValidPyr_ := Function.update aux.isValidPyr_ camID true }
  { n with imgUpdateMeas_ := aux }

/-- Lines 341-345 of `imgCallback`: a batch with every slot valid is handed to the filter
as the image update measurement, the batch is reset and `updateAndPublish` runs. -/
def dispatch {E : Ext} (n : RovioNode E) (msgTime : ℚ) : RovioNode E :=
  if n.imgUpdateMeas_.areAllValid E.nCam_ then
    let n := { n with mpFilter_ := E.addUpdateMeas0 n.mpFilter_ n.imgUpdateMeas_ msgTime }
    let n := n.emit (Effect.addUpdateMeas0 n.imgUpdateMeas_ msgTime)
    let n := { n with imgUpdateMeas_ := n.imgUpdateMeas_.reset msgTime }
    updateAndPublish n
  else n

/-- The method `imgCallback` (lines 317-347). -/
def imgCallback {E : Ext} (n : RovioNode E) (img : Image) (camID : Nat) : RovioNode E :=
  match E.toCvCopy img with
  | none => n.emit Effect.rosError
  | some cv_img =>
    if n.isInitialized_ && !cv_img.empty then
      let msgTime := img.stamp
      dispatch (storeFrame (resync n msgTime) cv_img camID) msgTime
    else n

/-- The method `imgCallback0` (lines 299-301). -/
def imgCallback0 {E : Ext} (n : RovioNode E) (img : Image) : RovioNode E :=
  imgCallback n img 0

/-- The method `imgCallback1` (lines 308-310). -/
def imgCallback1 {E : Ext} (n : RovioNode E) (img : Image) : RovioNode E :=
  if E.nCam_ > 1 then imgCallback n img 1 else n

/-- The method `groundtruthCallback` (lines 353-360). -/
def groundtruthCallback {E : Ext} (n : RovioNode E) (transform : TransformStamped) : RovioNode E :=
  if n.isInitialized_ then
    let n := { n with poseUpdateMeas_ := { n.poseUpdateMeas_ with pos := transform.translation } }
    let n := { n with poseUpdateMeas_ := { n.poseUpdateMeas_ with att := transform.rotation } }
    let t := transform.header.stamp + E.timeOffset_ n.mpFilter_
    let n := { n with mpFilter_ := E.addUpdateMeas1 n.mpFilter_ n.poseUpdateMeas_ t }
    let n := n.emit (Effect.addUpdateMeas1 n.poseUpdateMeas_ t)
    updateAndPublish n
  else n

/-! ## Traces of callbacks -/

/-- One delivery to the node. -/
inductive Callback where
  | imu (m : Imu)
  | img (camID : Nat) (m : Image)
  | groundtruth (m : TransformStamped)

/-- The node after one delivery. -/
def RovioNode.step {E : Ext} (n : RovioNode E) : Callback → RovioNode E
  | Callback.imu m => imuCallback n m
  | Callback.img camID m => imgCallback n m camID
  | Callback.groundtruth m => groundtruthCallback n m

/-- The node after a sequence of deliveries, oldest first. -/
def RovioNode.run {E : Ext} (n : RovioNode E) (cbs : List Callback) : RovioNode E :=
  cbs.foldl RovioNode.step n

/-- An image arrival: the camera and the message. -/
structure Arrival where
  camID : Nat
  img : Image
deriving DecidableEq

/-- The guards of lines 320-328 on the message alone: it decodes, to a non-empty image. -/
def decodesNonEmpty (E : Ext) (m : Image) : Bool :=
  match E.toCvCopy m with
  | some cv_img => !cv_img.empty
  | none => false

/-- The node after a sequence of image arrivals, oldest first. -/
def RovioNode.arrive {E : Ext} (n : RovioNode E) (arrivals : List Arrival) : RovioNode E :=
  arrivals.foldl (fun n a => imgCallback n a.img a.camID) n

/-- The effects a step from `n` to `n'` appended to the log. -/
def newEffects {E : Ext} (n n' : RovioNode E) : List (Effect E) :=
  n'.log.drop n.log.length

/-- The image update measurements handed to the filter within a list of effects, with
the time they were handed over with. -/
def imgUpdates {E : Ext} (l : List (Effect E)) : List (ImgUpdateMeasAuxiliary × ℚ) :=
  l.filterMap fun e =>
    match e with
    | Effect.addUpdateMeas0 m t => some (m, t)
    | _ => none

/-- The kinds of effect. -/
inductive EffectKind where
  | rosError | coutFailedSync | coutInitialized | coutPose | addPredictionMeas
  | resetWithAccelerometer | addUpdateMeas0 | addUpdateMeas1 | updateSafe | imshow
  | sendTransform | pubPose | pubTransform | pubRovioOutput | pubOdometry | pubPcl | pubURays
deriving DecidableEq

/-- The kind of an effect. -/
def Effect.kind {E : Ext} : Effect E → EffectKind
  | Effect.rosError => EffectKind.rosError
  | Effect.coutFailedSync _ => EffectKind.coutFailedSync
  | Effect.coutInitialized _ => EffectKind.coutInitialized
  | Effect.coutPose _ => EffectKind.coutPose
  | Effect.addPredictionMeas _ _ => EffectKind.addPredictionMeas
  | Effect.resetWithAccelerometer _ _ => EffectKind.resetWithAccelerometer
  | Effect.addUpdateMeas0 _ _ => EffectKind.addUpdateMeas0
  | Effect.addUpdateMeas1 _ _ => EffectKind.addUpdateMeas1
  | Effect.updateSafe => EffectKind.updateSafe
  | Effect.imshow _ => EffectKind.imshow
  | Effect.sendTransform _ => EffectKind.sendTransform
  | Effect.pubPose _ => EffectKind.pubPose
  | Effect.pubTransform _ => EffectKind.pubTransform
  | Effect.pubRovioOutput _ => EffectKind.pubRovioOutput
  | Effect.pubOdometry _ => EffectKind.pubOdometry
  | Effect.pubPcl _ => EffectKind.pubPcl
  | Effect.pubURays _ => EffectKind.pubURays

/-- Number of effects of kind `k` in a list. -/
def countKind {E : Ext} (k : EffectKind) (l : List (Effect E)) : Nat :=
  (l.map Effect.kind).count k

/-- The arrivals stored in the batch since its last reset, as of the completeness test
of line 341 for the arrival `a` in state `n`; `h` is that list before `a`. The reset of
line 336 happens exactly when the message time differs from the batch time. -/
def batchAtTest {E : Ext} (n : RovioNode E) (h : List Arrival) (a : Arrival) : List Arrival :=
  if a.img.stamp ≠ n.imgUpdateMeas_.imgTime_ then [a] else h ++ [a]

/-- Whether the arrival `a` in state `n` reaches COMPLETE: the callback hands an image
update measurement to the filter. -/
def reachesComplete {E : Ext} (n : RovioNode E) (a : Arrival) : Bool :=
  !(imgUpdates (newEffects n (imgCallback n a.img a.camID))).isEmpty

/-- The node together with the arrivals stored in its batch since the last reset, after
one more arrival: the reset of line 343 happens exactly when the arrival reaches
COMPLETE. -/
def arriveTracked {E : Ext} (st : RovioNode E × List Arrival) (a : Arrival) :
    RovioNode E × List Arrival :=
  (imgCallback st.1 a.img a.camID,
   if reachesComplete st.1 a then [] else batchAtTest st.1 st.2 a)

/-- Number of arrivals in `h` for camera `c` with time stamp `t`. -/
def observations (h : List Arrival) (c : Nat) (t : ℚ) : Nat :=
  h.countP fun b => b.camID = c ∧ b.img.stamp = t

/-- The arrivals of a sequence of deliveries that pass the guards of lines 320-328,
`ini` being the value of `isInitialized_` before the sequence. -/
def effectiveArrivals (E : Ext) : Bool → List Callback → List Arrival
  | _, [] => []
  | _, Callback.imu _ :: rest => effectiveArrivals E true rest
  | ini, Callback.img camID m :: rest =>
      (if ini && decodesNonEmpty E m then [{ camID := camID, img := m }] else []) ++
        effectiveArrivals E ini rest
  | ini, Callback.groundtruth _ :: rest => effectiveArrivals E ini rest

/-- Every valid slot `c` of the batch `aux` holds the pyramid of the last arrival for
camera `c` in `h`, and that arrival carries the batch time. -/
def SlotsStoredFrom (E : Ext) (aux : ImgUpdateMeasAuxiliary) (h : List Arrival) : Prop :=
  ∀ c, c < E.nCam_ → aux.isValidPyr_ c = true →
    ∃ pre a post, h = pre ++ a :: post ∧ a.camID = c ∧ (∀ b ∈ post, b.camID ≠ c) ∧
      a.img.stamp = aux.imgTime_ ∧ E.toCvCopy a.img = some (aux.pyr_ c).img

/-- A stand-in filter: its safe time and the time of the newest measurement it holds. -/
structure DemoFilter where
  safeT : ℚ
  newest : ℚ
deriving DecidableEq

/-- A rational lower approximation of the square root. -/
def demoSqrt (q : ℚ) : ℚ := (Nat.sqrt (q.num.toNat * q.den) : ℚ) / q.den

/-- A stand-in for the collaborators, for running the node on concrete inputs: `nCam`
cameras, `nMax` landmark slots with validity `valid` and depth parameter `p`, images that
decode iff their encoding is `mono8`, a filter whose safe time moves to the newest
measurement, identity Jacobians and the regular distance parametrisation. -/
def demoExt (nCam nMax : Nat) (valid : Nat → Bool) (p : Nat → ℚ) : Ext :=
  { F := DemoFilter
    S := Unit
    FO := Unit
    featureOutput0 := ()
    nCam_ := nCam
    nMax_ := nMax
    imgTime0 := 0
    toCvCopy := fun m => if m.encoding = "mono8" then some { pixels := m.data } else none
    addPredictionMeas := fun f _ t => { f with newest := max f.newest t }
    resetWithAccelerometer := fun _ _ t => { safeT := t, newest := t }
    addUpdateMeas0 := fun f _ t => { f with newest := max f.newest t }
    addUpdateMeas1 := fun f _ t => { f with newest := max f.newest t }
    updateSafe := fun f => { f with safeT := f.newest }
    safe_ := fun f =>
      { t_ := f.safeT, state_ := (), cov_ := fun i j => if i = j then 1 else 0,
        isValid_ := valid, camID_ := fun _ => 0, imgEmpty := fun _ => true,
        patchDrawingEmpty := true }
    doFrameVisualisation_ := fun _ => false
    visualizePatches_ := fun _ => false
    verbose_ := fun _ => false
    inertialPoseIndex_ := fun _ => -1
    bodyPoseIndex_ := fun _ => -1
    timeOffset_ := fun _ => 0
    WrWM := fun _ => V3D.zero
    qWM := fun _ => { w := 1, x := 0, y := 0, z := 0 }
    acb := fun _ => V3D.zero
    gyb := fun _ => V3D.zero
    MrMC := fun _ _ => V3D.zero
    qCM := fun _ _ => { w := 1, x := 0, y := 0, z := 0 }
    poseLin := fun _ _ => V3D.zero
    poseRot := fun _ _ => { w := 1, x := 0, y := 0, z := 0 }
    dep := fun _ i => { type_ := 0, p_ := p i }
    CfP_nor_vec := fun _ _ => { x := 0, y := 0, z := 1 }
    outId_pos := 0
    outId_att := 9
    outId_vel := 3
    outId_ror := 6
    stateId_acb := 6
    stateId_gyb := 9
    stateId_vep := fun c => 15 + 3 * c
    stateId_vea := fun c => 15 + 3 * nCam + 3 * c
    stateId_fea := fun i => 15 + 6 * nCam + 3 * i
    stateD := 15 + 6 * nCam + 3 * nMax
    cameraOutput := fun _ =>
      { WrWB := V3D.zero, qBW := { w := 1, x := 0, y := 0, z := 0 }, BvB := V3D.zero,
        BwWB := V3D.zero }
    cameraOutputJ := fun _ i j => if i = j then 1 else 0
    attitudeToYpr := fun _ => V3D.zero
    attitudeToYprJ := fun _ i j => if i = j then 1 else 0
    transformFeature := fun _ _ _ => ()
    transformFeatureJ := fun _ _ _ i j => if i = j then 1 else 0
    featureReadable := fun _ => { bea := { x := 0, y := 0, z := 1 }, dis := 1 }
    featureReadableJ := fun _ i j => if i = j then 1 else 0
    getDistance := fun fd => fd.p_
    sqrt := demoSqrt
    inverted := fun q => { w := q.w, x := -q.x, y := -q.y, z := -q.z }
    mulF32 := fun a b => a * b
    bitsF32 := fun q => q.num.toNat % 2 ^ 32
    lowWordF64 := fun q => q.num.toNat % 2 ^ 32
    isInFront := fun _ => true
    rotatedNor := fun o => o }

/-- A decodable one-pixel image message stamped `t`. -/
def demoImage (t : ℚ) : Image := { stamp := t, encoding := "mono8", data := [0] }

/-- An inertial sample stamped `t`, at rest. -/
def demoImu (t : ℚ) : Imu :=
  { stamp := t, linear_acceleration := { x := 0, y := 0, z := 981 / 100 },
    angular_velocity := V3D.zero }

/-- The constructed node of the stand-in, with default parameters and a filter at time 0. -/
def demoNode (nCam nMax : Nat) (valid : Nat → Bool) (p : Nat → ℚ) :
    RovioNode (demoExt nCam nMax valid p) :=
  RovioNode.init (demoExt nCam nMax valid p)
    { world_frame := none, camera_frame := none, imu_frame := none } { safeT := 0, newest := 0 }

/-- The constructed stand-in node after its first inertial sample (stamped 0). -/
def demoStarted (nCam nMax : Nat) (valid : Nat → Bool) (p : Nat → ℚ) :
    RovioNode (demoExt nCam nMax valid p) :=
  imuCallback (demoNode nCam nMax valid p) (demoImu 0)

/-- Two deliveries of the camera-0 frame stamped 5 to a two-camera node. -/
def demoDuplicates : List Arrival :=
  [{ camID := 0, img := demoImage 5 }, { camID := 0, img := demoImage 5 }]

/-- The camera-1 frame stamped 5. -/
def demoSecond : Arrival := { camID := 1, img := demoImage 5 }

/-- A run of the two-camera stand-in: the first inertial sample, a camera-0 frame stamped
5 that stays alone, then both frames stamped 6. -/
def demoTrace : List Callback :=
  [Callback.imu (demoImu 0), Callback.img 0 (demoImage 5), Callback.img 0 (demoImage 6),
   Callback.img 1 (demoImage 6)]

/-- The index rule of the 6x6 covariance blocks in words: entries 0-2 count from the
first id, entries 3-5 from the second. -/
def blockIndex (idLow idHigh k : Nat) : Nat :=
  if k < 3 then idLow + k else idHigh + (k - 3)

/-- The stand-in node of one camera and one invalid landmark slot, initialised, whose
filter holds a measurement newer than its safe state. -/
def demoPending : RovioNode (demoExt 1 1 (fun _ => false) (fun _ => 1)) :=
  { demoStarted 1 1 (fun _ => false) (fun _ => 1) with mpFilter_ := { safeT := 0, newest := 1 } }

/-! ## Relations between node states used in the proofs -/

/-- The node `n'` has the filter, the flag, the batch and the counter of `n`, and its log
is the log of `n` followed by effects whose kinds are in `K`. -/
structure Appends {E : Ext} (K : List EffectKind) (n n' : RovioNode E) : Prop where
  filter : n'.mpFilter_ = n.mpFilter_
  initialized : n'.isInitialized_ = n.isInitialized_
  batch : n'.imgUpdateMeas_ = n.imgUpdateMeas_
  seq : n'.poseMsgSeq_ = n.poseMsgSeq_
  log : ∃ l, n'.log = n.log ++ l ∧ ∀ e ∈ l, e.kind ∈ K

/-- The loop state `st'` differs from `st` at most in the bytes of `pclMsg_.data`, the
members set by stages 3 and 4, the marker points and the offset. -/
structure CloudStep {E : Ext} (st st' : PclLoop E) : Prop where
  filter : st'.node.mpFilter_ = st.node.mpFilter_
  initialized : st'.node.isInitialized_ = st.node.isInitialized_
  batch : st'.node.imgUpdateMeas_ = st.node.imgUpdateMeas_
  seq : st'.node.poseMsgSeq_ = st.node.poseMsgSeq_
  log : st'.node.log = st.node.log
  frame : st'.node.camera_frame_ = st.node.camera_frame_
  header : st'.node.pclMsg_.header = st.node.pclMsg_.header
  fields : st'.node.pclMsg_.fields = st.node.pclMsg_.fields
  point_step : st'.node.pclMsg_.point_step = st.node.pclMsg_.point_step
  size : st'.node.pclMsg_.data.length = st.node.pclMsg_.data.length
  poseMsg : st'.node.poseMsg_ = st.node.poseMsg_
  transformMsg : st'.node.transformMsg_ = st.node.transformMsg_
  odometryMsg : st'.node.odometryMsg_ = st.node.odometryMsg_
  rovioOutputMsg : st'.node.rovioOutputMsg_ = st.node.rovioOutputMsg_
  outputCov : st'.node.outputCov_ = st.node.outputCov_

/-- The node is initialised and `h` lists what its batch holds: a slot is valid iff `h` has
an arrival for it, and every arrival in `h` carries the batch time. -/
def Tracks {E : Ext} (n : RovioNode E) (h : List Arrival) : Prop :=
  n.isInitialized_ = true ∧
  (∀ c, n.imgUpdateMeas_.isValidPyr_ c = true ↔ ∃ b ∈ h, b.camID = c) ∧
  ∀ b ∈ h, b.img.stamp = n.imgUpdateMeas_.imgTime_

/-- The batch `meas` handed to the filter with time `t` is complete, carries the time `t`
and was stored from a prefix of the arrivals `h`. -/
def DispatchedFrom (E : Ext) (meas : ImgUpdateMeasAuxiliary) (t : ℚ) (h : List Arrival) : Prop :=
  meas.imgTime_ = t ∧ meas.areAllValid E.nCam_ = true ∧
    ∃ h0 rest, h = h0 ++ rest ∧ SlotsStoredFrom E meas h0

/-- What a sequence of writes into the byte buffer leaves alone in the message. -/
def SameDescriptor (p q : PointCloud2) : Prop :=
  q.header = p.header ∧ q.fields = p.fields ∧ q.point_step = p.point_step ∧
    q.data.length = p.data.length

/-- The kinds of effect of the conditional parts of the publishing branch. -/
def optionalKinds : List EffectKind :=
  [EffectKind.imshow, EffectKind.coutPose, EffectKind.sendTransform]

/-- The kinds of effect of the unconditional parts of the publishing branch, in order. -/
def publishKinds : List EffectKind :=
  [EffectKind.pubPose, EffectKind.sendTransform, EffectKind.sendTransform,
   EffectKind.pubTransform, EffectKind.pubRovioOutput, EffectKind.pubOdometry,
   EffectKind.pubPcl, EffectKind.pubURays]

/-- The kinds of effect `updateAndPublish` can produce. -/
def outputKinds : List EffectKind :=
  EffectKind.updateSafe :: (optionalKinds ++ publishKinds)

/-- The safe state with its covariance multiplied by `k`, the state held fixed. -/
def FilterState.scaleCov {S : Type} (fs : FilterState S) (k : ℚ) : FilterState S :=
  { fs with cov_ := fun i j => k * fs.cov_ i j }

/-- The stage-1 output covariance of lines 397-398, from the safe state. -/
def outputCovOf (E : Ext) (fs : FilterState E.S) : MXD :=
  transformCovMat E.stateD (E.cameraOutputJ fs.state_) fs.cov_

/-- The Euler covariance of lines 513-516, from the 3x3 attitude block of the stage-1
output covariance. -/
def yprCovOf (E : Ext) (fs : FilterState E.S) : MXD :=
  transformCovMat 3 (E.attitudeToYprJ (E.cameraOutput fs.state_).qBW)
    ((outputCovOf E fs).block E.outId_att E.outId_att)

/-- The per-feature covariance of lines 629-632 for landmark `i`, from the safe state. -/
def featureCovOf (E : Ext) (fs : FilterState E.S) (i : Nat) : MXD :=
  transformCovMat E.stateD (E.transformFeatureJ i (fs.camID_ i) fs.state_) fs.cov_

/-- The readable-feature covariance of lines 633-634 for landmark `i`, from the
per-feature covariance. -/
def readableCovOf (E : Ext) (fs : FilterState E.S) (i : Nat) : MXD :=
  transformCovMat 3 (E.featureReadableJ (E.transformFeature i (fs.camID_ i) fs.state_))
    (featureCovOf E fs i)

/-- An image message stamped `t` that cv_bridge of the stand-in cannot decode. -/
def demoBadImage (t : ℚ) : Image := { stamp := t, encoding := "rgb8", data := [0, 0, 0] }

/-! ## Sequence numbers along a run -/

/-- The sequence numbers of the pose messages published within a list of effects. -/
def poseSeqs {E : Ext} (l : List (Effect E)) : List Int :=
  l.filterMap fun e =>
    match e with
    | Effect.pubPose m => some m.header.seq
    | _ => none

/-- The sequence numbers of the transform messages published within a list of effects. -/
def transformSeqs {E : Ext} (l : List (Effect E)) : List Int :=
  l.filterMap fun e =>
    match e with
    | Effect.pubTransform m => some m.header.seq
    | _ => none

/-- The list `1, 2, ..., k`. -/
def countUp (k : Nat) : List Int := (List.range k).map fun (i : Nat) => (i : Int) + 1

/-- The kinds of effect other than those of `updateAndPublish`. -/
def quietKinds : List EffectKind :=
  [EffectKind.rosError, EffectKind.coutFailedSync, EffectKind.coutInitialized,
   EffectKind.addPredictionMeas, EffectKind.resetWithAccelerometer,
   EffectKind.addUpdateMeas0, EffectKind.addUpdateMeas1]

/-- The kinds of effect that publish nothing with a sequence number of the pose or the
transform. -/
def unnumberedKinds : List EffectKind :=
  [EffectKind.rosError, EffectKind.coutFailedSync, EffectKind.coutInitialized,
   EffectKind.addPredictionMeas, EffectKind.resetWithAccelerometer,
   EffectKind.addUpdateMeas0, EffectKind.addUpdateMeas1, EffectKind.updateSafe,
   EffectKind.imshow, EffectKind.coutPose, EffectKind.sendTransform,
   EffectKind.pubRovioOutput, EffectKind.pubOdometry, EffectKind.pubPcl, EffectKind.pubURays]

/-- The node `m` has the counter and the point-cloud message of `n`, and its log is the
log of `n` followed by effects of the quiet kinds. -/
structure Quiet {E : Ext} (n m : RovioNode E) : Prop where
  seq : m.poseMsgSeq_ = n.poseMsgSeq_
  pcl : m.pclMsg_ = n.pclMsg_
  log : ∃ l, m.log = n.log ++ l ∧ ∀ e ∈ l, e.kind ∈ quietKinds

/-- What one call of `updateAndPublish`, or one callback, does to the counter: either
nothing is published and the counter is unchanged, or one pose and one transform are
published with the old counter value (converted to `uint32`) and the counter is
incremented (as an `int`). -/
def CounterStep {E : Ext} (n n' : RovioNode E) : Prop :=
  ∃ l, n'.log = n.log ++ l ∧
    ((poseSeqs l = [] ∧ transformSeqs l = [] ∧ n'.poseMsgSeq_ = n.poseMsgSeq_) ∨
     (poseSeqs l = [toUInt32 n.poseMsgSeq_] ∧ transformSeqs l = [toUInt32 n.poseMsgSeq_] ∧
       n'.poseMsgSeq_ = wrapInt32 (n.poseMsgSeq_ + 1)))

/-! ## The feature output handed to the readable stage -/

/-- Lines 250-254 of `makeTest`: the feature output of landmark 0 in camera 0 at the test
state, with a bearing that is not in front rotated by `QPD(0.0,1.0,0.0,0.0)`, as handed to
the tests of the readable stage. -/
def makeTestFeatureOutput (E : Ext) (testState : E.S) : E.FO :=
  let featureOutput := E.transformFeature 0 0 testState
  if !E.isInFront featureOutput then E.rotatedNor featureOutput else featureOutput

/-- The stand-in collaborators with a feature output that is its bearing vector: every
landmark is valid and seen along `(0, 0, -1)`, a bearing is in front when its `z` is
positive, and the rotation by the quaternion `(w, x, y, z) = (0, 1, 0, 0)` is the half turn
about the `x` axis. -/
def behindExt : Ext :=
  { demoExt 1 1 (fun _ => true) (fun _ => 1) with
    FO := V3D
    featureOutput0 := V3D.zero
    transformFeature := fun _ _ _ => { x := 0, y := 0, z := -1 }
    featureReadable := fun b => { bea := b, dis := 1 }
    featureReadableJ := fun _ i j => if i = j then 1 else 0
    isInFront := fun b => decide (0 < b.z)
    rotatedNor := fun b => { x := b.x, y := -b.y, z := -b.z } }

/-- An initialised node over `behindExt` whose filter holds a measurement newer than its
safe state. -/
def behindPending : RovioNode behindExt :=
  { RovioNode.init behindExt { world_frame := none, camera_frame := none, imu_frame := none }
      { safeT := 0, newest := 1 } with
    isInitialized_ := true }

/-! ## The distance model along the depth parameter -/

/-- The distance `getDistance()` of landmark `i` after its depth parameter `p_` has been
set to `a`. -/
def distanceAt (E : Ext) (state : E.S) (i : Nat) (a : ℚ) : ℚ :=
  E.getDistance { E.dep state i with p_ := a }

/-- The standard deviation `sigma` of line 616. -/
def depthSigma (E : Ext) (cov : MXD) (i : Nat) : ℚ :=
  E.sqrt (cov (E.stateId_fea i + 2) (E.stateId_fea i + 2))

/-- The distance model does not decrease between the depth parameters `lo` and `hi`. -/
def RisesOn (E : Ext) (state : E.S) (i : Nat) (lo hi : ℚ) : Prop :=
  ∀ a b, lo ≤ a → a ≤ b → b ≤ hi → distanceAt E state i a ≤ distanceAt E state i b

/-- The distance model does not increase between the depth parameters `lo` and `hi`. -/
def FallsOn (E : Ext) (state : E.S) (i : Nat) (lo hi : ℚ) : Prop :=
  ∀ a b, lo ≤ a → a ≤ b → b ≤ hi → distanceAt E state i b ≤ distanceAt E state i a

/-! ## Bounds of the writes into the point cloud -/

/-- The write `memcpy(&pclMsg_.data[offset + pclMsg_.fields[j].offset], ., 4)` stays inside
the message: `j` indexes the field table and the four bytes starting at the 32-bit sum
`offset + fields[j].offset` end at or before `data.size()`. -/
def WriteInBounds (pcl : PointCloud2) (offset j : Nat) : Prop :=
  j < pcl.fields.length ∧
    u32 (offset + (pcl.fields.getD j PointField.empty).offset) + 4 ≤ pcl.data.length

/-- The message `q` has the field table, the point step and the buffer size of `p`. -/
def SameLayout (p q : PointCloud2) : Prop :=
  q.fields = p.fields ∧ q.point_step = p.point_step ∧ q.data.length = p.data.length

/-- The state in which the landmark loop of `updateAndPublish` starts (lines 583-586):
header of the cloud set, no ray points, `offset = 0`. -/
def pclLoopStart {E : Ext} (n : RovioNode E) : PclLoop E :=
  let t := (E.safe_ n.mpFilter_).t_
  let pcl := n.pclMsg_
  let pcl := { pcl with header := { pcl.header with seq := toUInt32 n.poseMsgSeq_ } }
  let pcl := { pcl with header := { pcl.header with stamp := t } }
  { node := { n with pclMsg_ := pcl }, points := [], offset := 0 }

/-- The state of the landmark loop when it reaches slot `i`. -/
def pclLoopAt {E : Ext} (n : RovioNode E) (i : Nat) : PclLoop E :=
  (List.range i).foldl (pclLoopBody (E.safe_ n.mpFilter_)) (pclLoopStart n)

/-- The node on which the point-cloud part of the publishing branch runs: the node after
the parts of lines 382-581. -/
def beforePcl {E : Ext} (n : RovioNode E) : RovioNode E :=
  publishOutput (fillRovioOutput (fillOdometry (sendPoses (sendMapToWorld
    (verbosePose (transformOutput (showImages n)))))))

/-! ## Inputs of the counterexamples -/

/-- A decodable image message stamped `t` without pixels: `cv_img.empty()` holds of it. -/
def demoEmptyImage (t : ℚ) : Image := { stamp := t, encoding := "mono8", data := [] }

/-- The started stand-in node of one camera with its counter set to `c`. -/
def demoCounterAt (c : Int) : RovioNode (demoExt 1 1 (fun _ => false) (fun _ => 1)) :=
  { demoStarted 1 1 (fun _ => false) (fun _ => 1) with poseMsgSeq_ := c }

/-- A safe state of the stand-in with one valid landmark whose depth variance is `v`. -/
def demoWideState (v : ℚ) : FilterState Unit :=
  { t_ := 1, state_ := (), cov_ := fun i j => if i = j then v else 0,
    isValid_ := fun _ => true, camID_ := fun _ => 0, imgEmpty := fun _ => true,
    patchDrawingEmpty := true }

/-! # Theorems -/

/-! ## The 32-bit counter -/

theorem toUInt32_wrapInt32 (x : Int) : toUInt32 (wrapInt32 x) = toUInt32 x := by
  unfold toUInt32 wrapInt32
  omega

theorem wrapInt32_succ (x : Int) : wrapInt32 (wrapInt32 x + 1) = wrapInt32 (x + 1) := by
  unfold wrapInt32
  omega

theorem toUInt32_of_range (x : Int) (h0 : 0 ≤ x) (h1 : x < 4294967296) : toUInt32 x = x := by
  unfold toUInt32
  omega

theorem wrapInt32_of_range (x : Int) (h0 : -2147483648 ≤ x) (h1 : x ≤ 2147483647) :
    wrapInt32 x = x := by
  unfold wrapInt32
  omega

/-! ## Auxiliary facts -/

theorem foldl_rel {α β : Type} (R : α → α → Prop) (hr : ∀ a, R a a)
    (ht : ∀ a b c, R a b → R b c → R a c) (f : α → β → α) (hf : ∀ a b, R a (f a b))
    (l : List β) (a : α) : R a (l.foldl f a) := by
  induction l generalizing a with
  | nil => exact hr a
  | cons b l ih => exact ht _ _ _ (hf a b) (ih (f a b))

theorem emit_log {E : Ext} (n : RovioNode E) (e : Effect E) : (n.emit e).log = n.log ++ [e] :=
  rfl

theorem newEffects_append {E : Ext} (n n' : RovioNode E) (l : List (Effect E))
    (h : n'.log = n.log ++ l) : newEffects n n' = l := by
  simp [newEffects, h]

theorem appends_refl {E : Ext} (K : List EffectKind) (n : RovioNode E) : Appends K n n :=
  ⟨rfl, rfl, rfl, rfl, [], by simp, by simp⟩

theorem appends_trans {E : Ext} {K : List EffectKind} {a b c : RovioNode E}
    (h1 : Appends K a b) (h2 : Appends K b c) : Appends K a c := by
  obtain ⟨l1, e1, k1⟩ := h1.log
  obtain ⟨l2, e2, k2⟩ := h2.log
  refine ⟨h2.filter.trans h1.filter, h2.initialized.trans h1.initialized,
    h2.batch.trans h1.batch, h2.seq.trans h1.seq, l1 ++ l2,
    by rw [e2, e1, List.append_assoc], ?_⟩
  intro e he
  rcases List.mem_append.1 he with h | h
  · exact k1 e h
  · exact k2 e h

theorem appends_mono {E : Ext} {K K' : List EffectKind} {a b : RovioNode E}
    (h : Appends K a b) (hk : ∀ k ∈ K, k ∈ K') : Appends K' a b := by
  obtain ⟨l, e, k⟩ := h.log
  exact ⟨h.filter, h.initialized, h.batch, h.seq, l, e, fun x hx => hk _ (k x hx)⟩

theorem appends_emit {E : Ext} (K : List EffectKind) (n : RovioNode E) (e : Effect E)
    (h : e.kind ∈ K) : Appends K n (n.emit e) :=
  ⟨rfl, rfl, rfl, rfl, [e], rfl, by simpa using h⟩

theorem appends_silent {E : Ext} (K : List EffectKind) {n n' : RovioNode E}
    (h1 : n'.mpFilter_ = n.mpFilter_) (h2 : n'.isInitialized_ = n.isInitialized_)
    (h3 : n'.imgUpdateMeas_ = n.imgUpdateMeas_) (h5 : n'.poseMsgSeq_ = n.poseMsgSeq_)
    (h4 : n'.log = n.log) : Appends K n n' :=
  ⟨h1, h2, h3, h5, [], by simp [h4], by simp⟩

theorem showImages_appends {E : Ext} (n : RovioNode E) :
    Appends optionalKinds n (showImages n) := by
  unfold showImages
  have hloop : ∀ (sf : FilterState E.S) (l : List Nat) (m : RovioNode E), Appends optionalKinds m
      (l.foldl (fun (n : RovioNode E) i =>
        if !sf.imgEmpty i && E.doFrameVisualisation_ n.mpFilter_ then
          n.emit (Effect.imshow ("Tracker" ++ toString i))
        else n) m) := by
    intro sf l m
    apply foldl_rel (Appends optionalKinds) (appends_refl _) (fun _ _ _ => appends_trans)
    intro a b
    dsimp only
    split
    · exact appends_emit _ _ _ (by simp [Effect.kind, optionalKinds])
    · exact appends_refl _ _
  dsimp only
  split
  · exact appends_trans (hloop _ _ _) (appends_emit _ _ _ (by simp [Effect.kind, optionalKinds]))
  · exact hloop _ _ _

theorem transformOutput_appends {E : Ext} (n : RovioNode E) :
    Appends optionalKinds n (transformOutput n) :=
  appends_silent _ rfl rfl rfl rfl rfl

theorem verbosePose_appends {E : Ext} (n : RovioNode E) :
    Appends optionalKinds n (verbosePose n) := by
  unfold verbosePose
  have hk : ∀ (m : RovioNode E) (i : Int), Appends optionalKinds m (m.emit (Effect.coutPose i)) :=
    fun m i => appends_emit _ _ _ (by simp [Effect.kind, optionalKinds])
  split
  · dsimp only
    split <;> split
    · exact appends_trans (hk _ _) (hk _ _)
    · exact hk _ _
    · exact hk _ _
    · exact appends_refl _ _
  · exact appends_refl _ _

theorem sendMapToWorld_appends {E : Ext} (n : RovioNode E) :
    Appends optionalKinds n (sendMapToWorld n) := by
  unfold sendMapToWorld
  dsimp only
  split
  · exact appends_emit _ _ _ (by simp [Effect.kind, optionalKinds])
  · exact appends_refl _ _

/-- The conditional head of the publishing branch. -/
theorem publish_head_appends {E : Ext} (n : RovioNode E) :
    Appends optionalKinds n (sendMapToWorld (verbosePose (transformOutput (showImages n)))) :=
  appends_trans (appends_trans (appends_trans (showImages_appends n)
    (transformOutput_appends _)) (verbosePose_appends _)) (sendMapToWorld_appends _)
theorem memcpy4_length (data : List Nat) (k w : Nat) : (memcpy4 data k w).length = data.length := by
  simp [memcpy4]

theorem cloudStep_refl {E : Ext} (st : PclLoop E) : CloudStep st st :=
  ⟨rfl, rfl, rfl, rfl, rfl, rfl, rfl, rfl, rfl, rfl, rfl, rfl, rfl, rfl, rfl⟩

theorem cloudStep_trans {E : Ext} {a b c : PclLoop E} (h1 : CloudStep a b) (h2 : CloudStep b c) :
    CloudStep a c :=
  ⟨h2.filter.trans h1.filter, h2.initialized.trans h1.initialized, h2.batch.trans h1.batch,
    h2.seq.trans h1.seq, h2.log.trans h1.log, h2.frame.trans h1.frame,
    h2.header.trans h1.header, h2.fields.trans h1.fields, h2.point_step.trans h1.point_step,
    h2.size.trans h1.size, h2.poseMsg.trans h1.poseMsg, h2.transformMsg.trans h1.transformMsg,
    h2.odometryMsg.trans h1.odometryMsg, h2.rovioOutputMsg.trans h1.rovioOutputMsg,
    h2.outputCov.trans h1.outputCov⟩

theorem pclWrite_header (pcl : PointCloud2) (o j w : Nat) : (pclWrite pcl o j w).header = pcl.header := rfl
theorem pclWrite_fields (pcl : PointCloud2) (o j w : Nat) : (pclWrite pcl o j w).fields = pcl.fields := rfl
theorem pclWrite_point_step (pcl : PointCloud2) (o j w : Nat) :
    (pclWrite pcl o j w).point_step = pcl.point_step := rfl
theorem pclWrite_length (pcl : PointCloud2) (o j w : Nat) :
    (pclWrite pcl o j w).data.length = pcl.data.length := by
  simp [pclWrite, memcpy4_length]


theorem pclWriteCov_same (E : Ext) (pcl : PointCloud2) (offset : Nat) (cov : MXD) :
    SameDescriptor pcl (pclWriteCov E pcl offset cov) := by
  unfold pclWriteCov
  have h := foldl_rel (fun (a b : PointCloud2 × Nat) => SameDescriptor a.1 b.1)
    (fun a => ⟨rfl, rfl, rfl, rfl⟩)
    (fun a b c h1 h2 => ⟨h2.1.trans h1.1, h2.2.1.trans h1.2.1, h2.2.2.1.trans h1.2.2.1,
      h2.2.2.2.trans h1.2.2.2⟩)
    (fun (st : PointCloud2 × Nat) row =>
      (List.range' row (4 - row)).foldl (fun (st : PointCloud2 × Nat) col =>
        (pclWrite st.1 offset st.2 (E.lowWordF64 (cov row col)), st.2 + 1)) st)
    (by
      intro a row
      apply foldl_rel (fun (a b : PointCloud2 × Nat) => SameDescriptor a.1 b.1)
        (fun a => ⟨rfl, rfl, rfl, rfl⟩)
        (fun a b c h1 h2 => ⟨h2.1.trans h1.1, h2.2.1.trans h1.2.1, h2.2.2.1.trans h1.2.2.1,
          h2.2.2.2.trans h1.2.2.2⟩)
      intro b col
      exact ⟨rfl, rfl, rfl, pclWrite_length _ _ _ _⟩)
    (List.range 4) (pcl, 8)
  exact h

theorem pclValid_step {E : Ext} (fs : FilterState E.S) (st : PclLoop E) (i : Nat) :
    CloudStep st (pclValid fs st i) := by
  constructor
  case header =>
    simp only [pclValid]
    rw [(pclWriteCov_same E _ _ _).1]; simp only [pclWrite_header]
  case fields =>
    simp only [pclValid]
    rw [(pclWriteCov_same E _ _ _).2.1]; simp only [pclWrite_fields]
  case point_step =>
    simp only [pclValid]
    rw [(pclWriteCov_same E _ _ _).2.2.1]; simp only [pclWrite_point_step]
  case size =>
    simp only [pclValid]
    rw [(pclWriteCov_same E _ _ _).2.2.2]; simp only [pclWrite_length]
  all_goals simp only [pclValid]

theorem pclInvalid_step {E : Ext} (st : PclLoop E) : CloudStep st (pclInvalid st) := by
  have h := foldl_rel SameDescriptor (fun a => ⟨rfl, rfl, rfl, rfl⟩)
    (fun a b c h1 h2 => ⟨h2.1.trans h1.1, h2.2.1.trans h1.2.1, h2.2.2.1.trans h1.2.2.1,
      h2.2.2.2.trans h1.2.2.2⟩)
    (fun pcl j => pclWrite pcl st.offset j badPoint)
    (fun a j => ⟨rfl, rfl, rfl, pclWrite_length _ _ _ _⟩)
    (List.range st.node.pclMsg_.fields.length) st.node.pclMsg_
  constructor
  case header => simp only [pclInvalid]; exact h.1
  case fields => simp only [pclInvalid]; exact h.2.1
  case point_step => simp only [pclInvalid]; exact h.2.2.1
  case size => simp only [pclInvalid]; exact h.2.2.2
  all_goals simp only [pclInvalid]

theorem offset_step {E : Ext} (st : PclLoop E) (k : Nat) :
    CloudStep st { st with offset := k } :=
  ⟨rfl, rfl, rfl, rfl, rfl, rfl, rfl, rfl, rfl, rfl, rfl, rfl, rfl, rfl, rfl⟩

theorem pclLoopBody_step {E : Ext} (fs : FilterState E.S) (st : PclLoop E) (i : Nat) :
    CloudStep st (pclLoopBody fs st i) := by
  unfold pclLoopBody
  dsimp only
  split
  · exact cloudStep_trans (pclValid_step fs st i) (offset_step _ _)
  · exact cloudStep_trans (pclInvalid_step st) (offset_step _ _)

theorem pclLoop_step {E : Ext} (fs : FilterState E.S) (l : List Nat) (st : PclLoop E) :
    CloudStep st (l.foldl (pclLoopBody fs) st) :=
  foldl_rel CloudStep cloudStep_refl (fun _ _ _ => cloudStep_trans) _ (pclLoopBody_step fs) l st

theorem sendPoses_log {E : Ext} (n : RovioNode E) :
    ∃ l, (sendPoses n).log = n.log ++ l ∧ l.map Effect.kind =
      [EffectKind.pubPose, EffectKind.sendTransform, EffectKind.sendTransform,
       EffectKind.pubTransform] :=
  ⟨newEffects n (sendPoses n), by simp [newEffects, sendPoses, RovioNode.emit],
    by simp [newEffects, sendPoses, RovioNode.emit, Effect.kind]⟩

theorem publishOutput_log {E : Ext} (n : RovioNode E) :
    ∃ l, (publishOutput n).log = n.log ++ l ∧ l.map Effect.kind =
      [EffectKind.pubRovioOutput, EffectKind.pubOdometry] :=
  ⟨newEffects n (publishOutput n), by simp [newEffects, publishOutput, RovioNode.emit],
    by simp [newEffects, publishOutput, RovioNode.emit, Effect.kind]⟩

theorem publishPcl_loop {E : Ext} (n : RovioNode E) (pcl : PointCloud2) :
    CloudStep { node := { n with pclMsg_ := pcl }, points := [], offset := 0 }
      ((List.range E.nMax_).foldl (pclLoopBody (E.safe_ n.mpFilter_))
        { node := { n with pclMsg_ := pcl }, points := [], offset := 0 }) :=
  pclLoop_step _ _ _

theorem publishPcl_log {E : Ext} (n : RovioNode E) :
    ∃ l, (publishPcl n).log = n.log ++ l ∧ l.map Effect.kind =
      [EffectKind.pubPcl, EffectKind.pubURays] := by
  refine ⟨newEffects n (publishPcl n), ?_, ?_⟩
  · simp only [newEffects, publishPcl, RovioNode.emit, (publishPcl_loop n _).log]
    simp
  · simp only [newEffects, publishPcl, RovioNode.emit, (publishPcl_loop n _).log]
    simp [Effect.kind]

theorem publishPcl_filter {E : Ext} (n : RovioNode E) : (publishPcl n).mpFilter_ = n.mpFilter_ := by
  simp only [publishPcl, RovioNode.emit, (publishPcl_loop n _).filter]

theorem publishPcl_initialized {E : Ext} (n : RovioNode E) :
    (publishPcl n).isInitialized_ = n.isInitialized_ := by
  simp only [publishPcl, RovioNode.emit, (publishPcl_loop n _).initialized]

theorem publishPcl_batch {E : Ext} (n : RovioNode E) :
    (publishPcl n).imgUpdateMeas_ = n.imgUpdateMeas_ := by
  simp only [publishPcl, RovioNode.emit, (publishPcl_loop n _).batch]

theorem publishPcl_seq {E : Ext} (n : RovioNode E) :
    (publishPcl n).poseMsgSeq_ = n.poseMsgSeq_ := by
  simp only [publishPcl, RovioNode.emit, (publishPcl_loop n _).seq]

theorem fillRovioOutput_log {E : Ext} (n : RovioNode E) : (fillRovioOutput n).log = n.log := by
  simp only [fillRovioOutput, attitudeToYprStage]

theorem fillRovioOutput_seq {E : Ext} (n : RovioNode E) :
    (fillRovioOutput n).poseMsgSeq_ = n.poseMsgSeq_ := by
  simp only [fillRovioOutput, attitudeToYprStage]

theorem publish_tail_core {E : Ext} (m : RovioNode E) :
    let n' := publishPcl (publishOutput (fillRovioOutput (fillOdometry (sendPoses m))))
    n'.mpFilter_ = m.mpFilter_ ∧ n'.isInitialized_ = m.isInitialized_ ∧
      n'.imgUpdateMeas_ = m.imgUpdateMeas_ ∧ n'.poseMsgSeq_ = wrapInt32 (m.poseMsgSeq_ + 1) := by
  refine ⟨?_, ?_, ?_, ?_⟩
  · rw [publishPcl_filter]; simp only [publishOutput, RovioNode.emit, fillRovioOutput,
      attitudeToYprStage, fillOdometry, sendPoses]
  · rw [publishPcl_initialized]; simp only [publishOutput, RovioNode.emit, fillRovioOutput,
      attitudeToYprStage, fillOdometry, sendPoses]
  · rw [publishPcl_batch]; simp only [publishOutput, RovioNode.emit, fillRovioOutput,
      attitudeToYprStage, fillOdometry, sendPoses]
  · rw [publishPcl_seq]; simp only [publishOutput, RovioNode.emit, fillRovioOutput,
      attitudeToYprStage, fillOdometry, sendPoses]

/-- The log of the publishing branch: optional effects, then the eight unconditional
ones. -/
theorem publish_log {E : Ext} (n : RovioNode E) :
    ∃ l0 l1, (publish n).log = n.log ++ (l0 ++ l1) ∧ (∀ e ∈ l0, e.kind ∈ optionalKinds) ∧
      l1.map Effect.kind = publishKinds := by
  obtain ⟨l0, e0, k0⟩ := (publish_head_appends n).log
  let m := sendMapToWorld (verbosePose (transformOutput (showImages n)))
  obtain ⟨l1, e1, k1⟩ := sendPoses_log m
  obtain ⟨l2, e2, k2⟩ := publishOutput_log (fillRovioOutput (fillOdometry (sendPoses m)))
  obtain ⟨l3, e3, k3⟩ := publishPcl_log (publishOutput (fillRovioOutput (fillOdometry (sendPoses m))))
  have e4 : (fillRovioOutput (fillOdometry (sendPoses m))).log = (sendPoses m).log := by
    rw [fillRovioOutput_log]; rfl
  refine ⟨l0, l1 ++ l2 ++ l3, ?_, k0, ?_⟩
  · show (publishPcl (publishOutput (fillRovioOutput (fillOdometry (sendPoses m))))).log = _
    rw [e3, e2, e4, e1, e0]; simp
  · simp [k1, k2, k3, publishKinds]

theorem publish_core {E : Ext} (n : RovioNode E) :
    (publish n).mpFilter_ = n.mpFilter_ ∧ (publish n).isInitialized_ = n.isInitialized_ ∧
      (publish n).imgUpdateMeas_ = n.imgUpdateMeas_ ∧
      (publish n).poseMsgSeq_ = wrapInt32 (n.poseMsgSeq_ + 1) := by
  have h := publish_head_appends n
  have t := publish_tail_core (sendMapToWorld (verbosePose (transformOutput (showImages n))))
  exact ⟨t.1.trans h.filter, t.2.1.trans h.initialized, t.2.2.1.trans h.batch,
    t.2.2.2.trans (by rw [h.seq])⟩

theorem updateAndPublish_uninitialized {E : Ext} (n : RovioNode E) (h : n.isInitialized_ = false) :
    updateAndPublish n = n := by
  simp [updateAndPublish, h]

theorem updateAndPublish_idle {E : Ext} (n : RovioNode E) (h : n.isInitialized_ = true)
    (hna : ¬ (E.safe_ (E.updateSafe n.mpFilter_)).t_ > (E.safe_ n.mpFilter_).t_) :
    updateAndPublish n =
      ({ n with mpFilter_ := E.updateSafe n.mpFilter_ } : RovioNode E).emit Effect.updateSafe := by
  unfold updateAndPublish
  rw [if_pos h]
  dsimp only
  rw [if_neg]
  exact hna

theorem updateAndPublish_advance {E : Ext} (n : RovioNode E) (h : n.isInitialized_ = true)
    (ha : (E.safe_ (E.updateSafe n.mpFilter_)).t_ > (E.safe_ n.mpFilter_).t_) :
    updateAndPublish n =
      publish (({ n with mpFilter_ := E.updateSafe n.mpFilter_ } : RovioNode E).emit
        Effect.updateSafe) := by
  unfold updateAndPublish
  rw [if_pos h]
  dsimp only
  rw [if_pos]
  exact ha

/-- `updateAndPublish` leaves the flag and the batch alone and appends only effects of the
output kinds. -/
theorem updateAndPublish_core {E : Ext} (n : RovioNode E) :
    (updateAndPublish n).isInitialized_ = n.isInitialized_ ∧
      (updateAndPublish n).imgUpdateMeas_ = n.imgUpdateMeas_ ∧
      ∃ l, (updateAndPublish n).log = n.log ++ l ∧ ∀ e ∈ l, e.kind ∈ outputKinds := by
  cases h : n.isInitialized_ with
  | false =>
    rw [updateAndPublish_uninitialized n h]
    exact ⟨h, rfl, [], by simp, by simp⟩
  | true =>
    by_cases ha : (E.safe_ (E.updateSafe n.mpFilter_)).t_ > (E.safe_ n.mpFilter_).t_
    · rw [updateAndPublish_advance n h ha]
      obtain ⟨h1, h2, h3, _⟩ := publish_core
        (({ n with mpFilter_ := E.updateSafe n.mpFilter_ } : RovioNode E).emit Effect.updateSafe)
      obtain ⟨l0, l1, e, k0, k1⟩ := publish_log
        (({ n with mpFilter_ := E.updateSafe n.mpFilter_ } : RovioNode E).emit Effect.updateSafe)
      refine ⟨h2.trans h, h3, Effect.updateSafe :: (l0 ++ l1), ?_, ?_⟩
      · rw [e]; simp [RovioNode.emit]
      · intro x hx
        rcases List.mem_cons.1 hx with rfl | hx
        · simp [outputKinds, Effect.kind]
        · rcases List.mem_append.1 hx with hx | hx
          · have := k0 x hx
            simp only [outputKinds, List.mem_cons, List.mem_append]
            exact Or.inr (Or.inl this)
          · have : x.kind ∈ publishKinds := by
              rw [← k1]; exact List.mem_map_of_mem _ hx
            simp only [outputKinds, List.mem_cons, List.mem_append]
            exact Or.inr (Or.inr this)
    · rw [updateAndPublish_idle n h ha]
      exact ⟨h, rfl, [Effect.updateSafe], rfl, by simp [outputKinds, Effect.kind]⟩

/-! ## The image callback -/

theorem areAllValid_iff (nCam : Nat) (a : ImgUpdateMeasAuxiliary) :
    a.areAllValid nCam = true ↔ ∀ i, i < nCam → a.isValidPyr_ i = true := by
  simp [ImgUpdateMeasAuxiliary.areAllValid, List.all_eq_true]

theorem reportFailedSync_loop {E : Ext} (t : ℚ) (L : List Nat) (n : RovioNode E) :
    (L.foldl (fun (n : RovioNode E) i =>
        if n.imgUpdateMeas_.isValidPyr_ i then n.emit (Effect.coutFailedSync t) else n) n)
      = { n with log := n.log ++ List.replicate (L.countP fun i => n.imgUpdateMeas_.isValidPyr_ i)
                          (Effect.coutFailedSync t) } := by
  induction L generalizing n with
  | nil => simp
  | cons i L ih =>
    rw [List.foldl_cons, ih]
    cases h : n.imgUpdateMeas_.isValidPyr_ i with
    | false => simp [h]
    | true =>
      simp [h, RovioNode.emit, List.replicate_succ, List.countP_cons_of_pos]

theorem resync_eq {E : Ext} (n : RovioNode E) (t : ℚ) (h : t ≠ n.imgUpdateMeas_.imgTime_) :
    resync n t = { n with
      imgUpdateMeas_ := n.imgUpdateMeas_.reset t
      log := n.log ++ List.replicate (n.imgUpdateMeas_.validSlots E.nCam_) (Effect.coutFailedSync t) } := by
  unfold resync
  rw [if_pos h]
  unfold reportFailedSync
  rw [reportFailedSync_loop]
  rfl

theorem resync_same {E : Ext} (n : RovioNode E) (t : ℚ) (h : t = n.imgUpdateMeas_.imgTime_) :
    resync n t = n := by
  unfold resync
  rw [if_neg (not_not.2 h)]

/-- The kinds of the effects of `updateAndPublish`, in order. -/
theorem updateAndPublish_kinds {E : Ext} (n : RovioNode E) :
    ∃ l ks, (updateAndPublish n).log = n.log ++ l ∧ (∀ k ∈ ks, k ∈ optionalKinds) ∧
      l.map Effect.kind =
        if n.isInitialized_ = true then
          EffectKind.updateSafe ::
            (if (E.safe_ (E.updateSafe n.mpFilter_)).t_ > (E.safe_ n.mpFilter_).t_ then
              ks ++ publishKinds else [])
        else [] := by
  cases h : n.isInitialized_ with
  | false =>
    rw [updateAndPublish_uninitialized n h]
    exact ⟨[], [], by simp, by simp, by simp⟩
  | true =>
    by_cases ha : (E.safe_ (E.updateSafe n.mpFilter_)).t_ > (E.safe_ n.mpFilter_).t_
    · rw [updateAndPublish_advance n h ha]
      obtain ⟨l0, l1, e, k0, k1⟩ := publish_log
        (({ n with mpFilter_ := E.updateSafe n.mpFilter_ } : RovioNode E).emit Effect.updateSafe)
      refine ⟨Effect.updateSafe :: (l0 ++ l1), l0.map Effect.kind, ?_, ?_, ?_⟩
      · rw [e]; simp [RovioNode.emit]
      · intro k hk
        obtain ⟨x, hx, rfl⟩ := List.mem_map.1 hk
        exact k0 x hx
      · simp [ha, k1, Effect.kind]
    · rw [updateAndPublish_idle n h ha]
      exact ⟨[Effect.updateSafe], [], rfl, by simp, by simp [ha, Effect.kind]⟩

theorem count_optional {ks : List EffectKind} (hks : ∀ k ∈ ks, k ∈ optionalKinds)
    (k : EffectKind) (hk : k ∉ optionalKinds) : ks.count k = 0 :=
  List.count_eq_zero.2 fun h => hk (hks k h)

theorem imgCallback_effective {E : Ext} (n : RovioNode E) (img : Image) (camID : Nat)
    (cv : CvMat) (hdec : E.toCvCopy img = some cv) (hinit : n.isInitialized_ = true)
    (hne : cv.empty = false) :
    imgCallback n img camID = dispatch (storeFrame (resync n img.stamp) cv camID) img.stamp := by
  simp [imgCallback, hdec, hinit, hne]

theorem imgCallback_undecodable {E : Ext} (n : RovioNode E) (img : Image) (camID : Nat)
    (hdec : E.toCvCopy img = none) : imgCallback n img camID = n.emit Effect.rosError := by
  simp [imgCallback, hdec]

theorem imgCallback_skipped {E : Ext} (n : RovioNode E) (img : Image) (camID : Nat)
    (cv : CvMat) (hdec : E.toCvCopy img = some cv)
    (h : n.isInitialized_ = false ∨ cv.empty = true) : imgCallback n img camID = n := by
  rcases h with h | h <;> simp [imgCallback, hdec, h]

theorem dispatch_incomplete {E : Ext} (m : RovioNode E) (t : ℚ)
    (h : m.imgUpdateMeas_.areAllValid E.nCam_ = false) : dispatch m t = m := by
  simp [dispatch, h]

theorem dispatch_complete {E : Ext} (m : RovioNode E) (t : ℚ)
    (h : m.imgUpdateMeas_.areAllValid E.nCam_ = true) :
    dispatch m t = updateAndPublish
      { m with
        mpFilter_ := E.addUpdateMeas0 m.mpFilter_ m.imgUpdateMeas_ t
        imgUpdateMeas_ := m.imgUpdateMeas_.reset t
        log := m.log ++ [Effect.addUpdateMeas0 m.imgUpdateMeas_ t] } := by
  simp [dispatch, h, RovioNode.emit]

/-- The log after lines 330-337: one failure line per valid slot when the time differs. -/
theorem resync_log {E : Ext} (n : RovioNode E) (t : ℚ) :
    (resync n t).log = n.log ++ List.replicate
      (if t ≠ n.imgUpdateMeas_.imgTime_ then n.imgUpdateMeas_.validSlots E.nCam_ else 0)
      (Effect.coutFailedSync t) := by
  by_cases h : t = n.imgUpdateMeas_.imgTime_
  · rw [resync_same n t h]; simp [h]
  · rw [resync_eq n t h]; simp [h]

theorem resync_batch {E : Ext} (n : RovioNode E) (t : ℚ) :
    (resync n t).imgUpdateMeas_ =
      if t ≠ n.imgUpdateMeas_.imgTime_ then n.imgUpdateMeas_.reset t else n.imgUpdateMeas_ := by
  by_cases h : t = n.imgUpdateMeas_.imgTime_
  · rw [resync_same n t h]; simp [h]
  · rw [resync_eq n t h]; simp [h]

theorem resync_imgTime {E : Ext} (n : RovioNode E) (t : ℚ) :
    (resync n t).imgUpdateMeas_.imgTime_ = t := by
  by_cases h : t = n.imgUpdateMeas_.imgTime_
  · rw [resync_same n t h]; exact h.symm
  · rw [resync_eq n t h]; rfl

theorem resync_initialized {E : Ext} (n : RovioNode E) (t : ℚ) :
    (resync n t).isInitialized_ = n.isInitialized_ := by
  by_cases h : t = n.imgUpdateMeas_.imgTime_
  · rw [resync_same n t h]
  · rw [resync_eq n t h]

theorem storeFrame_valid {E : Ext} (n : RovioNode E) (cv : CvMat) (c : Nat) :
    (storeFrame n cv c).imgUpdateMeas_.isValidPyr_ =
      Function.update n.imgUpdateMeas_.isValidPyr_ c true := rfl

theorem storeFrame_pyr {E : Ext} (n : RovioNode E) (cv : CvMat) (c : Nat) :
    (storeFrame n cv c).imgUpdateMeas_.pyr_ =
      Function.update n.imgUpdateMeas_.pyr_ c { img := cv } := rfl

theorem storeFrame_imgTime {E : Ext} (n : RovioNode E) (cv : CvMat) (c : Nat) :
    (storeFrame n cv c).imgUpdateMeas_.imgTime_ = n.imgUpdateMeas_.imgTime_ := rfl

theorem storeFrame_log {E : Ext} (n : RovioNode E) (cv : CvMat) (c : Nat) :
    (storeFrame n cv c).log = n.log := rfl

theorem storeFrame_initialized {E : Ext} (n : RovioNode E) (cv : CvMat) (c : Nat) :
    (storeFrame n cv c).isInitialized_ = n.isInitialized_ := rfl

theorem imgUpdates_append {E : Ext} (l1 l2 : List (Effect E)) :
    imgUpdates (l1 ++ l2) = imgUpdates l1 ++ imgUpdates l2 := by
  simp [imgUpdates, List.filterMap_append]

theorem imgUpdates_cons_of_kind {E : Ext} (e : Effect E) (l : List (Effect E))
    (h : e.kind ≠ EffectKind.addUpdateMeas0) : imgUpdates (e :: l) = imgUpdates l := by
  cases e <;> first | rfl | exact absurd rfl h

theorem imgUpdates_of_kinds {E : Ext} (l : List (Effect E))
    (h : ∀ e ∈ l, e.kind ≠ EffectKind.addUpdateMeas0) : imgUpdates l = [] := by
  induction l with
  | nil => rfl
  | cons e l ih =>
    rw [imgUpdates_cons_of_kind e l (h e (List.mem_cons_self _ _))]
    exact ih fun x hx => h x (List.mem_cons_of_mem _ hx)

theorem countKind_append {E : Ext} (k : EffectKind) (l1 l2 : List (Effect E)) :
    countKind k (l1 ++ l2) = countKind k l1 + countKind k l2 := by
  simp [countKind]

theorem countKind_replicate {E : Ext} (k : EffectKind) (m : Nat) (e : Effect E) :
    countKind k (List.replicate m e) = if e.kind = k then m else 0 := by
  simp [countKind, List.count_replicate]

/-- The image callback on an arrival that leaves the batch incomplete. -/
theorem imgCallback_incomplete {E : Ext} (n : RovioNode E) (img : Image) (camID : Nat)
    (cv : CvMat) (hdec : E.toCvCopy img = some cv) (hinit : n.isInitialized_ = true)
    (hne : cv.empty = false)
    (h : (storeFrame (resync n img.stamp) cv camID).imgUpdateMeas_.areAllValid E.nCam_ = false) :
    imgCallback n img camID = storeFrame (resync n img.stamp) cv camID := by
  rw [imgCallback_effective n img camID cv hdec hinit hne, dispatch_incomplete _ _ h]

/-- The image callback on an arrival that completes the batch. -/
theorem imgCallback_complete {E : Ext} (n : RovioNode E) (img : Image) (camID : Nat)
    (cv : CvMat) (hdec : E.toCvCopy img = some cv) (hinit : n.isInitialized_ = true)
    (hne : cv.empty = false)
    (h : (storeFrame (resync n img.stamp) cv camID).imgUpdateMeas_.areAllValid E.nCam_ = true) :
    (imgCallback n img camID).isInitialized_ = true ∧
    (imgCallback n img camID).imgUpdateMeas_ =
      (storeFrame (resync n img.stamp) cv camID).imgUpdateMeas_.reset img.stamp ∧
    ∃ l, (imgCallback n img camID).log = (storeFrame (resync n img.stamp) cv camID).log ++
        Effect.addUpdateMeas0 (storeFrame (resync n img.stamp) cv camID).imgUpdateMeas_
          img.stamp :: l ∧
      countKind EffectKind.updateSafe l = 1 ∧ ∀ e ∈ l, e.kind ∈ outputKinds := by
  rw [imgCallback_effective n img camID cv hdec hinit hne, dispatch_complete _ _ h]
  have hi : (storeFrame (resync n img.stamp) cv camID).isInitialized_ = true := by
    rw [storeFrame_initialized, resync_initialized, hinit]
  generalize storeFrame (resync n img.stamp) cv camID = m at hi h ⊢
  generalize hm : ({ m with
      mpFilter_ := E.addUpdateMeas0 m.mpFilter_ m.imgUpdateMeas_ img.stamp
      imgUpdateMeas_ := m.imgUpdateMeas_.reset img.stamp
      log := m.log ++ [Effect.addUpdateMeas0 m.imgUpdateMeas_ img.stamp] } : RovioNode E) = m'
  have hi' : m'.isInitialized_ = true := by rw [← hm]; exact hi
  have hb' : m'.imgUpdateMeas_ = m.imgUpdateMeas_.reset img.stamp := by rw [← hm]
  have hl' : m'.log = m.log ++ [Effect.addUpdateMeas0 m.imgUpdateMeas_ img.stamp] := by rw [← hm]
  obtain ⟨l, ks, e, hks, hk⟩ := updateAndPublish_kinds m'
  obtain ⟨c1, c2, l', e', hl⟩ := updateAndPublish_core m'
  have hll : l' = l := List.append_cancel_left (e'.symm.trans e)
  subst hll
  refine ⟨c1.trans hi', c2.trans hb', l', ?_, ?_, hl⟩
  · rw [e, hl', List.append_assoc]; rfl
  · rw [hi'] at hk
    simp only [if_true] at hk
    unfold countKind
    rw [hk]
    split
    · rw [List.count_cons_self, List.count_append, count_optional hks _ (by decide)]
      decide
    · decide

theorem countKind_of_kinds {E : Ext} (K : List EffectKind) (k : EffectKind) (hk : k ∉ K)
    (l : List (Effect E)) (h : ∀ e ∈ l, e.kind ∈ K) : countKind k l = 0 := by
  unfold countKind
  apply List.count_eq_zero.2
  intro hm
  obtain ⟨e, he, rfl⟩ := List.mem_map.1 hm
  exact hk (h e he)

/-- The effects of the image callback on an arrival that passes the guards: the failure
lines of the re-synchronisation, then, when the batch is complete, the image update and
the effects of `updateAndPublish`. -/
theorem imgCallback_newEffects {E : Ext} (n : RovioNode E) (img : Image) (camID : Nat)
    (cv : CvMat) (hdec : E.toCvCopy img = some cv) (hinit : n.isInitialized_ = true)
    (hne : cv.empty = false) :
    ∃ l2, newEffects n (imgCallback n img camID) = List.replicate
        (if img.stamp ≠ n.imgUpdateMeas_.imgTime_ then n.imgUpdateMeas_.validSlots E.nCam_ else 0)
        (Effect.coutFailedSync img.stamp) ++ l2 ∧
      (((storeFrame (resync n img.stamp) cv camID).imgUpdateMeas_.areAllValid E.nCam_ = false ∧
          l2 = []) ∨
        ((storeFrame (resync n img.stamp) cv camID).imgUpdateMeas_.areAllValid E.nCam_ = true ∧
          ∃ l, l2 = Effect.addUpdateMeas0
              (storeFrame (resync n img.stamp) cv camID).imgUpdateMeas_ img.stamp :: l ∧
            countKind EffectKind.updateSafe l = 1 ∧ ∀ e ∈ l, e.kind ∈ outputKinds)) := by
  cases h : (storeFrame (resync n img.stamp) cv camID).imgUpdateMeas_.areAllValid E.nCam_ with
  | false =>
    refine ⟨[], ?_, Or.inl ⟨rfl, rfl⟩⟩
    apply newEffects_append
    rw [imgCallback_incomplete n img camID cv hdec hinit hne h, storeFrame_log, resync_log]
    simp
  | true =>
    obtain ⟨_, _, l, e, h1, h2⟩ := imgCallback_complete n img camID cv hdec hinit hne h
    refine ⟨_, ?_, Or.inr ⟨rfl, l, rfl, h1, h2⟩⟩
    apply newEffects_append
    rw [e, storeFrame_log, resync_log, List.append_assoc]

/-- The batch after the image callback on an arrival that passes the guards. -/
theorem imgCallback_batch {E : Ext} (n : RovioNode E) (img : Image) (camID : Nat)
    (cv : CvMat) (hdec : E.toCvCopy img = some cv) (hinit : n.isInitialized_ = true)
    (hne : cv.empty = false) :
    (imgCallback n img camID).isInitialized_ = true ∧
    (imgCallback n img camID).imgUpdateMeas_.imgTime_ = img.stamp ∧
    ((storeFrame (resync n img.stamp) cv camID).imgUpdateMeas_.areAllValid E.nCam_ = false →
      (imgCallback n img camID).imgUpdateMeas_ =
        (storeFrame (resync n img.stamp) cv camID).imgUpdateMeas_) ∧
    ((storeFrame (resync n img.stamp) cv camID).imgUpdateMeas_.areAllValid E.nCam_ = true →
      (imgCallback n img camID).imgUpdateMeas_ =
        (storeFrame (resync n img.stamp) cv camID).imgUpdateMeas_.reset img.stamp) := by
  cases h : (storeFrame (resync n img.stamp) cv camID).imgUpdateMeas_.areAllValid E.nCam_ with
  | false =>
    rw [imgCallback_incomplete n img camID cv hdec hinit hne h]
    refine ⟨?_, ?_, fun _ => rfl, fun h' => absurd h' (by simp)⟩
    · rw [storeFrame_initialized, resync_initialized, hinit]
    · rw [storeFrame_imgTime, resync_imgTime]
  | true =>
    obtain ⟨h1, h2, _⟩ := imgCallback_complete n img camID cv hdec hinit hne h
    refine ⟨h1, ?_, fun h' => absurd h' (by simp), fun _ => h2⟩
    rw [h2]; rfl

theorem imgUpdates_failedSync {E : Ext} (m : Nat) (t : ℚ) :
    imgUpdates (List.replicate m (Effect.coutFailedSync t) : List (Effect E)) = [] :=
  imgUpdates_of_kinds _ fun x hx => by
    rw [List.eq_of_mem_replicate hx]; simp [Effect.kind]

/-- The image updates the image callback hands to the filter on an arrival that passes
the guards. -/
theorem imgCallback_imgUpdates {E : Ext} (n : RovioNode E) (img : Image)
    (camID : Nat) (cv : CvMat) (hdec : E.toCvCopy img = some cv)
    (hinit : n.isInitialized_ = true) (hne : cv.empty = false) :
    ((storeFrame (resync n img.stamp) cv camID).imgUpdateMeas_.areAllValid E.nCam_ = true →
      imgUpdates (newEffects n (imgCallback n img camID)) =
        [((storeFrame (resync n img.stamp) cv camID).imgUpdateMeas_, img.stamp)]) ∧
    ((storeFrame (resync n img.stamp) cv camID).imgUpdateMeas_.areAllValid E.nCam_ = false →
      imgUpdates (newEffects n (imgCallback n img camID)) = []) := by
  obtain ⟨l2, e, hl2⟩ := imgCallback_newEffects n img camID cv hdec hinit hne
  constructor
  · intro h
    rcases hl2 with ⟨h', _⟩ | ⟨_, l, rfl, hu, hk⟩
    · rw [h] at h'; exact absurd h' (by simp)
    · rw [e, imgUpdates_append, imgUpdates_failedSync, List.nil_append]
      have : imgUpdates l = [] := imgUpdates_of_kinds l fun x hx hx' => by
        have := hk x hx
        rw [hx'] at this
        exact absurd this (by decide)
      show _ :: imgUpdates l = _
      rw [this]
  · intro h
    rcases hl2 with ⟨_, rfl⟩ | ⟨h', _⟩
    · rw [e, imgUpdates_append, imgUpdates_failedSync]; rfl
    · rw [h] at h'; exact absurd h' (by simp)

/-- The image callback on a message that fails the guards of lines 320-328 adds at most
the error report. -/
theorem imgCallback_ineffective_effects {E : Ext} (n : RovioNode E) (img : Image) (camID : Nat)
    (h : (n.isInitialized_ && decodesNonEmpty E img) = false) :
    newEffects n (imgCallback n img camID) = [] ∨
      newEffects n (imgCallback n img camID) = [Effect.rosError] := by
  cases hdec : E.toCvCopy img with
  | none =>
    rw [imgCallback_undecodable n img camID hdec]
    exact Or.inr (newEffects_append _ _ _ rfl)
  | some cv =>
    have : n.isInitialized_ = false ∨ cv.empty = true := by
      cases hi : n.isInitialized_ with
      | false => exact Or.inl rfl
      | true =>
        right
        simp [hi, decodesNonEmpty, hdec] at h
        exact h
    rw [imgCallback_skipped n img camID cv hdec this]
    exact Or.inl (newEffects_append _ _ [] (by simp))

/-- Claim C3. Whenever an image arrival (decoded, non-empty, on an initialised node) makes
every camera slot valid, the batch is handed to the filter exactly once, as one image
update measurement stamped with the arriving time, one safe-state refresh is requested,
and afterwards every slot is invalid; whenever some slot is still invalid after the frame
is stored, no image update is handed over and no safe-state refresh is requested. A
message that fails the guards (not initialised, not decodable, empty) hands nothing over
and requests no refresh either. -/
theorem imgCallback_dispatches_complete_batch_once {E : Ext} (n : RovioNode E) (img : Image)
    (camID : Nat) :
    (∀ cv, E.toCvCopy img = some cv → n.isInitialized_ = true → cv.empty = false →
      ((storeFrame (resync n img.stamp) cv camID).imgUpdateMeas_.areAllValid E.nCam_ = true →
        imgUpdates (newEffects n (imgCallback n img camID)) =
          [((storeFrame (resync n img.stamp) cv camID).imgUpdateMeas_, img.stamp)] ∧
        countKind EffectKind.addUpdateMeas0 (newEffects n (imgCallback n img camID)) = 1 ∧
        countKind EffectKind.updateSafe (newEffects n (imgCallback n img camID)) = 1 ∧
        ∀ i, (imgCallback n img camID).imgUpdateMeas_.isValidPyr_ i = false) ∧
      ((storeFrame (resync n img.stamp) cv camID).imgUpdateMeas_.areAllValid E.nCam_ = false →
        imgUpdates (newEffects n (imgCallback n img camID)) = [] ∧
        countKind EffectKind.addUpdateMeas0 (newEffects n (imgCallback n img camID)) = 0 ∧
        countKind EffectKind.updateSafe (newEffects n (imgCallback n img camID)) = 0)) ∧
    ((n.isInitialized_ && decodesNonEmpty E img) = false →
      imgUpdates (newEffects n (imgCallback n img camID)) = [] ∧
      countKind EffectKind.addUpdateMeas0 (newEffects n (imgCallback n img camID)) = 0 ∧
      countKind EffectKind.updateSafe (newEffects n (imgCallback n img camID)) = 0) := by
  constructor
  · intro cv hdec hinit hne
    obtain ⟨l2, e, hl2⟩ := imgCallback_newEffects n img camID cv hdec hinit hne
    obtain ⟨_, _, _, hb⟩ := imgCallback_batch n img camID cv hdec hinit hne
    have hu := imgCallback_imgUpdates n img camID cv hdec hinit hne
    constructor
    · intro h
      rcases hl2 with ⟨h', _⟩ | ⟨_, l, rfl, hu1, hk⟩
      · rw [h] at h'; exact absurd h' (by simp)
      · refine ⟨hu.1 h, ?_, ?_, ?_⟩
        · rw [e, countKind_append, countKind_replicate]
          have : countKind EffectKind.addUpdateMeas0 l = 0 :=
            countKind_of_kinds outputKinds _ (by decide) l hk
          simp [countKind, Effect.kind] at this ⊢
          exact this
        · rw [e, countKind_append, countKind_replicate]
          simp [countKind, Effect.kind] at hu1 ⊢
          exact hu1
        · intro i
          rw [hb h]; rfl
    · intro h
      rcases hl2 with ⟨_, rfl⟩ | ⟨h', _⟩
      · refine ⟨hu.2 h, ?_, ?_⟩
        · rw [e, countKind_append, countKind_replicate]; simp [countKind, Effect.kind]
        · rw [e, countKind_append, countKind_replicate]; simp [countKind, Effect.kind]
      · rw [h] at h'; exact absurd h' (by simp)
  · intro h
    rcases imgCallback_ineffective_effects n img camID h with e | e <;> rw [e] <;>
      simp [imgUpdates, countKind, Effect.kind]

theorem imgCallback_dispatches_complete_batch_once_witness :
    (demoExt 1 1 (fun _ => false) (fun _ => 1)).toCvCopy (demoImage 5) = some { pixels := [0] } ∧
    (demoStarted 1 1 (fun _ => false) (fun _ => 1)).isInitialized_ = true ∧
    CvMat.empty { pixels := [0] } = false ∧
    imgUpdates (newEffects (demoStarted 1 1 (fun _ => false) (fun _ => 1))
      (imgCallback (demoStarted 1 1 (fun _ => false) (fun _ => 1)) (demoImage 5) 0)) =
      [((storeFrame (resync (demoStarted 1 1 (fun _ => false) (fun _ => 1)) 5) { pixels := [0] }
          0).imgUpdateMeas_, 5)] :=
  ⟨by decide, by decide, by decide,
    (((imgCallback_dispatches_complete_batch_once (demoStarted 1 1 (fun _ => false) (fun _ => 1))
      (demoImage 5) 0).1 { pixels := [0] } (by decide) (by decide) (by decide)).1 (by decide)).1⟩

/-- Claim C2. In a state of an initialised node in which at least one slot is valid, a
decoded, non-empty image whose time stamp differs from the batch time is reported as a
synchronisation failure (one line per valid slot, so at least one), the batch is reset to
the new time before the frame is stored, and after the callback the batch time is the new
time stamp and no slot other than the arriving camera's is valid. -/
theorem imgCallback_resets_stale_batch {E : Ext} (n : RovioNode E) (img : Image)
    (camID : Nat) (cv : CvMat) (hdec : E.toCvCopy img = some cv)
    (hinit : n.isInitialized_ = true) (hne : cv.empty = false)
    (hvalid : ∃ i, i < E.nCam_ ∧ n.imgUpdateMeas_.isValidPyr_ i = true)
    (hnew : img.stamp ≠ n.imgUpdateMeas_.imgTime_) :
    countKind EffectKind.coutFailedSync (newEffects n (imgCallback n img camID)) =
      n.imgUpdateMeas_.validSlots E.nCam_ ∧
    1 ≤ countKind EffectKind.coutFailedSync (newEffects n (imgCallback n img camID)) ∧
    (resync n img.stamp).imgUpdateMeas_ = n.imgUpdateMeas_.reset img.stamp ∧
    imgCallback n img camID = dispatch (storeFrame (resync n img.stamp) cv camID) img.stamp ∧
    (imgCallback n img camID).imgUpdateMeas_.imgTime_ = img.stamp ∧
    ∀ i, i ≠ camID → (imgCallback n img camID).imgUpdateMeas_.isValidPyr_ i = false := by
  obtain ⟨l2, e, hl2⟩ := imgCallback_newEffects n img camID cv hdec hinit hne
  obtain ⟨_, ht, hb0, hb1⟩ := imgCallback_batch n img camID cv hdec hinit hne
  have hcount : countKind EffectKind.coutFailedSync (newEffects n (imgCallback n img camID)) =
      n.imgUpdateMeas_.validSlots E.nCam_ := by
    rw [e, countKind_append, countKind_replicate, if_pos hnew]
    rcases hl2 with ⟨_, rfl⟩ | ⟨_, l, rfl, _, hk⟩
    · simp [countKind, Effect.kind]
    · have : countKind EffectKind.coutFailedSync l = 0 :=
        countKind_of_kinds outputKinds _ (by decide) l hk
      simp [countKind, Effect.kind] at this ⊢
      exact this
  have hpos : 1 ≤ n.imgUpdateMeas_.validSlots E.nCam_ := by
    obtain ⟨i, hi, hv⟩ := hvalid
    unfold ImgUpdateMeasAuxiliary.validSlots
    exact List.countP_pos_iff.2 ⟨i, List.mem_range.2 hi, hv⟩
  refine ⟨hcount, hcount ▸ hpos, ?_, imgCallback_effective n img camID cv hdec hinit hne, ht, ?_⟩
  · rw [resync_batch, if_pos hnew]
  · intro i hi
    have hs : (storeFrame (resync n img.stamp) cv camID).imgUpdateMeas_.isValidPyr_ i = false := by
      rw [storeFrame_valid, Function.update_noteq hi, resync_batch, if_pos hnew]
      rfl
    cases h : (storeFrame (resync n img.stamp) cv camID).imgUpdateMeas_.areAllValid E.nCam_ with
    | false => rw [hb0 h]; exact hs
    | true => rw [hb1 h]; rfl

theorem imgCallback_resets_stale_batch_witness :
    (demoExt 2 1 (fun _ => false) (fun _ => 1)).toCvCopy (demoImage 6) = some { pixels := [0] } ∧
    (imgCallback (demoStarted 2 1 (fun _ => false) (fun _ => 1)) (demoImage 5)
      0).isInitialized_ = true ∧
    CvMat.empty { pixels := [0] } = false ∧
    (∃ i, i < 2 ∧ (imgCallback (demoStarted 2 1 (fun _ => false) (fun _ => 1)) (demoImage 5)
      0).imgUpdateMeas_.isValidPyr_ i = true) ∧
    (demoImage 6).stamp ≠ (imgCallback (demoStarted 2 1 (fun _ => false) (fun _ => 1))
      (demoImage 5) 0).imgUpdateMeas_.imgTime_ ∧
    countKind EffectKind.coutFailedSync
      (newEffects (imgCallback (demoStarted 2 1 (fun _ => false) (fun _ => 1)) (demoImage 5) 0)
        (imgCallback (imgCallback (demoStarted 2 1 (fun _ => false) (fun _ => 1)) (demoImage 5) 0)
          (demoImage 6) 1)) = 1 :=
  ⟨by decide, by decide, by decide, ⟨0, by decide, by decide⟩, by decide,
    (imgCallback_resets_stale_batch
      (imgCallback (demoStarted 2 1 (fun _ => false) (fun _ => 1)) (demoImage 5) 0)
      (demoImage 6) 1 { pixels := [0] } (by decide) (by decide) (by decide)
      ⟨0, by decide, by decide⟩ (by decide)).1.trans (by decide)⟩

/-! ## Completeness of a batch -/

theorem decodesNonEmpty_iff (E : Ext) (m : Image) :
    decodesNonEmpty E m = true ↔ ∃ cv, E.toCvCopy m = some cv ∧ cv.empty = false := by
  unfold decodesNonEmpty
  cases h : E.toCvCopy m with
  | none => simp
  | some cv => simp

theorem reachesComplete_iff {E : Ext} (n : RovioNode E) (a : Arrival) (cv : CvMat)
    (hdec : E.toCvCopy a.img = some cv) (hinit : n.isInitialized_ = true)
    (hne : cv.empty = false) :
    reachesComplete n a = true ↔
      (storeFrame (resync n a.img.stamp) cv a.camID).imgUpdateMeas_.areAllValid E.nCam_ = true := by
  have h := imgCallback_imgUpdates n a.img a.camID cv hdec hinit hne
  unfold reachesComplete
  cases hv : (storeFrame (resync n a.img.stamp) cv a.camID).imgUpdateMeas_.areAllValid E.nCam_ with
  | false => rw [h.2 hv]; simp
  | true => rw [h.1 hv]; simp

theorem stored_valid_iff {E : Ext} (n : RovioNode E) (h : List Arrival) (a : Arrival)
    (cv : CvMat) (ht : Tracks n h) (c : Nat) :
    (storeFrame (resync n a.img.stamp) cv a.camID).imgUpdateMeas_.isValidPyr_ c = true ↔
      ∃ b ∈ batchAtTest n h a, b.camID = c := by
  rw [storeFrame_valid, resync_batch]
  unfold batchAtTest
  by_cases hs : a.img.stamp = n.imgUpdateMeas_.imgTime_
  · rw [if_neg (not_not.2 hs), if_neg (not_not.2 hs)]
    by_cases hc : c = a.camID
    · subst hc
      simp only [Function.update_same, true_iff]
      exact ⟨a, by simp, rfl⟩
    · rw [Function.update_noteq hc, ht.2.1 c]
      constructor
      · rintro ⟨b, hb, rfl⟩; exact ⟨b, List.mem_append_left _ hb, rfl⟩
      · rintro ⟨b, hb, rfl⟩
        rcases List.mem_append.1 hb with hb | hb
        · exact ⟨b, hb, rfl⟩
        · rw [List.mem_singleton.1 hb] at hc; exact absurd rfl hc
  · rw [if_pos hs, if_pos hs]
    by_cases hc : c = a.camID
    · subst hc
      simp only [Function.update_same, true_iff]
      exact ⟨a, by simp, rfl⟩
    · rw [Function.update_noteq hc]
      simp [ImgUpdateMeasAuxiliary.reset]
      exact fun h => hc h.symm

theorem batchAtTest_stamp {E : Ext} (n : RovioNode E) (h : List Arrival) (a : Arrival)
    (ht : Tracks n h) : ∀ b ∈ batchAtTest n h a, b.img.stamp = a.img.stamp := by
  intro b hb
  unfold batchAtTest at hb
  by_cases hs : a.img.stamp = n.imgUpdateMeas_.imgTime_
  · rw [if_neg (not_not.2 hs)] at hb
    rcases List.mem_append.1 hb with hb | hb
    · rw [ht.2.2 b hb, hs]
    · rw [List.mem_singleton.1 hb]
  · rw [if_pos hs] at hb
    rw [List.mem_singleton.1 hb]

theorem arriveTracked_tracks {E : Ext} (n : RovioNode E) (h : List Arrival) (a : Arrival)
    (ht : Tracks n h) (hok : decodesNonEmpty E a.img = true) :
    Tracks (arriveTracked (n, h) a).1 (arriveTracked (n, h) a).2 := by
  obtain ⟨cv, hdec, hne⟩ := (decodesNonEmpty_iff E a.img).1 hok
  obtain ⟨hi, htime, hb0, hb1⟩ := imgCallback_batch n a.img a.camID cv hdec ht.1 hne
  have hrc := reachesComplete_iff n a cv hdec ht.1 hne
  unfold arriveTracked
  dsimp only
  cases hv : (storeFrame (resync n a.img.stamp) cv a.camID).imgUpdateMeas_.areAllValid E.nCam_ with
  | true =>
    rw [if_pos (hrc.2 hv)]
    refine ⟨hi, ?_, by simp⟩
    intro c
    rw [hb1 hv]
    simp [ImgUpdateMeasAuxiliary.reset]
  | false =>
    have : ¬ reachesComplete n a = true := fun h' => by
      rw [hrc.1 h'] at hv; exact absurd hv (by simp)
    rw [if_neg this]
    refine ⟨hi, ?_, ?_⟩
    · intro c
      rw [hb0 hv]
      exact stored_valid_iff n h a cv ht c
    · intro b hb
      rw [htime]
      exact batchAtTest_stamp n h a ht b hb

theorem foldl_arriveTracked_tracks {E : Ext} (pre : List Arrival) (n : RovioNode E)
    (h : List Arrival) (ht : Tracks n h) (hok : ∀ b ∈ pre, decodesNonEmpty E b.img = true) :
    Tracks (pre.foldl arriveTracked (n, h)).1 (pre.foldl arriveTracked (n, h)).2 := by
  induction pre generalizing n h with
  | nil => exact ht
  | cons a pre ih =>
    rw [List.foldl_cons]
    exact ih _ _ (arriveTracked_tracks n h a ht (hok a (List.mem_cons_self _ _)))
      fun b hb => hok b (List.mem_cons_of_mem _ hb)

/-- Claim C1, amended. For every camera count and every sequence of decoded, non-empty
image arrivals (camera index below the camera count) on an initialised node that starts
with an empty batch, an arrival reaches COMPLETE iff, since the last reset of the batch
and including this arrival, every camera slot has been observed at least once with the
time stamp of this arrival. -/
theorem complete_iff_every_slot_observed {E : Ext} (n0 : RovioNode E)
    (hinit : n0.isInitialized_ = true)
    (hempty : ∀ c, n0.imgUpdateMeas_.isValidPyr_ c = false)
    (pre : List Arrival) (a : Arrival)
    (hok : ∀ b ∈ pre ++ [a], b.camID < E.nCam_ ∧ decodesNonEmpty E b.img = true) :
    reachesComplete (pre.foldl arriveTracked (n0, [])).1 a = true ↔
      ∀ c, c < E.nCam_ →
        1 ≤ observations (batchAtTest (pre.foldl arriveTracked (n0, [])).1
          (pre.foldl arriveTracked (n0, [])).2 a) c a.img.stamp := by
  have ht0 : Tracks n0 [] := ⟨hinit, fun c => by simp [hempty c], by simp⟩
  have ht := foldl_arriveTracked_tracks pre n0 [] ht0
    fun b hb => (hok b (List.mem_append_left _ hb)).2
  obtain ⟨cv, hdec, hne⟩ := (decodesNonEmpty_iff E a.img).1
    (hok a (List.mem_append_right _ (List.mem_singleton_self a))).2
  rw [reachesComplete_iff _ a cv hdec ht.1 hne, areAllValid_iff]
  constructor
  · intro h c hc
    obtain ⟨b, hb, hbc⟩ := (stored_valid_iff _ _ a cv ht c).1 (h c hc)
    unfold observations
    exact List.countP_pos_iff.2 ⟨b, hb, by
      simp [hbc, batchAtTest_stamp _ _ a ht b hb]⟩
  · intro h c hc
    obtain ⟨b, hb, hp⟩ := List.countP_pos_iff.1 (h c hc)
    exact (stored_valid_iff _ _ a cv ht c).2 ⟨b, hb, by simpa using (of_decide_eq_true hp).1⟩

theorem complete_iff_every_slot_observed_witness :
    (demoStarted 2 1 (fun _ => false) (fun _ => 1)).isInitialized_ = true ∧
    (∀ c, (demoStarted 2 1 (fun _ => false) (fun _ => 1)).imgUpdateMeas_.isValidPyr_ c = false) ∧
    (∀ b ∈ demoDuplicates ++ [demoSecond],
      b.camID < 2 ∧ decodesNonEmpty (demoExt 2 1 (fun _ => false) (fun _ => 1)) b.img = true) ∧
    (reachesComplete
        (demoDuplicates.foldl arriveTracked (demoStarted 2 1 (fun _ => false) (fun _ => 1), [])).1
        demoSecond = true ↔
      ∀ c, c < 2 →
        1 ≤ observations (batchAtTest
          (demoDuplicates.foldl arriveTracked (demoStarted 2 1 (fun _ => false) (fun _ => 1), [])).1
          (demoDuplicates.foldl arriveTracked (demoStarted 2 1 (fun _ => false) (fun _ => 1), [])).2
          demoSecond) c demoSecond.img.stamp) :=
  ⟨by decide, fun _ => rfl, by decide,
    complete_iff_every_slot_observed (demoStarted 2 1 (fun _ => false) (fun _ => 1))
      (by decide) (fun _ => rfl) demoDuplicates demoSecond (by decide)⟩

/-- Claim C1 as stated fails: on an initialised two-camera node with an empty batch,
camera 0 delivers the frame stamped 5 twice and camera 1 then delivers its frame stamped
5. The last arrival reaches COMPLETE although slot 0 has been observed twice, not exactly
once, since the last reset. -/
theorem complete_after_duplicate_observation :
    reachesComplete
      (demoDuplicates.foldl arriveTracked (demoStarted 2 1 (fun _ => false) (fun _ => 1), [])).1
      demoSecond = true ∧
    observations (batchAtTest
      (demoDuplicates.foldl arriveTracked (demoStarted 2 1 (fun _ => false) (fun _ => 1), [])).1
      (demoDuplicates.foldl arriveTracked (demoStarted 2 1 (fun _ => false) (fun _ => 1), [])).2
      demoSecond) 0 demoSecond.img.stamp = 2 ∧
    ¬ (reachesComplete
        (demoDuplicates.foldl arriveTracked (demoStarted 2 1 (fun _ => false) (fun _ => 1), [])).1
        demoSecond = true ↔
      ∀ c, c < 2 →
        observations (batchAtTest
          (demoDuplicates.foldl arriveTracked (demoStarted 2 1 (fun _ => false) (fun _ => 1), [])).1
          (demoDuplicates.foldl arriveTracked (demoStarted 2 1 (fun _ => false) (fun _ => 1), [])).2
          demoSecond) c demoSecond.img.stamp = 1) := by
  decide

/-! ## Provenance of the slots -/

theorem stored_slots {E : Ext} (n : RovioNode E) (h : List Arrival) (a : Arrival) (cv : CvMat)
    (hdec : E.toCvCopy a.img = some cv) (hs : SlotsStoredFrom E n.imgUpdateMeas_ h) :
    SlotsStoredFrom E (storeFrame (resync n a.img.stamp) cv a.camID).imgUpdateMeas_ (h ++ [a]) := by
  intro c hc hv
  rw [storeFrame_imgTime, resync_imgTime, storeFrame_pyr]
  rw [storeFrame_valid] at hv
  by_cases hca : c = a.camID
  · subst hca
    refine ⟨h, a, [], rfl, rfl, by simp, rfl, ?_⟩
    rw [Function.update_same]; exact hdec
  · rw [Function.update_noteq hca] at hv ⊢
    rw [resync_batch] at hv ⊢
    by_cases ht : a.img.stamp = n.imgUpdateMeas_.imgTime_
    · rw [if_neg (not_not.2 ht)] at hv ⊢
      obtain ⟨pre, b, post, e, hb, hpost, hst, hp⟩ := hs c hc hv
      refine ⟨pre, b, post ++ [a], by rw [e]; simp, hb, ?_, hst.trans ht.symm, hp⟩
      intro x hx
      rcases List.mem_append.1 hx with hx | hx
      · exact hpost x hx
      · rw [List.mem_singleton.1 hx]; exact fun h' => hca h'.symm
    · rw [if_pos ht] at hv
      exact absurd hv (by simp [ImgUpdateMeasAuxiliary.reset])

theorem dispatchedFrom_append {E : Ext} {meas : ImgUpdateMeasAuxiliary} {t : ℚ}
    {h : List Arrival} (hd : DispatchedFrom E meas t h) (h' : List Arrival) :
    DispatchedFrom E meas t (h ++ h') := by
  obtain ⟨h1, h2, h0, rest, e, hs⟩ := hd
  exact ⟨h1, h2, h0, rest ++ h', by rw [e, List.append_assoc], hs⟩

theorem imgUpdates_emit_other {E : Ext} (n : RovioNode E) (e : Effect E)
    (h : e.kind ≠ EffectKind.addUpdateMeas0) : imgUpdates (n.emit e).log = imgUpdates n.log := by
  rw [emit_log, imgUpdates_append, imgUpdates_cons_of_kind e [] h]
  simp [imgUpdates]

theorem updateAndPublish_imgUpdates {E : Ext} (n : RovioNode E) :
    imgUpdates (updateAndPublish n).log = imgUpdates n.log := by
  obtain ⟨_, _, l, e, hk⟩ := updateAndPublish_core n
  rw [e, imgUpdates_append, imgUpdates_of_kinds l, List.append_nil]
  intro x hx hx'
  have := hk x hx
  rw [hx'] at this
  exact absurd this (by decide)

theorem imuCallback_batch {E : Ext} (n : RovioNode E) (m : Imu) :
    (imuCallback n m).imgUpdateMeas_ = n.imgUpdateMeas_ ∧
      imgUpdates (imuCallback n m).log = imgUpdates n.log := by
  unfold imuCallback
  dsimp only
  split
  · constructor
    · rw [(updateAndPublish_core _).2.1]; rfl
    · rw [updateAndPublish_imgUpdates, imgUpdates_emit_other _ _ (by simp [Effect.kind])]
  · constructor
    · rfl
    · show imgUpdates ((RovioNode.emit _ _).emit _).log = _
      rw [imgUpdates_emit_other _ _ (by simp [Effect.kind]),
        imgUpdates_emit_other _ _ (by simp [Effect.kind])]

theorem imuCallback_initialized {E : Ext} (n : RovioNode E) (m : Imu) :
    (imuCallback n m).isInitialized_ = true := by
  unfold imuCallback
  dsimp only
  split
  next h => rw [(updateAndPublish_core _).1]; exact h
  next h => rfl

theorem groundtruthCallback_batch {E : Ext} (n : RovioNode E) (m : TransformStamped) :
    (groundtruthCallback n m).isInitialized_ = n.isInitialized_ ∧
      (groundtruthCallback n m).imgUpdateMeas_ = n.imgUpdateMeas_ ∧
      imgUpdates (groundtruthCallback n m).log = imgUpdates n.log := by
  unfold groundtruthCallback
  split
  · dsimp only
    refine ⟨?_, ?_, ?_⟩
    · rw [(updateAndPublish_core _).1]; rfl
    · rw [(updateAndPublish_core _).2.1]; rfl
    · rw [updateAndPublish_imgUpdates, imgUpdates_emit_other _ _ (by simp [Effect.kind])]
  · exact ⟨rfl, rfl, rfl⟩

theorem imgCallback_initialized {E : Ext} (n : RovioNode E) (img : Image) (camID : Nat) :
    (imgCallback n img camID).isInitialized_ = n.isInitialized_ := by
  cases hdec : E.toCvCopy img with
  | none => rw [imgCallback_undecodable n img camID hdec]; rfl
  | some cv =>
    cases hi : n.isInitialized_ with
    | false => rw [imgCallback_skipped n img camID cv hdec (Or.inl hi)]; exact hi
    | true =>
      cases he : cv.empty with
      | true => rw [imgCallback_skipped n img camID cv hdec (Or.inr he)]; exact hi
      | false => exact (imgCallback_batch n img camID cv hdec hi he).1

theorem imgCallback_log_effective {E : Ext} (n : RovioNode E) (img : Image) (camID : Nat)
    (cv : CvMat) (hdec : E.toCvCopy img = some cv) (hinit : n.isInitialized_ = true)
    (hne : cv.empty = false) :
    (imgCallback n img camID).log = n.log ++ newEffects n (imgCallback n img camID) := by
  have key : ∃ l, (imgCallback n img camID).log = n.log ++ l := by
    cases h : (storeFrame (resync n img.stamp) cv camID).imgUpdateMeas_.areAllValid E.nCam_ with
    | false =>
      rw [imgCallback_incomplete n img camID cv hdec hinit hne h, storeFrame_log, resync_log]
      exact ⟨_, rfl⟩
    | true =>
      obtain ⟨_, _, l, e, _⟩ := imgCallback_complete n img camID cv hdec hinit hne h
      rw [e, storeFrame_log, resync_log, List.append_assoc]
      exact ⟨_, rfl⟩
  obtain ⟨l, e⟩ := key
  rw [newEffects_append n _ l e, e]

/-- The provenance property carried along a run: the slots of the current batch and every
batch handed to the filter so far were stored from the effective arrivals `h`. -/
theorem imgCallback_provenance {E : Ext} (n : RovioNode E) (h : List Arrival) (a : Arrival)
    (hinit : n.isInitialized_ = true) (hok : decodesNonEmpty E a.img = true)
    (hs : SlotsStoredFrom E n.imgUpdateMeas_ h)
    (hd : ∀ p ∈ imgUpdates n.log, DispatchedFrom E p.1 p.2 h) :
    SlotsStoredFrom E (imgCallback n a.img a.camID).imgUpdateMeas_ (h ++ [a]) ∧
      ∀ p ∈ imgUpdates (imgCallback n a.img a.camID).log, DispatchedFrom E p.1 p.2 (h ++ [a]) := by
  obtain ⟨cv, hdec, hne⟩ := (decodesNonEmpty_iff E a.img).1 hok
  obtain ⟨_, _, hb0, hb1⟩ := imgCallback_batch n a.img a.camID cv hdec hinit hne
  have hc3 := imgCallback_imgUpdates n a.img a.camID cv hdec hinit hne
  have hst := stored_slots n h a cv hdec hs
  rw [imgCallback_log_effective n a.img a.camID cv hdec hinit hne, imgUpdates_append]
  cases hv : (storeFrame (resync n a.img.stamp) cv a.camID).imgUpdateMeas_.areAllValid E.nCam_ with
  | false =>
    rw [hb0 hv, hc3.2 hv, List.append_nil]
    exact ⟨hst, fun p hp => dispatchedFrom_append (hd p hp) _⟩
  | true =>
    rw [hb1 hv, hc3.1 hv]
    refine ⟨fun c _ hcv => absurd hcv (by simp [ImgUpdateMeasAuxiliary.reset]), ?_⟩
    intro p hp
    rcases List.mem_append.1 hp with hp | hp
    · exact dispatchedFrom_append (hd p hp) _
    · rw [List.mem_singleton.1 hp]
      refine ⟨?_, hv, h ++ [a], [], by simp, hst⟩
      rw [storeFrame_imgTime, resync_imgTime]

theorem imgCallback_ineffective {E : Ext} (n : RovioNode E) (img : Image) (camID : Nat)
    (h : (n.isInitialized_ && decodesNonEmpty E img) = false) :
    (imgCallback n img camID).imgUpdateMeas_ = n.imgUpdateMeas_ ∧
      imgUpdates (imgCallback n img camID).log = imgUpdates n.log := by
  cases hdec : E.toCvCopy img with
  | none =>
    rw [imgCallback_undecodable n img camID hdec]
    exact ⟨rfl, imgUpdates_emit_other _ _ (by simp [Effect.kind])⟩
  | some cv =>
    have : n.isInitialized_ = false ∨ cv.empty = true := by
      cases hi : n.isInitialized_ with
      | false => exact Or.inl rfl
      | true =>
        right
        simp [hi, decodesNonEmpty, hdec] at h
        exact h
    rw [imgCallback_skipped n img camID cv hdec this]
    exact ⟨rfl, rfl⟩

theorem run_provenance {E : Ext} (cbs : List Callback) (n : RovioNode E) (h : List Arrival)
    (hs : SlotsStoredFrom E n.imgUpdateMeas_ h)
    (hd : ∀ p ∈ imgUpdates n.log, DispatchedFrom E p.1 p.2 h) :
    SlotsStoredFrom E (n.run cbs).imgUpdateMeas_ (h ++ effectiveArrivals E n.isInitialized_ cbs) ∧
      ∀ p ∈ imgUpdates (n.run cbs).log,
        DispatchedFrom E p.1 p.2 (h ++ effectiveArrivals E n.isInitialized_ cbs) := by
  induction cbs generalizing n h with
  | nil => simpa [RovioNode.run, effectiveArrivals] using And.intro hs hd
  | cons cb cbs ih =>
    have hrun : n.run (cb :: cbs) = (n.step cb).run cbs := rfl
    rw [hrun]
    cases cb with
    | imu m =>
      have hb := imuCallback_batch n m
      have := ih (n.step (Callback.imu m)) h (by rw [RovioNode.step, hb.1]; exact hs)
        (by rw [RovioNode.step, hb.2]; exact hd)
      rw [show (n.step (Callback.imu m)).isInitialized_ = true from
        imuCallback_initialized n m] at this
      simpa [effectiveArrivals] using this
    | groundtruth m =>
      have hb := groundtruthCallback_batch n m
      have := ih (n.step (Callback.groundtruth m)) h (by rw [RovioNode.step, hb.2.1]; exact hs)
        (by rw [RovioNode.step, hb.2.2]; exact hd)
      rw [show (n.step (Callback.groundtruth m)).isInitialized_ = n.isInitialized_ from
        hb.1] at this
      simpa [effectiveArrivals] using this
    | img c m =>
      have hfl : (n.step (Callback.img c m)).isInitialized_ = n.isInitialized_ :=
        imgCallback_initialized n m c
      cases hc : (n.isInitialized_ && decodesNonEmpty E m) with
      | false =>
        have hb := imgCallback_ineffective n m c hc
        have := ih (n.step (Callback.img c m)) h (by rw [RovioNode.step, hb.1]; exact hs)
          (by rw [RovioNode.step, hb.2]; exact hd)
        rw [hfl] at this
        simpa [effectiveArrivals, hc] using this
      | true =>
        have hi : n.isInitialized_ = true := by
          cases hi' : n.isInitialized_ <;> simp_all
        have hok : decodesNonEmpty E m = true := by
          cases hi' : decodesNonEmpty E m <;> simp_all
        have hp : SlotsStoredFrom E (n.step (Callback.img c m)).imgUpdateMeas_
              (h ++ [{ camID := c, img := m }]) ∧
            ∀ p ∈ imgUpdates (n.step (Callback.img c m)).log,
              DispatchedFrom E p.1 p.2 (h ++ [{ camID := c, img := m }]) :=
          imgCallback_provenance n h { camID := c, img := m } hi hok hs hd
        have := ih (n.step (Callback.img c m)) (h ++ [{ camID := c, img := m }]) hp.1 hp.2
        rw [hfl] at this
        simpa [effectiveArrivals, hc, List.append_assoc] using this

/-- Claim C4. In every state reached from the constructed node by any sequence of
deliveries (inertial samples, images for cameras below the camera count, pose
references), every valid slot holds the pyramid of the last image arrival stored for that
camera, and that arrival carries the batch's current time stamp; consequently every batch
handed to the filter is complete, carries the time it is handed over with, and holds for
each camera the image of an arrival with that one time stamp. -/
theorem valid_slots_carry_batch_time (E : Ext) (params : NodeParams) (f : E.F)
    (cbs : List Callback) (_hcam : ∀ c m, Callback.img c m ∈ cbs → c < E.nCam_) :
    SlotsStoredFrom E ((RovioNode.init E params f).run cbs).imgUpdateMeas_
        (effectiveArrivals E false cbs) ∧
      ∀ p ∈ imgUpdates ((RovioNode.init E params f).run cbs).log,
        DispatchedFrom E p.1 p.2 (effectiveArrivals E false cbs) := by
  have h := run_provenance cbs (RovioNode.init E params f) []
    (fun c _ hv => absurd hv (by simp [RovioNode.init, ImgUpdateMeasAuxiliary.init]))
    (by simp [RovioNode.init, imgUpdates])
  simpa [RovioNode.init] using h

theorem valid_slots_carry_batch_time_witness :
    (∀ c m, Callback.img c m ∈ demoTrace → c < (demoExt 2 1 (fun _ => false) (fun _ => 1)).nCam_) ∧
    (SlotsStoredFrom (demoExt 2 1 (fun _ => false) (fun _ => 1))
        ((demoNode 2 1 (fun _ => false) (fun _ => 1)).run demoTrace).imgUpdateMeas_
        (effectiveArrivals (demoExt 2 1 (fun _ => false) (fun _ => 1)) false demoTrace) ∧
      ∀ p ∈ imgUpdates ((demoNode 2 1 (fun _ => false) (fun _ => 1)).run demoTrace).log,
        DispatchedFrom (demoExt 2 1 (fun _ => false) (fun _ => 1)) p.1 p.2
          (effectiveArrivals (demoExt 2 1 (fun _ => false) (fun _ => 1)) false demoTrace)) :=
  ⟨by
      intro c m h
      simp only [demoTrace, List.mem_cons, List.mem_singleton, Callback.img.injEq, false_or,
        List.not_mem_nil, or_false] at h
      show c < 2
      rcases h with ⟨h, _⟩ | ⟨h, _⟩ | ⟨h, _⟩ <;> omega,
    valid_slots_carry_batch_time (demoExt 2 1 (fun _ => false) (fun _ => 1))
      { world_frame := none, camera_frame := none, imu_frame := none } { safeT := 0, newest := 0 }
      demoTrace (by
        intro c m h
        simp only [demoTrace, List.mem_cons, List.mem_singleton, Callback.img.injEq, false_or,
          List.not_mem_nil, or_false] at h
        show c < 2
        rcases h with ⟨h, _⟩ | ⟨h, _⟩ | ⟨h, _⟩ <;> omega)⟩


/-! ## Initialisation by the first inertial sample -/

theorem filterMap_of_kinds {E : Ext} {α : Type} (sel : Effect E → Option α)
    (K : List EffectKind) (hsel : ∀ e, e.kind ∈ K → sel e = none) (l : List (Effect E))
    (h : ∀ e ∈ l, e.kind ∈ K) : l.filterMap sel = [] := by
  induction l with
  | nil => rfl
  | cons e l ih =>
    rw [List.filterMap_cons, hsel e (h e (List.mem_cons_self _ _))]
    exact ih fun x hx => h x (List.mem_cons_of_mem _ hx)

/-- Claim C8, the code at any construction: the loop assigns every name, offset, count and
datatype to `fields[0]`, so after construction field 0 is `c_33` at offset 68 and fields
1-17 are still value-initialised (empty name, offset 0, count 0); `point_step` is 72,
`row_step` is `72 * nMax` and `data` has `row_step` zero bytes (all reduced modulo
`2^32`). -/
theorem constructor_assigns_only_field_zero (E : Ext) (params : NodeParams) (f : E.F) :
    (RovioNode.init E params f).pclMsg_.fields =
        { name := "c_33", offset := 68, datatype := PointField.FLOAT32, count := 1 } ::
          List.replicate 17 PointField.empty ∧
      ((RovioNode.init E params f).pclMsg_.fields.getD 1 PointField.empty).name = "" ∧
      ((RovioNode.init E params f).pclMsg_.fields.getD 1 PointField.empty).offset = 0 ∧
      ((RovioNode.init E params f).pclMsg_.fields.getD 1 PointField.empty).count = 0 ∧
      (RovioNode.init E params f).pclMsg_.point_step = 72 ∧
      (RovioNode.init E params f).pclMsg_.row_step = u32 (72 * u32 E.nMax_) ∧
      (RovioNode.init E params f).pclMsg_.data =
        List.replicate (u32 (u32 (72 * u32 E.nMax_) * 1)) 0 := by
  have hf : ((List.range nFields).foldl fieldLoopBody
      (List.replicate nFields PointField.empty, 0)) =
      ({ name := "c_33", offset := 68, datatype := PointField.FLOAT32, count := 1 } ::
          List.replicate 17 PointField.empty, 72) := by decide
  have h72 : u32 72 = 72 := by decide
  simp only [RovioNode.init, initPclMsg, hf, h72]
  simp [PointField.empty]

/-- Claim C7, the code at a fresh one-landmark node whose only landmark slot is invalid:
after a publish cycle the record holds the NaN pattern in bytes 0-3 (written through
fields 1-17, all at offset 0) and in bytes 68-71 (written through field 0); bytes 4-67,
the fields `y` to `c_23`, still hold the zeros of the construction. -/
theorem invalid_slot_record_keeps_old_bytes :
    (demoExt 1 1 (fun _ => false) (fun _ => 1)).nMax_ = 1 ∧
    ((demoExt 1 1 (fun _ => false) (fun _ => 1)).safe_
      ((demoExt 1 1 (fun _ => false) (fun _ => 1)).updateSafe demoPending.mpFilter_)).isValid_ 0
      = false ∧
    countKind EffectKind.pubPcl (newEffects demoPending (updateAndPublish demoPending)) = 1 ∧
    demoPending.pclMsg_.data = List.replicate 72 0 ∧
    (updateAndPublish demoPending).pclMsg_.data =
      [0, 0, 192, 127] ++ List.replicate 64 0 ++ [0, 0, 192, 127] := by
  decide

/-! ## The odometry covariances -/

theorem reindexCov_apply (idLow idHigh : Nat) (src : MXD) (dst : Nat → ℚ) (i j : Nat)
    (hi : i < 6) (hj : j < 6) :
    reindexCov idLow idHigh src dst (6 * i + j) =
      src (blockIndex idLow idHigh i) (blockIndex idLow idHigh j) := by
  interval_cases i <;> interval_cases j <;>
    simp [reindexCov, List.range_succ, Function.update, blockIndex]

theorem publishPcl_odometry {E : Ext} (n : RovioNode E) :
    (publishPcl n).odometryMsg_ = n.odometryMsg_ ∧ (publishPcl n).outputCov_ = n.outputCov_ := by
  constructor
  · simp only [publishPcl, RovioNode.emit, (publishPcl_loop n _).odometryMsg]
  · simp only [publishPcl, RovioNode.emit, (publishPcl_loop n _).outputCov]

theorem verbosePose_outputCov {E : Ext} (n : RovioNode E) :
    (verbosePose n).outputCov_ = n.outputCov_ := by
  unfold verbosePose
  split
  · dsimp only
    split <;> split <;> rfl
  · rfl

theorem sendMapToWorld_outputCov {E : Ext} (n : RovioNode E) :
    (sendMapToWorld n).outputCov_ = n.outputCov_ := by
  unfold sendMapToWorld
  dsimp only
  split <;> rfl

/-- The stage-1 output covariance and the odometry covariances after the publishing
branch. -/
theorem publish_odometry {E : Ext} (n : RovioNode E) :
    (publish n).outputCov_ = transformCovMat E.stateD
        (E.cameraOutputJ (E.safe_ n.mpFilter_).state_) (E.safe_ n.mpFilter_).cov_ ∧
      ∃ d1 d2,
        (publish n).odometryMsg_.pose.covariance =
          reindexCov E.outId_pos E.outId_att (publish n).outputCov_ d1 ∧
        (publish n).odometryMsg_.twist.covariance =
          reindexCov E.outId_vel E.outId_ror (publish n).outputCov_ d2 := by
  have hcov : ∀ m : RovioNode E,
      (publishPcl (publishOutput (fillRovioOutput (fillOdometry (sendPoses m))))).outputCov_ =
        m.outputCov_ := by
    intro m
    rw [(publishPcl_odometry _).2]
    simp only [publishOutput, RovioNode.emit, fillRovioOutput, attitudeToYprStage, fillOdometry,
      sendPoses]
  have hodo : ∀ m : RovioNode E,
      (publishPcl (publishOutput (fillRovioOutput (fillOdometry (sendPoses m))))).odometryMsg_ =
        (fillOdometry (sendPoses m)).odometryMsg_ := by
    intro m
    rw [(publishPcl_odometry _).1]
    simp only [publishOutput, RovioNode.emit, fillRovioOutput, attitudeToYprStage]
  have hsp : ∀ m : RovioNode E, (sendPoses m).outputCov_ = m.outputCov_ := by
    intro m
    simp only [sendPoses, RovioNode.emit]
  unfold publish
  rw [hcov, hodo, sendMapToWorld_outputCov, verbosePose_outputCov]
  refine ⟨?_,
    (sendPoses (sendMapToWorld (verbosePose (transformOutput
      (showImages n))))).odometryMsg_.pose.covariance,
    (sendPoses (sendMapToWorld (verbosePose (transformOutput
      (showImages n))))).odometryMsg_.twist.covariance, ?_, ?_⟩
  · simp only [transformOutput, (showImages_appends n).filter]
  · rw [← verbosePose_outputCov, ← sendMapToWorld_outputCov, ← hsp]
    simp only [fillOdometry]
  · rw [← verbosePose_outputCov, ← sendMapToWorld_outputCov, ← hsp]
    simp only [fillOdometry]

theorem publish_pubOdometry {E : Ext} (n : RovioNode E) :
    ∃ l, (publish n).log = n.log ++ l ∧ Effect.pubOdometry (publish n).odometryMsg_ ∈ l := by
  obtain ⟨l0, e0, _⟩ := (publish_head_appends n).log
  obtain ⟨l1, e1, _⟩ := sendPoses_log (sendMapToWorld (verbosePose (transformOutput (showImages n))))
  obtain ⟨l3, e3, _⟩ := publishPcl_log (publishOutput (fillRovioOutput (fillOdometry (sendPoses
    (sendMapToWorld (verbosePose (transformOutput (showImages n))))))))
  obtain ⟨r, e2⟩ : ∃ r, (publishOutput (fillRovioOutput (fillOdometry (sendPoses
      (sendMapToWorld (verbosePose (transformOutput (showImages n)))))))).log =
      (sendPoses (sendMapToWorld (verbosePose (transformOutput (showImages n))))).log ++
      [Effect.pubRovioOutput r, Effect.pubOdometry (publish n).odometryMsg_] := by
    have ho : (publish n).odometryMsg_ = (fillRovioOutput (fillOdometry (sendPoses
        (sendMapToWorld (verbosePose (transformOutput (showImages n))))))).odometryMsg_ := by
      unfold publish
      rw [(publishPcl_odometry _).1]
      simp only [publishOutput, RovioNode.emit]
    rw [ho]
    refine ⟨(fillRovioOutput (fillOdometry (sendPoses
        (sendMapToWorld (verbosePose (transformOutput (showImages n))))))).rovioOutputMsg_, ?_⟩
    simp only [publishOutput, RovioNode.emit, fillRovioOutput_log]
    simp [fillOdometry]
  refine ⟨l0 ++ l1 ++ [Effect.pubRovioOutput r, Effect.pubOdometry (publish n).odometryMsg_] ++ l3,
    ?_, by simp⟩
  show (publishPcl _).log = _
  rw [e3, e2, e1, e0]
  simp

/-- Claim C9. After a publish cycle, for all i, j in 0..5 the odometry pose covariance
entry `6*i + j` is the stage-1 output covariance at `(r i, r j)` with `r k` the position
id plus `k` for `k < 3` and the attitude id plus `k - 3` otherwise, and the twist
covariance entry `6*i + j` is the output covariance at `(s i, s j)` with the velocity and
angular-rate ids; the output covariance is the stage-1 transform of the safe covariance,
and this odometry message is the one published. -/
theorem odometry_covariance_reindexes_output {E : Ext} (n : RovioNode E)
    (hinit : n.isInitialized_ = true)
    (hadv : (E.safe_ (E.updateSafe n.mpFilter_)).t_ > (E.safe_ n.mpFilter_).t_)
    (i j : Nat) (hi : i < 6) (hj : j < 6) :
    (updateAndPublish n).outputCov_ = transformCovMat E.stateD
        (E.cameraOutputJ (E.safe_ (E.updateSafe n.mpFilter_)).state_)
        (E.safe_ (E.updateSafe n.mpFilter_)).cov_ ∧
      (updateAndPublish n).odometryMsg_.pose.covariance (6 * i + j) =
        (updateAndPublish n).outputCov_ (blockIndex E.outId_pos E.outId_att i)
          (blockIndex E.outId_pos E.outId_att j) ∧
      (updateAndPublish n).odometryMsg_.twist.covariance (6 * i + j) =
        (updateAndPublish n).outputCov_ (blockIndex E.outId_vel E.outId_ror i)
          (blockIndex E.outId_vel E.outId_ror j) ∧
      Effect.pubOdometry (updateAndPublish n).odometryMsg_ ∈
        newEffects n (updateAndPublish n) := by
  rw [updateAndPublish_advance n hinit hadv]
  obtain ⟨h1, d1, d2, h2, h3⟩ := publish_odometry
    (({ n with mpFilter_ := E.updateSafe n.mpFilter_ } : RovioNode E).emit Effect.updateSafe)
  obtain ⟨l, e, hl⟩ := publish_pubOdometry
    (({ n with mpFilter_ := E.updateSafe n.mpFilter_ } : RovioNode E).emit Effect.updateSafe)
  refine ⟨h1, ?_, ?_, ?_⟩
  · rw [h2, reindexCov_apply _ _ _ _ i j hi hj]
  · rw [h3, reindexCov_apply _ _ _ _ i j hi hj]
  · rw [newEffects_append n _ (Effect.updateSafe :: l) (by rw [e]; simp [RovioNode.emit])]
    exact List.mem_cons_of_mem _ hl

theorem odometry_covariance_reindexes_output_witness :
    demoPending.isInitialized_ = true ∧
    ((demoExt 1 1 (fun _ => false) (fun _ => 1)).safe_
        ((demoExt 1 1 (fun _ => false) (fun _ => 1)).updateSafe demoPending.mpFilter_)).t_ >
      ((demoExt 1 1 (fun _ => false) (fun _ => 1)).safe_ demoPending.mpFilter_).t_ ∧
    (4 : Nat) < 6 ∧ (1 : Nat) < 6 ∧
    (updateAndPublish demoPending).odometryMsg_.pose.covariance (6 * 4 + 1) =
      (updateAndPublish demoPending).outputCov_ 10 1 :=
  ⟨by decide, by decide, by decide, by decide,
    (odometry_covariance_reindexes_output demoPending (by decide) (by decide) 4 1
      (by decide) (by decide)).2.1⟩

/-! ## The uncertainty rays -/

/-- Claim C10, amended: the clamp is from above only. For every landmark slot, depth
parameter and covariance, the two distances of the uncertainty ray are the distance model
at `p - 3*sigma` and at `p + 3*sigma`, each cut at 1000, so as signed values neither
exceeds 1000; nothing cuts them from below, so the length of a ray end (the absolute
value of its distance) is at most 1000 exactly when the distance model is at least
`-1000` at that depth parameter. The two end points pushed for a valid landmark are the
bearing scaled by these two distances. -/
theorem ray_distances_at_most_1000 (E : Ext) (filterState : FilterState E.S) (st : PclLoop E)
    (i : Nat) :
    (rayDistances E filterState.state_ filterState.cov_ i).d_minus =
        min (E.getDistance { E.dep filterState.state_ i with
          p_ := (E.dep filterState.state_ i).p_ -
            3 * E.sqrt (filterState.cov_ (E.stateId_fea i + 2) (E.stateId_fea i + 2)) }) 1000 ∧
      (rayDistances E filterState.state_ filterState.cov_ i).d_plus =
        min (E.getDistance { E.dep filterState.state_ i with
          p_ := (E.dep filterState.state_ i).p_ +
            3 * E.sqrt (filterState.cov_ (E.stateId_fea i + 2) (E.stateId_fea i + 2)) }) 1000 ∧
      (rayDistances E filterState.state_ filterState.cov_ i).d_minus ≤ 1000 ∧
      (rayDistances E filterState.state_ filterState.cov_ i).d_plus ≤ 1000 ∧
      (|(rayDistances E filterState.state_ filterState.cov_ i).d_minus| ≤ 1000 ↔
        -1000 ≤ E.getDistance { E.dep filterState.state_ i with
          p_ := (E.dep filterState.state_ i).p_ -
            3 * E.sqrt (filterState.cov_ (E.stateId_fea i + 2) (E.stateId_fea i + 2)) }) ∧
      (|(rayDistances E filterState.state_ filterState.cov_ i).d_plus| ≤ 1000 ↔
        -1000 ≤ E.getDistance { E.dep filterState.state_ i with
          p_ := (E.dep filterState.state_ i).p_ +
            3 * E.sqrt (filterState.cov_ (E.stateId_fea i + 2) (E.stateId_fea i + 2)) }) ∧
      (pclValid filterState st i).points = st.points ++
        [scaledBearing E (E.CfP_nor_vec filterState.state_ i)
          (rayDistances E filterState.state_ filterState.cov_ i).d_plus,
         scaledBearing E (E.CfP_nor_vec filterState.state_ i)
          (rayDistances E filterState.state_ filterState.cov_ i).d_minus] := by
  have hm : ∀ x : ℚ, (if x > 1000 then 1000 else x) = min x 1000 := by
    intro x
    by_cases h : x > 1000
    · rw [if_pos h, min_eq_right h.le]
    · rw [if_neg h, min_eq_left (not_lt.1 h)]
  have h1 : (rayDistances E filterState.state_ filterState.cov_ i).d_minus =
      min (E.getDistance { E.dep filterState.state_ i with
        p_ := (E.dep filterState.state_ i).p_ -
          3 * E.sqrt (filterState.cov_ (E.stateId_fea i + 2) (E.stateId_fea i + 2)) }) 1000 := by
    simp only [rayDistances, stretchFactor, hm]
  have h2 : (rayDistances E filterState.state_ filterState.cov_ i).d_plus =
      min (E.getDistance { E.dep filterState.state_ i with
        p_ := (E.dep filterState.state_ i).p_ +
          3 * E.sqrt (filterState.cov_ (E.stateId_fea i + 2) (E.stateId_fea i + 2)) }) 1000 := by
    simp only [rayDistances, stretchFactor, hm]
    congr 3
    ring
  have habs : ∀ x : ℚ, |min x 1000| ≤ 1000 ↔ -1000 ≤ x := by
    intro x
    rw [abs_le, le_min_iff]
    constructor
    · intro h; exact h.1.1
    · intro h; exact ⟨⟨h, by norm_num⟩, min_le_right _ _⟩
  refine ⟨h1, h2, ?_, ?_, ?_, ?_, ?_⟩
  · rw [h1]; exact min_le_right _ _
  · rw [h2]; exact min_le_right _ _
  · rw [h1]; exact habs _
  · rw [h2]; exact habs _
  · simp only [pclValid, List.append_assoc, List.singleton_append]

/-! ## Linearity of the covariance chain -/

theorem sum_map_scale {α : Type} (l : List α) (f : α → ℚ) (k : ℚ) :
    (l.map fun x => k * f x).sum = k * (l.map f).sum := by
  induction l with
  | nil => simp
  | cons a l ih => simp [ih, mul_add]

theorem transformCovMat_scale (n : Nat) (J C : MXD) (k : ℚ) :
    transformCovMat n J (fun a b => k * C a b) = fun i j => k * transformCovMat n J C i j := by
  funext i j
  unfold transformCovMat
  rw [← sum_map_scale]
  congr 1
  apply List.map_congr_left
  intro a _
  rw [← sum_map_scale]
  congr 1
  apply List.map_congr_left
  intro b _
  ring

theorem publishPcl_rovioOutputMsg {E : Ext} (n : RovioNode E) :
    (publishPcl n).rovioOutputMsg_ = n.rovioOutputMsg_ := by
  simp only [publishPcl, RovioNode.emit, (publishPcl_loop n _).rovioOutputMsg]

theorem verbosePose_output {E : Ext} (n : RovioNode E) : (verbosePose n).output_ = n.output_ := by
  unfold verbosePose
  split
  · dsimp only
    split <;> split <;> rfl
  · rfl

theorem sendMapToWorld_output {E : Ext} (n : RovioNode E) :
    (sendMapToWorld n).output_ = n.output_ := by
  unfold sendMapToWorld
  dsimp only
  split <;> rfl

/-- The Euler variances of the odometry attitude published in the extended summary. -/
theorem publish_ypr_odometry_sigma {E : Ext} (n : RovioNode E) :
    (publish n).rovioOutputMsg_.ypr_odometry_sigma =
      diag3 (yprCovOf E (E.safe_ n.mpFilter_)) 0 := by
  have hsp : ∀ m : RovioNode E, (fillOdometry (sendPoses m)).output_ = m.output_ ∧
      (fillOdometry (sendPoses m)).outputCov_ = m.outputCov_ := by
    intro m
    constructor <;> simp only [fillOdometry, sendPoses, RovioNode.emit]
  have hfill : ∀ m : RovioNode E, (fillRovioOutput m).rovioOutputMsg_.ypr_odometry_sigma =
      diag3 (transformCovMat 3 (E.attitudeToYprJ m.output_.qBW)
        (m.outputCov_.block E.outId_att E.outId_att)) 0 := by
    intro m
    simp only [fillRovioOutput, attitudeToYprStage]
  unfold publish
  rw [publishPcl_rovioOutputMsg]
  have hpo : ∀ m : RovioNode E, (publishOutput m).rovioOutputMsg_ = m.rovioOutputMsg_ := by
    intro m
    simp only [publishOutput, RovioNode.emit]
  rw [hpo, hfill, (hsp _).1, (hsp _).2, sendMapToWorld_output, verbosePose_output,
    sendMapToWorld_outputCov, verbosePose_outputCov]
  simp only [transformOutput, (showImages_appends n).filter, yprCovOf, outputCovOf]

/-- Claim C11. With the state held fixed, multiplying the input covariance by a scalar
`k` (positive or not) multiplies by `k` every covariance block of the chain: the stage-1
output covariance, the Euler covariance computed from its 3x3 attitude block, the
per-feature covariance and the readable-feature covariance computed from it, each stage
being `J * C * Jᵀ` with `J` a function of the state only. The four blocks are the ones
the publishing branch stores or publishes. -/
theorem covariance_chain_scales (E : Ext) (n : RovioNode E) (fs : FilterState E.S)
    (st : PclLoop E) (i : Nat) (k : ℚ) :
    ((publish n).outputCov_ = outputCovOf E (E.safe_ n.mpFilter_) ∧
      (publish n).rovioOutputMsg_.ypr_odometry_sigma =
        diag3 (yprCovOf E (E.safe_ n.mpFilter_)) 0 ∧
      (pclValid fs st i).node.featureOutputCov_ = featureCovOf E fs i ∧
      (pclValid fs st i).node.featureOutputReadableCov_ = readableCovOf E fs i) ∧
    (outputCovOf E (fs.scaleCov k) = fun a b => k * outputCovOf E fs a b) ∧
    (yprCovOf E (fs.scaleCov k) = fun a b => k * yprCovOf E fs a b) ∧
    (featureCovOf E (fs.scaleCov k) i = fun a b => k * featureCovOf E fs i a b) ∧
    (readableCovOf E (fs.scaleCov k) i = fun a b => k * readableCovOf E fs i a b) := by
  have h1 : outputCovOf E (fs.scaleCov k) = fun a b => k * outputCovOf E fs a b :=
    transformCovMat_scale _ _ _ _
  have h3 : featureCovOf E (fs.scaleCov k) i = fun a b => k * featureCovOf E fs i a b :=
    transformCovMat_scale _ _ _ _
  refine ⟨⟨(publish_odometry n).1, publish_ypr_odometry_sigma n, ?_, ?_⟩, h1, ?_, h3, ?_⟩
  · simp only [pclValid, featureCovOf]
  · simp only [pclValid, readableCovOf, featureCovOf]
  · unfold yprCovOf
    rw [h1]
    exact transformCovMat_scale _ _ _ _
  · unfold readableCovOf
    rw [h3]
    exact transformCovMat_scale _ _ _ _

/-! ## Decode failures -/

/-- Claim C12. When decoding the image message fails, `imgCallback` only reports the
error: the node is unchanged apart from the log, so the batch (its time, every validity
flag, every pyramid) and the filter are unchanged, nothing is handed to the filter, no
safe-state refresh is requested, and a batch that was incomplete is still incomplete. -/
theorem decode_failure_drops_frame {E : Ext} (n : RovioNode E) (img : Image) (camID : Nat)
    (hdec : E.toCvCopy img = none) :
    imgCallback n img camID = { n with log := n.log ++ [Effect.rosError] } ∧
    (imgCallback n img camID).imgUpdateMeas_ = n.imgUpdateMeas_ ∧
    (imgCallback n img camID).mpFilter_ = n.mpFilter_ ∧
    newEffects n (imgCallback n img camID) = [Effect.rosError] ∧
    (∀ k ∈ [EffectKind.addUpdateMeas0, EffectKind.addUpdateMeas1, EffectKind.addPredictionMeas,
        EffectKind.resetWithAccelerometer, EffectKind.updateSafe],
      countKind k (newEffects n (imgCallback n img camID)) = 0) ∧
    (n.imgUpdateMeas_.areAllValid E.nCam_ = false →
      (imgCallback n img camID).imgUpdateMeas_.areAllValid E.nCam_ = false) := by
  have h : imgCallback n img camID = { n with log := n.log ++ [Effect.rosError] } :=
    imgCallback_undecodable n img camID hdec
  have hn : newEffects n (imgCallback n img camID) = [Effect.rosError] :=
    newEffects_append _ _ _ (by rw [h])
  refine ⟨h, by rw [h], by rw [h], hn, ?_, ?_⟩
  · rw [hn]
    intro k hk
    simp only [List.mem_cons, List.mem_singleton, List.not_mem_nil, or_false] at hk
    rcases hk with rfl | rfl | rfl | rfl | rfl <;> rfl
  · intro hi
    rw [h]
    exact hi

theorem decode_failure_drops_frame_witness :
    (demoExt 2 1 (fun _ => false) (fun _ => 1)).toCvCopy (demoBadImage 6) = none ∧
    (imgCallback (imgCallback (demoStarted 2 1 (fun _ => false) (fun _ => 1)) (demoImage 5) 0)
      (demoBadImage 6) 1).imgUpdateMeas_ =
      (imgCallback (demoStarted 2 1 (fun _ => false) (fun _ => 1)) (demoImage 5) 0).imgUpdateMeas_ :=
  ⟨by decide,
    (decode_failure_drops_frame
      (imgCallback (demoStarted 2 1 (fun _ => false) (fun _ => 1)) (demoImage 5) 0)
      (demoBadImage 6) 1 (by decide)).2.1⟩

/-! ## Sequence numbers -/

theorem sendPoses_messages {E : Ext} (n : RovioNode E) :
    ∃ t1 t2, (sendPoses n).log = n.log ++ [Effect.pubPose (sendPoses n).poseMsg_,
        Effect.sendTransform t1, Effect.sendTransform t2,
        Effect.pubTransform (sendPoses n).transformMsg_] ∧
      (sendPoses n).poseMsg_.header.seq = toUInt32 n.poseMsgSeq_ ∧
      (sendPoses n).poseMsg_.header.stamp = (E.safe_ n.mpFilter_).t_ ∧
      (sendPoses n).transformMsg_.header = (sendPoses n).poseMsg_.header ∧
      (sendPoses n).poseMsgSeq_ = n.poseMsgSeq_ ∧
      (sendPoses n).mpFilter_ = n.mpFilter_ := by
  refine ⟨StampedTransform.mk n.world_frame_ n.camera_frame_ (E.safe_ n.mpFilter_).t_
      n.output_.WrWB n.output_.qBW,
    StampedTransform.mk n.world_frame_ n.imu_frame_ (E.safe_ n.mpFilter_).t_
      (E.WrWM (E.safe_ n.mpFilter_).state_) (E.inverted (E.qWM (E.safe_ n.mpFilter_).state_)),
    ?_, ?_, ?_, ?_, ?_, ?_⟩
  · simp only [sendPoses, RovioNode.emit, List.append_assoc, List.singleton_append,
      List.cons_append, List.nil_append]
  all_goals simp only [sendPoses, RovioNode.emit]

theorem fill_messages {E : Ext} (n : RovioNode E) :
    (fillRovioOutput (fillOdometry n)).log = n.log ∧
    (fillRovioOutput (fillOdometry n)).poseMsgSeq_ = n.poseMsgSeq_ ∧
    (fillRovioOutput (fillOdometry n)).mpFilter_ = n.mpFilter_ ∧
    (fillRovioOutput (fillOdometry n)).poseMsg_ = n.poseMsg_ ∧
    (fillRovioOutput (fillOdometry n)).transformMsg_ = n.transformMsg_ ∧
    (fillRovioOutput (fillOdometry n)).pclMsg_ = n.pclMsg_ ∧
    (fillRovioOutput (fillOdometry n)).odometryMsg_.header.seq = toUInt32 n.poseMsgSeq_ ∧
    (fillRovioOutput (fillOdometry n)).odometryMsg_.header.stamp = (E.safe_ n.mpFilter_).t_ ∧
    (fillRovioOutput (fillOdometry n)).rovioOutputMsg_.header.seq = toUInt32 n.poseMsgSeq_ ∧
    (fillRovioOutput (fillOdometry n)).rovioOutputMsg_.header.stamp = (E.safe_ n.mpFilter_).t_ ∧
    (fillRovioOutput (fillOdometry n)).rovioOutputMsg_.points.header.seq = toUInt32 n.poseMsgSeq_ ∧
    (fillRovioOutput (fillOdometry n)).rovioOutputMsg_.points.header.stamp =
      (E.safe_ n.mpFilter_).t_ ∧
    (fillRovioOutput (fillOdometry n)).rovioOutputMsg_.odometry =
      (fillRovioOutput (fillOdometry n)).odometryMsg_ := by
  refine ⟨?_, ?_, ?_, ?_, ?_, ?_, ?_, ?_, ?_, ?_, ?_, ?_, ?_⟩ <;>
    simp only [fillRovioOutput, attitudeToYprStage, fillOdometry]

theorem publishOutput_messages {E : Ext} (n : RovioNode E) :
    (publishOutput n).log = n.log ++
        [Effect.pubRovioOutput n.rovioOutputMsg_, Effect.pubOdometry n.odometryMsg_] ∧
      (publishOutput n).poseMsgSeq_ = wrapInt32 (n.poseMsgSeq_ + 1) ∧
      (publishOutput n).mpFilter_ = n.mpFilter_ ∧
      (publishOutput n).pclMsg_ = n.pclMsg_ ∧
      (publishOutput n).poseMsg_ = n.poseMsg_ ∧
      (publishOutput n).transformMsg_ = n.transformMsg_ ∧
      (publishOutput n).odometryMsg_ = n.odometryMsg_ ∧
      (publishOutput n).rovioOutputMsg_ = n.rovioOutputMsg_ := by
  refine ⟨?_, ?_, ?_, ?_, ?_, ?_, ?_, ?_⟩ <;>
    simp only [publishOutput, RovioNode.emit, List.append_assoc, List.singleton_append]

theorem publishPcl_messages {E : Ext} (n : RovioNode E) :
    ∃ u, (publishPcl n).log = n.log ++
        [Effect.pubPcl (publishPcl n).pclMsg_, Effect.pubURays u] ∧
      (publishPcl n).pclMsg_.header.seq = toUInt32 n.poseMsgSeq_ ∧
      (publishPcl n).pclMsg_.header.stamp = (E.safe_ n.mpFilter_).t_ ∧
      (publishPcl n).poseMsg_ = n.poseMsg_ ∧
      (publishPcl n).transformMsg_ = n.transformMsg_ := by
  refine ⟨Marker.mk
    ((List.range E.nMax_).foldl (pclLoopBody (E.safe_ n.mpFilter_))
      (PclLoop.mk { n with pclMsg_ := { n.pclMsg_ with
        header := Header.mk (toUInt32 n.poseMsgSeq_) (E.safe_ n.mpFilter_).t_
          n.pclMsg_.header.frame_id } } [] 0)).node.camera_frame_
    (E.safe_ n.mpFilter_).t_
    ((List.range E.nMax_).foldl (pclLoopBody (E.safe_ n.mpFilter_))
      (PclLoop.mk { n with pclMsg_ := { n.pclMsg_ with
        header := Header.mk (toUInt32 n.poseMsgSeq_) (E.safe_ n.mpFilter_).t_
          n.pclMsg_.header.frame_id } } [] 0)).points, ?_, ?_, ?_, ?_, ?_⟩
  · simp only [publishPcl, RovioNode.emit, (publishPcl_loop n _).log, List.append_assoc,
      List.singleton_append]
  · simp only [publishPcl, RovioNode.emit, (publishPcl_loop n _).header]
  · simp only [publishPcl, RovioNode.emit, (publishPcl_loop n _).header]
  · simp only [publishPcl, RovioNode.emit, (publishPcl_loop n _).poseMsg]
  · simp only [publishPcl, RovioNode.emit, (publishPcl_loop n _).transformMsg]

/-- The effects and headers of the publishing branch: the conditional effects, then the
eight unconditional ones, each carrying the message buffer the node holds afterwards. -/
theorem publish_messages {E : Ext} (n : RovioNode E) :
    ∃ l0 t1 t2 u, (publish n).log = n.log ++ (l0 ++
        [Effect.pubPose (publish n).poseMsg_, Effect.sendTransform t1, Effect.sendTransform t2,
         Effect.pubTransform (publish n).transformMsg_,
         Effect.pubRovioOutput (publish n).rovioOutputMsg_,
         Effect.pubOdometry (publish n).odometryMsg_, Effect.pubPcl (publish n).pclMsg_,
         Effect.pubURays u]) ∧
      (∀ e ∈ l0, e.kind ∈ optionalKinds) ∧
      (publish n).poseMsg_.header.seq = toUInt32 n.poseMsgSeq_ ∧
      (publish n).transformMsg_.header = (publish n).poseMsg_.header ∧
      (publish n).odometryMsg_.header.seq = toUInt32 n.poseMsgSeq_ ∧
      (publish n).rovioOutputMsg_.header.seq = toUInt32 n.poseMsgSeq_ ∧
      (publish n).rovioOutputMsg_.points.header.seq = toUInt32 n.poseMsgSeq_ ∧
      (publish n).pclMsg_.header.seq = toUInt32 (n.poseMsgSeq_ + 1) := by
  have hh := publish_head_appends n
  obtain ⟨l0, e0, k0⟩ := hh.log
  generalize hm : sendMapToWorld (verbosePose (transformOutput (showImages n))) = h at hh e0
  obtain ⟨t1, t2, e1, s1, _, s3, s4, s5⟩ := sendPoses_messages h
  obtain ⟨f1, f2, f3, f4, f5, f6, f7, _, f9, _, f11, _, f13⟩ := fill_messages (sendPoses h)
  generalize hx : fillRovioOutput (fillOdometry (sendPoses h)) = x at f1 f2 f3 f4 f5 f6 f7 f9 f11 f13
  obtain ⟨o1, o2, o3, o4, o5, o6, o7, o8⟩ := publishOutput_messages x
  obtain ⟨u, p1, p2, _, p4, p5⟩ := publishPcl_messages (publishOutput x)
  have hp : publish n = publishPcl (publishOutput x) := by
    rw [← hx, ← hm]; rfl
  have hpose : (publish n).poseMsg_ = (sendPoses h).poseMsg_ := by
    rw [hp, p4, o5, f4]
  have htr : (publish n).transformMsg_ = (sendPoses h).transformMsg_ := by
    rw [hp, p5, o6, f5]
  have hodo : (publish n).odometryMsg_ = x.odometryMsg_ := by
    rw [hp, (publishPcl_odometry _).1, o7]
  have hrov : (publish n).rovioOutputMsg_ = x.rovioOutputMsg_ := by
    rw [hp, publishPcl_rovioOutputMsg, o8]
  refine ⟨l0, t1, t2, u, ?_, k0, ?_, ?_, ?_, ?_, ?_, ?_⟩
  · rw [hpose, htr, hodo, hrov]
    rw [hp, p1, o1, f1, e1, e0]
    simp only [List.append_assoc, List.singleton_append, List.cons_append, List.nil_append, hp]
  · rw [hpose, s1, hh.seq]
  · rw [hpose, htr, s3]
  · rw [hodo, f7, s4, hh.seq]
  · rw [hrov, f9, s4, hh.seq]
  · rw [hrov, f11, s4, hh.seq]
  · rw [hp, p2, o2, f2, s4, hh.seq]
    exact toUInt32_wrapInt32 _

theorem poseSeqs_append {E : Ext} (l1 l2 : List (Effect E)) :
    poseSeqs (l1 ++ l2) = poseSeqs l1 ++ poseSeqs l2 := by
  simp [poseSeqs, List.filterMap_append]

theorem transformSeqs_append {E : Ext} (l1 l2 : List (Effect E)) :
    transformSeqs (l1 ++ l2) = transformSeqs l1 ++ transformSeqs l2 := by
  simp [transformSeqs, List.filterMap_append]

theorem poseSeqs_of_kinds {E : Ext} (l : List (Effect E))
    (h : ∀ e ∈ l, e.kind ∈ unnumberedKinds) : poseSeqs l = [] := by
  unfold poseSeqs
  apply filterMap_of_kinds _ unnumberedKinds _ l h
  intro e he
  cases e <;> first | rfl | exact absurd he (by simp [Effect.kind, unnumberedKinds])

theorem transformSeqs_of_kinds {E : Ext} (l : List (Effect E))
    (h : ∀ e ∈ l, e.kind ∈ unnumberedKinds) : transformSeqs l = [] := by
  unfold transformSeqs
  apply filterMap_of_kinds _ unnumberedKinds _ l h
  intro e he
  cases e <;> first | rfl | exact absurd he (by simp [Effect.kind, unnumberedKinds])

theorem optionalKinds_unnumbered : ∀ k ∈ optionalKinds, k ∈ unnumberedKinds := by decide

theorem quietKinds_unnumbered : ∀ k ∈ quietKinds, k ∈ unnumberedKinds := by decide

theorem publish_counterStep {E : Ext} (m : RovioNode E) :
    ∃ l, (publish m).log = m.log ++ l ∧ poseSeqs l = [toUInt32 m.poseMsgSeq_] ∧
      transformSeqs l = [toUInt32 m.poseMsgSeq_] ∧
      (publish m).poseMsgSeq_ = wrapInt32 (m.poseMsgSeq_ + 1) := by
  obtain ⟨l0, t1, t2, u, e, k0, h1, h2, _⟩ := publish_messages m
  have hp0 : poseSeqs l0 = [] :=
    poseSeqs_of_kinds l0 fun x hx => optionalKinds_unnumbered _ (k0 x hx)
  have ht0 : transformSeqs l0 = [] :=
    transformSeqs_of_kinds l0 fun x hx => optionalKinds_unnumbered _ (k0 x hx)
  refine ⟨_, e, ?_, ?_, (publish_core m).2.2.2⟩
  · rw [poseSeqs_append, hp0]
    simp only [poseSeqs, List.filterMap_cons, List.filterMap_nil, List.nil_append, h1]
  · rw [transformSeqs_append, ht0]
    simp only [transformSeqs, List.filterMap_cons, List.filterMap_nil, List.nil_append, h2, h1]

theorem updateAndPublish_counterStep {E : Ext} (n : RovioNode E) :
    CounterStep n (updateAndPublish n) := by
  cases hi : n.isInitialized_ with
  | false =>
    rw [updateAndPublish_uninitialized n hi]
    exact ⟨[], by simp, Or.inl ⟨rfl, rfl, rfl⟩⟩
  | true =>
    by_cases ha : (E.safe_ (E.updateSafe n.mpFilter_)).t_ > (E.safe_ n.mpFilter_).t_
    · rw [updateAndPublish_advance n hi ha]
      obtain ⟨l, e, h1, h2, h3⟩ := publish_counterStep
        (({ n with mpFilter_ := E.updateSafe n.mpFilter_ } : RovioNode E).emit Effect.updateSafe)
      refine ⟨[Effect.updateSafe] ++ l, ?_, Or.inr ⟨?_, ?_, h3⟩⟩
      · rw [e]; simp [RovioNode.emit]
      · rw [poseSeqs_append, h1]; rfl
      · rw [transformSeqs_append, h2]; rfl
    · rw [updateAndPublish_idle n hi ha]
      exact ⟨[Effect.updateSafe], rfl, Or.inl ⟨rfl, rfl, rfl⟩⟩

theorem quiet_refl {E : Ext} (n : RovioNode E) : Quiet n n :=
  ⟨rfl, rfl, [], by simp, by simp⟩

theorem resync_quiet {E : Ext} (n : RovioNode E) (t : ℚ) : Quiet n (resync n t) := by
  by_cases h : t = n.imgUpdateMeas_.imgTime_
  · rw [resync_same n t h]; exact quiet_refl n
  · rw [resync_eq n t h]
    refine ⟨rfl, rfl, _, rfl, ?_⟩
    intro e he
    rw [List.eq_of_mem_replicate he]
    simp [Effect.kind, quietKinds]

theorem quiet_emit {E : Ext} {n q : RovioNode E} (h : Quiet n q) (e : Effect E)
    (he : e.kind ∈ quietKinds) : Quiet n (q.emit e) := by
  obtain ⟨l, el, kl⟩ := h.log
  refine ⟨h.seq, h.pcl, l ++ [e], ?_, ?_⟩
  · rw [emit_log, el, List.append_assoc]
  · intro x hx
    rcases List.mem_append.1 hx with hx | hx
    · exact kl x hx
    · rw [List.mem_singleton] at hx
      rw [hx]; exact he

theorem quiet_silent {E : Ext} {n q : RovioNode E} (h1 : q.poseMsgSeq_ = n.poseMsgSeq_)
    (h2 : q.pclMsg_ = n.pclMsg_) (h3 : q.log = n.log) : Quiet n q :=
  ⟨h1, h2, [], by simp [h3], by simp⟩

theorem quiet_counterStep {E : Ext} {n q r : RovioNode E} (h : Quiet n q)
    (h2 : CounterStep q r) : CounterStep n r := by
  obtain ⟨l, el, kl⟩ := h.log
  have hp : poseSeqs l = [] := poseSeqs_of_kinds l fun x hx => quietKinds_unnumbered _ (kl x hx)
  have ht : transformSeqs l = [] :=
    transformSeqs_of_kinds l fun x hx => quietKinds_unnumbered _ (kl x hx)
  obtain ⟨l2, e2, h2⟩ := h2
  refine ⟨l ++ l2, by rw [e2, el, List.append_assoc], ?_⟩
  rw [poseSeqs_append, transformSeqs_append, hp, ht, ← h.seq]
  simpa using h2

theorem counterStep_refl {E : Ext} (n : RovioNode E) : CounterStep n n :=
  ⟨[], by simp, Or.inl ⟨rfl, rfl, rfl⟩⟩

/-- A relation between node states that absorbs quiet steps, holds of a state with itself
and holds across `updateAndPublish` holds across every callback. -/
theorem step_rel {E : Ext} (R : RovioNode E → RovioNode E → Prop)
    (hq : ∀ n q r, Quiet n q → R q r → R n r) (hr : ∀ n, R n n)
    (hu : ∀ n, R n (updateAndPublish n)) (n : RovioNode E) (cb : Callback) :
    R n (n.step cb) := by
  cases cb with
  | imu m =>
    show R n (imuCallback n m)
    unfold imuCallback
    dsimp only
    split
    · refine hq _ _ _ ?_ (hu _)
      apply quiet_emit
      · exact quiet_silent rfl rfl rfl
      · simp [Effect.kind, quietKinds]
    · refine hq _ _ _ ?_ (hr _)
      exact ⟨rfl, rfl, [Effect.resetWithAccelerometer m.linear_acceleration m.stamp,
        Effect.coutInitialized m.stamp], by simp [RovioNode.emit],
        by simp [Effect.kind, quietKinds]⟩
  | groundtruth m =>
    show R n (groundtruthCallback n m)
    unfold groundtruthCallback
    dsimp only
    split
    · refine hq _ _ _ ?_ (hu _)
      apply quiet_emit
      · exact quiet_silent rfl rfl rfl
      · simp [Effect.kind, quietKinds]
    · exact hr n
  | img camID img =>
    show R n (imgCallback n img camID)
    cases hdec : E.toCvCopy img with
    | none =>
      rw [imgCallback_undecodable n img camID hdec]
      exact hq _ _ _ (quiet_emit (quiet_refl n) _ (by simp [Effect.kind, quietKinds])) (hr _)
    | some cv =>
      by_cases h : n.isInitialized_ = true ∧ cv.empty = false
      · rw [imgCallback_effective n img camID cv hdec h.1 h.2]
        have hs0 := resync_quiet n img.stamp
        have hs : Quiet n (storeFrame (resync n img.stamp) cv camID) :=
          ⟨hs0.seq, hs0.pcl, hs0.log⟩
        cases hall : (storeFrame (resync n img.stamp) cv camID).imgUpdateMeas_.areAllValid
            E.nCam_ with
        | false =>
          rw [dispatch_incomplete _ _ hall]
          exact hq _ _ _ hs (hr _)
        | true =>
          rw [dispatch_complete _ _ hall]
          refine hq _ _ _ hs (hq _ _ _ ?_ (hu _))
          exact ⟨rfl, rfl, [_], rfl, by simp [Effect.kind, quietKinds]⟩
      · have h2 : n.isInitialized_ = false ∨ cv.empty = true := by
          cases hi : n.isInitialized_ <;> cases he : cv.empty <;> simp_all
        rw [imgCallback_skipped n img camID cv hdec h2]
        exact hr n

theorem step_counterStep {E : Ext} (n : RovioNode E) (cb : Callback) :
    CounterStep n (n.step cb) :=
  step_rel CounterStep (fun _ _ _ h1 h2 => quiet_counterStep h1 h2) counterStep_refl
    updateAndPublish_counterStep n cb

theorem poseSeqs_countUp_succ (k : Nat) : countUp k ++ [((k : Int) + 1)] = countUp (k + 1) := by
  simp [countUp, List.range_succ]

theorem countUp_map_toUInt32 (k : Nat) (hk : k < 4294967296) :
    (countUp k).map toUInt32 = countUp k := by
  unfold countUp
  rw [List.map_map]
  refine List.map_congr_left fun i hi => ?_
  have hi2 := List.mem_range.1 hi
  show toUInt32 ((i : Int) + 1) = (i : Int) + 1
  exact toUInt32_of_range _ (by omega) (by omega)

theorem run_counts_up {E : Ext} (n : RovioNode E) (k : Nat)
    (h : poseSeqs n.log = (countUp k).map toUInt32 ∧
      transformSeqs n.log = (countUp k).map toUInt32 ∧
      n.poseMsgSeq_ = wrapInt32 ((k : Int) + 1)) (cbs : List Callback) :
    ∃ k2 : Nat, poseSeqs (n.run cbs).log = (countUp k2).map toUInt32 ∧
      transformSeqs (n.run cbs).log = (countUp k2).map toUInt32 ∧
      (n.run cbs).poseMsgSeq_ = wrapInt32 ((k2 : Int) + 1) := by
  induction cbs generalizing n k with
  | nil => exact ⟨k, h⟩
  | cons cb cbs ih =>
    obtain ⟨hp, ht, hs⟩ := h
    have hu : toUInt32 n.poseMsgSeq_ = toUInt32 ((k : Int) + 1) := by
      rw [hs, toUInt32_wrapInt32]
    obtain ⟨l, el, hl | hl⟩ := step_counterStep n cb
    · refine ih (n.step cb) k ⟨?_, ?_, ?_⟩
      · rw [el, poseSeqs_append, hl.1, hp, List.append_nil]
      · rw [el, transformSeqs_append, hl.2.1, ht, List.append_nil]
      · rw [hl.2.2, hs]
    · refine ih (n.step cb) (k + 1) ⟨?_, ?_, ?_⟩
      · rw [el, poseSeqs_append, hl.1, hp, hu, ← poseSeqs_countUp_succ, List.map_append]
        rfl
      · rw [el, transformSeqs_append, hl.2.1, ht, hu, ← poseSeqs_countUp_succ, List.map_append]
        rfl
      · rw [hl.2.2, hs, wrapInt32_succ]
        push_cast
        ring_nf

/-- Claim C13, amended with the range of the `int` counter. Over every sequence of
callbacks delivered to a freshly constructed node, with `k` the number of published
cycles: the pose sequence numbers, oldest first, are `1, 2, ..., k` reduced modulo `2^32`,
the transform messages carry the same numbers, and the counter holds `k + 1` wrapped into
the `int` range; while fewer than `2^31 - 1` cycles have been published these are exactly
`1, 2, ..., k` and `k + 1`. From any node state one callback either publishes no pose or
transform and leaves the counter unchanged, or publishes exactly one of each, numbered
with the counter, and increments the counter; for a counter `0 <= c < 2147483647` the
number is `c` itself and the counter becomes `c + 1`. -/
theorem pose_sequence_counts_up (E : Ext) (params : NodeParams) (f : E.F)
    (cbs : List Callback) :
    (∃ k : Nat,
      poseSeqs ((RovioNode.init E params f).run cbs).log = (countUp k).map toUInt32 ∧
      transformSeqs ((RovioNode.init E params f).run cbs).log = (countUp k).map toUInt32 ∧
      ((RovioNode.init E params f).run cbs).poseMsgSeq_ = wrapInt32 ((k : Int) + 1) ∧
      (k < 2147483647 →
        poseSeqs ((RovioNode.init E params f).run cbs).log = countUp k ∧
        transformSeqs ((RovioNode.init E params f).run cbs).log = countUp k ∧
        ((RovioNode.init E params f).run cbs).poseMsgSeq_ = (k : Int) + 1)) ∧
    (∀ (n : RovioNode E) (cb : Callback), ∃ l, (n.step cb).log = n.log ++ l ∧
      ((poseSeqs l = [] ∧ transformSeqs l = [] ∧ (n.step cb).poseMsgSeq_ = n.poseMsgSeq_) ∨
       (poseSeqs l = [toUInt32 n.poseMsgSeq_] ∧ transformSeqs l = [toUInt32 n.poseMsgSeq_] ∧
        (n.step cb).poseMsgSeq_ = wrapInt32 (n.poseMsgSeq_ + 1) ∧
        (0 ≤ n.poseMsgSeq_ → n.poseMsgSeq_ < 2147483647 →
          poseSeqs l = [n.poseMsgSeq_] ∧ transformSeqs l = [n.poseMsgSeq_] ∧
          (n.step cb).poseMsgSeq_ = n.poseMsgSeq_ + 1)))) := by
  constructor
  · obtain ⟨k, hp, ht, hs⟩ := run_counts_up (RovioNode.init E params f) 0 ⟨rfl, rfl, rfl⟩ cbs
    refine ⟨k, hp, ht, hs, fun hk => ?_⟩
    rw [hp, ht, hs, countUp_map_toUInt32 k (by omega)]
    exact ⟨rfl, rfl, wrapInt32_of_range _ (by omega) (by omega)⟩
  · intro n cb
    obtain ⟨l, el, hl | ⟨h1, h2, h3⟩⟩ := step_counterStep n cb
    · exact ⟨l, el, Or.inl hl⟩
    · refine ⟨l, el, Or.inr ⟨h1, h2, h3, fun h0 hmax => ?_⟩⟩
      rw [h1, h2, h3, toUInt32_of_range _ h0 (by omega)]
      exact ⟨rfl, rfl, wrapInt32_of_range _ (by omega) (by omega)⟩

theorem pose_sequence_counts_up_witness :
    ∃ k : Nat, k < 2147483647 ∧
      poseSeqs ((RovioNode.init (demoExt 2 1 (fun _ => false) (fun _ => 1))
        { world_frame := none, camera_frame := none, imu_frame := none }
        { safeT := 0, newest := 0 }).run demoTrace).log = countUp k ∧
      ((RovioNode.init (demoExt 2 1 (fun _ => false) (fun _ => 1))
        { world_frame := none, camera_frame := none, imu_frame := none }
        { safeT := 0, newest := 0 }).run demoTrace).poseMsgSeq_ = (k : Int) + 1 := by
  obtain ⟨k, hp, _, _, h⟩ := (pose_sequence_counts_up (demoExt 2 1 (fun _ => false) (fun _ => 1))
    { world_frame := none, camera_frame := none, imu_frame := none }
    { safeT := 0, newest := 0 } demoTrace).1
  have hlen : (poseSeqs ((RovioNode.init (demoExt 2 1 (fun _ => false) (fun _ => 1))
      { world_frame := none, camera_frame := none, imu_frame := none }
      { safeT := 0, newest := 0 }).run demoTrace).log).length = 1 := by decide
  rw [hp] at hlen
  have hk : k = 1 := by simpa [countUp] using hlen
  have hb : k < 2147483647 := by omega
  exact ⟨k, hb, (h hb).1, (h hb).2.2⟩

/-! ## The missing second camera -/

theorem pclValid_feature {E : Ext} (fs : FilterState E.S) (st : PclLoop E) (i : Nat) :
    (pclValid fs st i).node.featureOutput_ = E.transformFeature i (fs.camID_ i) fs.state_ ∧
    (pclValid fs st i).node.featureOutputReadable_ =
      E.featureReadable (E.transformFeature i (fs.camID_ i) fs.state_) ∧
    (pclValid fs st i).node.featureOutputReadableCov_ =
      transformCovMat 3 (E.featureReadableJ (E.transformFeature i (fs.camID_ i) fs.state_))
        (transformCovMat E.stateD (E.transformFeatureJ i (fs.camID_ i) fs.state_) fs.cov_) := by
  simp only [pclValid, and_self]

/-- Claim C15, the claim as stated fails: the node over `behindExt` publishes a cycle in
which landmark 0 is valid and its feature output has the bearing `(0, 0, -1)`, which is not
in front; the readable stage receives that bearing as it is, not the rotated bearing
`(0, 0, 1)`. -/
theorem publishing_pass_keeps_bearing_behind_camera :
    (behindExt.safe_ (behindExt.updateSafe behindPending.mpFilter_)).isValid_ 0 = true ∧
    countKind EffectKind.pubPcl (newEffects behindPending (updateAndPublish behindPending)) = 1 ∧
    behindExt.isInFront (behindExt.transformFeature 0 0 ()) = false ∧
    (updateAndPublish behindPending).featureOutputReadable_ =
      behindExt.featureReadable (behindExt.transformFeature 0 0 ()) ∧
    (updateAndPublish behindPending).featureOutputReadable_ ≠
      behindExt.featureReadable (behindExt.rotatedNor (behindExt.transformFeature 0 0 ())) ∧
    (updateAndPublish behindPending).featureOutputReadable_.bea = { x := 0, y := 0, z := -1 } := by
  decide

/-- Claim C15, amended. In the publishing pass the feature output of a valid landmark is
handed to the readable stage exactly as the state-to-feature stage produced it, whatever
`isInFront` says of its bearing: the stored feature output, the readable output and the
readable covariance are those of the unrotated output. The rotation of a bearing that is
not in front exists only in `makeTest`, where it is applied to the feature output of the
test state. -/
theorem publishing_pass_hands_feature_output_unrotated {E : Ext} (fs : FilterState E.S)
    (st : PclLoop E) (i : Nat) (hv : fs.isValid_ i = true) :
    (pclLoopBody fs st i).node.featureOutput_ = E.transformFeature i (fs.camID_ i) fs.state_ ∧
    (pclLoopBody fs st i).node.featureOutputReadable_ =
      E.featureReadable (E.transformFeature i (fs.camID_ i) fs.state_) ∧
    (pclLoopBody fs st i).node.featureOutputReadableCov_ =
      transformCovMat 3 (E.featureReadableJ (E.transformFeature i (fs.camID_ i) fs.state_))
        (transformCovMat E.stateD (E.transformFeatureJ i (fs.camID_ i) fs.state_) fs.cov_) ∧
    ∀ testState : E.S, makeTestFeatureOutput E testState =
      if E.isInFront (E.transformFeature 0 0 testState) then E.transformFeature 0 0 testState
      else E.rotatedNor (E.transformFeature 0 0 testState) := by
  obtain ⟨h1, h2, h3⟩ := pclValid_feature fs st i
  refine ⟨?_, ?_, ?_, ?_⟩
  · simp only [pclLoopBody, hv, if_true]; exact h1
  · simp only [pclLoopBody, hv, if_true]; exact h2
  · simp only [pclLoopBody, hv, if_true]; exact h3
  · intro s
    unfold makeTestFeatureOutput
    cases h : E.isInFront (E.transformFeature 0 0 s) <;> simp [h]

theorem publishing_pass_hands_feature_output_unrotated_witness :
    (behindExt.safe_ behindPending.mpFilter_).isValid_ 0 = true ∧
    (pclLoopBody (behindExt.safe_ behindPending.mpFilter_)
      { node := behindPending, points := [], offset := 0 } 0).node.featureOutputReadable_ =
      { bea := { x := 0, y := 0, z := -1 }, dis := 1 } :=
  ⟨rfl, (publishing_pass_hands_feature_output_unrotated (behindExt.safe_ behindPending.mpFilter_)
    { node := behindPending, points := [], offset := 0 } 0 rfl).2.1⟩

/-! ## The rays and the nominal distance -/

theorem clamp_eq_min (x : ℚ) : (if x > 1000 then 1000 else x) = min x 1000 := by
  by_cases h : x > 1000
  · rw [if_pos h, min_eq_right h.le]
  · rw [if_neg h, min_eq_left (not_lt.1 h)]

theorem rayDistances_eq (E : Ext) (state : E.S) (cov : MXD) (i : Nat) :
    (rayDistances E state cov i).d = distanceAt E state i (E.dep state i).p_ ∧
    (rayDistances E state cov i).d_minus =
      min (distanceAt E state i ((E.dep state i).p_ - 3 * depthSigma E cov i)) 1000 ∧
    (rayDistances E state cov i).d_plus =
      min (distanceAt E state i ((E.dep state i).p_ + 3 * depthSigma E cov i)) 1000 := by
  refine ⟨rfl, ?_, ?_⟩
  · simp only [rayDistances, stretchFactor, clamp_eq_min, distanceAt, depthSigma]
  · simp only [rayDistances, stretchFactor, clamp_eq_min, distanceAt, depthSigma]
    congr 3
    ring

theorem demoSqrt_one : demoSqrt 1 = 1 := by
  simp [demoSqrt]

theorem depthSigma_demo (p : ℚ) :
    depthSigma (demoExt 1 1 (fun _ => true) (fun _ => p)) (fun i j => if i = j then 1 else 0) 0
      = 1 := by
  simp [depthSigma, demoExt, demoSqrt_one]

theorem rayDistances_demo (p : ℚ) :
    rayDistances (demoExt 1 1 (fun _ => true) (fun _ => p)) ()
      (fun i j => if i = j then 1 else 0) 0 =
      { d := p, d_minus := min (p - 3) 1000, d_plus := min (p + 3) 1000 } := by
  obtain ⟨h1, h2, h3⟩ := rayDistances_eq (demoExt 1 1 (fun _ => true) (fun _ => p)) ()
    (fun i j => if i = j then 1 else 0) 0
  rw [depthSigma_demo] at h2 h3
  rw [mul_one] at h2 h3
  calc rayDistances (demoExt 1 1 (fun _ => true) (fun _ => p)) ()
        (fun i j => if i = j then 1 else 0) 0
      = { d := (rayDistances (demoExt 1 1 (fun _ => true) (fun _ => p)) ()
                (fun i j => if i = j then 1 else 0) 0).d,
          d_minus := (rayDistances (demoExt 1 1 (fun _ => true) (fun _ => p)) ()
                (fun i j => if i = j then 1 else 0) 0).d_minus,
          d_plus := (rayDistances (demoExt 1 1 (fun _ => true) (fun _ => p)) ()
                (fun i j => if i = j then 1 else 0) 0).d_plus } := rfl
    _ = _ := by rw [h1, h2, h3]; rfl

/-- Claim C16, the claim as stated fails: a valid landmark with the regular distance model
(`getDistance() = p_`), depth parameter 2000 and standard deviation 1 has the nominal
distance 2000, while both ray distances are cut to 1000; the nominal distance lies above
both. -/
theorem clamped_rays_miss_nominal_distance :
    ((demoExt 1 1 (fun _ => true) (fun _ => 2000)).safe_ { safeT := 1, newest := 1 }).isValid_ 0
      = true ∧
    0 ≤ depthSigma (demoExt 1 1 (fun _ => true) (fun _ => 2000))
      (fun i j => if i = j then 1 else 0) 0 ∧
    (rayDistances (demoExt 1 1 (fun _ => true) (fun _ => 2000)) ()
      (fun i j => if i = j then 1 else 0) 0) = { d := 2000, d_minus := 1000, d_plus := 1000 } ∧
    ¬ ((rayDistances (demoExt 1 1 (fun _ => true) (fun _ => 2000)) ()
        (fun i j => if i = j then 1 else 0) 0).d ≤
      max (rayDistances (demoExt 1 1 (fun _ => true) (fun _ => 2000)) ()
          (fun i j => if i = j then 1 else 0) 0).d_minus
        (rayDistances (demoExt 1 1 (fun _ => true) (fun _ => 2000)) ()
          (fun i j => if i = j then 1 else 0) 0).d_plus) := by
  rw [depthSigma_demo, rayDistances_demo]
  refine ⟨rfl, by norm_num, ?_, ?_⟩
  · norm_num
  · norm_num

/-- Claim C16, amended. For a landmark whose standard deviation is not negative and whose
distance model is monotone (rising or falling) between the depth parameters `p - 3*sigma`
and `p + 3*sigma`, the two ray distances bracket the nominal distance cut at 1000; they
bracket the nominal distance itself whenever it is at most 1000. -/
theorem rays_bracket_clamped_nominal_distance (E : Ext) (state : E.S) (cov : MXD) (i : Nat)
    (hs : 0 ≤ depthSigma E cov i)
    (hm : RisesOn E state i ((E.dep state i).p_ - 3 * depthSigma E cov i)
            ((E.dep state i).p_ + 3 * depthSigma E cov i) ∨
          FallsOn E state i ((E.dep state i).p_ - 3 * depthSigma E cov i)
            ((E.dep state i).p_ + 3 * depthSigma E cov i)) :
    min (rayDistances E state cov i).d_minus (rayDistances E state cov i).d_plus ≤
        min (rayDistances E state cov i).d 1000 ∧
      min (rayDistances E state cov i).d 1000 ≤
        max (rayDistances E state cov i).d_minus (rayDistances E state cov i).d_plus ∧
      ((rayDistances E state cov i).d ≤ 1000 →
        min (rayDistances E state cov i).d_minus (rayDistances E state cov i).d_plus ≤
            (rayDistances E state cov i).d ∧
          (rayDistances E state cov i).d ≤
            max (rayDistances E state cov i).d_minus (rayDistances E state cov i).d_plus) := by
  obtain ⟨hd, hminus, hplus⟩ := rayDistances_eq E state cov i
  have hlo : (E.dep state i).p_ - 3 * depthSigma E cov i ≤ (E.dep state i).p_ := by linarith
  have hhi : (E.dep state i).p_ ≤ (E.dep state i).p_ + 3 * depthSigma E cov i := by linarith
  have key : min (rayDistances E state cov i).d_minus (rayDistances E state cov i).d_plus ≤
        min (rayDistances E state cov i).d 1000 ∧
      min (rayDistances E state cov i).d 1000 ≤
        max (rayDistances E state cov i).d_minus (rayDistances E state cov i).d_plus := by
    rw [hd, hminus, hplus]
    rcases hm with hm | hm
    · have h1 := hm _ _ le_rfl hlo hhi
      have h2 := hm _ _ hlo hhi le_rfl
      exact ⟨le_trans (min_le_left _ _) (min_le_min h1 le_rfl),
        le_trans (min_le_min h2 le_rfl) (le_max_right _ _)⟩
    · have h1 := hm _ _ le_rfl hlo hhi
      have h2 := hm _ _ hlo hhi le_rfl
      exact ⟨le_trans (min_le_right _ _) (min_le_min h2 le_rfl),
        le_trans (min_le_min h1 le_rfl) (le_max_left _ _)⟩
  refine ⟨key.1, key.2, fun h => ?_⟩
  rw [min_eq_left h] at key
  exact key

theorem rays_bracket_clamped_nominal_distance_witness :
    0 ≤ depthSigma (demoExt 1 1 (fun _ => true) (fun _ => 5))
      (fun i j => if i = j then 1 else 0) 0 ∧
    min (rayDistances (demoExt 1 1 (fun _ => true) (fun _ => 5)) ()
        (fun i j => if i = j then 1 else 0) 0).d_minus
      (rayDistances (demoExt 1 1 (fun _ => true) (fun _ => 5)) ()
        (fun i j => if i = j then 1 else 0) 0).d_plus ≤
    min (rayDistances (demoExt 1 1 (fun _ => true) (fun _ => 5)) ()
        (fun i j => if i = j then 1 else 0) 0).d 1000 :=
  ⟨by rw [depthSigma_demo]; norm_num,
    (rays_bracket_clamped_nominal_distance (demoExt 1 1 (fun _ => true) (fun _ => 5)) ()
      (fun i j => if i = j then 1 else 0) 0 (by rw [depthSigma_demo]; norm_num)
      (Or.inl fun _ _ _ h _ => h)).1⟩

/-! ## The layout of the point cloud along a run -/

theorem showImages_pclMsg {E : Ext} (n : RovioNode E) : (showImages n).pclMsg_ = n.pclMsg_ := by
  unfold showImages
  have hloop : ∀ (sf : FilterState E.S) (l : List Nat) (m : RovioNode E),
      (l.foldl (fun (n : RovioNode E) i =>
        if !sf.imgEmpty i && E.doFrameVisualisation_ n.mpFilter_ then
          n.emit (Effect.imshow ("Tracker" ++ toString i))
        else n) m).pclMsg_ = m.pclMsg_ := by
    intro sf l m
    apply foldl_rel (fun (a b : RovioNode E) => b.pclMsg_ = a.pclMsg_) (fun _ => rfl)
      (fun _ _ _ h1 h2 => h2.trans h1)
    intro a b
    dsimp only
    split
    · rfl
    · rfl
  dsimp only
  split
  · exact hloop _ _ _
  · exact hloop _ _ _

theorem verbosePose_pclMsg {E : Ext} (n : RovioNode E) : (verbosePose n).pclMsg_ = n.pclMsg_ := by
  unfold verbosePose
  split
  · dsimp only
    split <;> split <;> rfl
  · rfl

theorem sendMapToWorld_pclMsg {E : Ext} (n : RovioNode E) :
    (sendMapToWorld n).pclMsg_ = n.pclMsg_ := by
  unfold sendMapToWorld
  dsimp only
  split <;> rfl

theorem prePcl_pclMsg {E : Ext} (n : RovioNode E) :
    (publishOutput (fillRovioOutput (fillOdometry (sendPoses (sendMapToWorld
      (verbosePose (transformOutput (showImages n)))))))).pclMsg_ = n.pclMsg_ := by
  have h : ∀ m : RovioNode E,
      (publishOutput (fillRovioOutput (fillOdometry (sendPoses m)))).pclMsg_ = m.pclMsg_ := by
    intro m
    simp only [publishOutput, RovioNode.emit, fillRovioOutput, attitudeToYprStage, fillOdometry,
      sendPoses]
  rw [h, sendMapToWorld_pclMsg, verbosePose_pclMsg]
  exact showImages_pclMsg n

theorem publish_eq_beforePcl {E : Ext} (n : RovioNode E) :
    publish n = publishPcl (beforePcl n) := rfl

theorem publishPcl_eq_loop {E : Ext} (n : RovioNode E) :
    (publishPcl n).pclMsg_ = (pclLoopAt n E.nMax_).node.pclMsg_ := by
  simp only [publishPcl, RovioNode.emit, pclLoopAt, pclLoopStart]

theorem sameLayout_refl (p : PointCloud2) : SameLayout p p := ⟨rfl, rfl, rfl⟩

theorem sameLayout_trans {p q r : PointCloud2} (h1 : SameLayout p q) (h2 : SameLayout q r) :
    SameLayout p r :=
  ⟨h2.1.trans h1.1, h2.2.1.trans h1.2.1, h2.2.2.trans h1.2.2⟩

theorem pclLoopStart_layout {E : Ext} (n : RovioNode E) :
    SameLayout n.pclMsg_ (pclLoopStart n).node.pclMsg_ := ⟨rfl, rfl, rfl⟩

theorem pclLoopAt_layout {E : Ext} (n : RovioNode E) (i : Nat) :
    SameLayout n.pclMsg_ (pclLoopAt n i).node.pclMsg_ := by
  have h := pclLoop_step (E.safe_ n.mpFilter_) (List.range i) (pclLoopStart n)
  exact sameLayout_trans (pclLoopStart_layout n) ⟨h.fields, h.point_step, h.size⟩

theorem publishPcl_layout {E : Ext} (n : RovioNode E) :
    SameLayout n.pclMsg_ (publishPcl n).pclMsg_ := by
  rw [publishPcl_eq_loop]
  exact pclLoopAt_layout n _

theorem updateAndPublish_layout {E : Ext} (n : RovioNode E) :
    SameLayout n.pclMsg_ (updateAndPublish n).pclMsg_ := by
  cases hi : n.isInitialized_ with
  | false => rw [updateAndPublish_uninitialized n hi]; exact sameLayout_refl _
  | true =>
    by_cases ha : (E.safe_ (E.updateSafe n.mpFilter_)).t_ > (E.safe_ n.mpFilter_).t_
    · rw [updateAndPublish_advance n hi ha, publish_eq_beforePcl]
      have h := publishPcl_layout (beforePcl
        (({ n with mpFilter_ := E.updateSafe n.mpFilter_ } : RovioNode E).emit Effect.updateSafe))
      rw [show (beforePcl (({ n with mpFilter_ := E.updateSafe n.mpFilter_ } : RovioNode E).emit
        Effect.updateSafe)).pclMsg_ = n.pclMsg_ from prePcl_pclMsg _] at h
      exact h
    · rw [updateAndPublish_idle n hi ha]; exact sameLayout_refl _

theorem step_layout {E : Ext} (n : RovioNode E) (cb : Callback) :
    SameLayout n.pclMsg_ (n.step cb).pclMsg_ :=
  step_rel (fun a b => SameLayout a.pclMsg_ b.pclMsg_)
    (fun a q r h1 h2 => by
      show SameLayout a.pclMsg_ r.pclMsg_
      rw [← h1.pcl]; exact h2) (fun _ => sameLayout_refl _)
    updateAndPublish_layout n cb

theorem run_layout {E : Ext} (n : RovioNode E) (cbs : List Callback) :
    SameLayout n.pclMsg_ (n.run cbs).pclMsg_ := by
  induction cbs generalizing n with
  | nil => exact sameLayout_refl _
  | cons cb cbs ih => exact sameLayout_trans (step_layout n cb) (ih (n.step cb))

theorem pclLoopBody_offset {E : Ext} (fs : FilterState E.S) (st : PclLoop E) (i : Nat) :
    (pclLoopBody fs st i).offset = u32 (st.offset + st.node.pclMsg_.point_step) := by
  have e : (pclLoopBody fs st i).offset =
      u32 ((if fs.isValid_ i then pclValid fs st i else pclInvalid st).offset +
        (if fs.isValid_ i then pclValid fs st i else pclInvalid st).node.pclMsg_.point_step) := rfl
  rw [e]
  cases fs.isValid_ i with
  | true =>
    simp only [if_true]
    rw [(pclValid_step fs st i).point_step]
    simp only [pclValid]
  | false =>
    simp only [Bool.false_eq_true, if_false]
    rw [(pclInvalid_step st).point_step]
    simp only [pclInvalid]

theorem pclLoopAt_succ {E : Ext} (n : RovioNode E) (i : Nat) :
    pclLoopAt n (i + 1) = pclLoopBody (E.safe_ n.mpFilter_) (pclLoopAt n i) i := by
  simp only [pclLoopAt, List.range_succ, List.foldl_append, List.foldl_cons, List.foldl_nil]

theorem pclLoopAt_offset {E : Ext} (n : RovioNode E) (i : Nat)
    (h : n.pclMsg_.point_step * i < 2 ^ 32) :
    (pclLoopAt n i).offset = n.pclMsg_.point_step * i := by
  induction i with
  | zero => rfl
  | succ i ih =>
    have hi : n.pclMsg_.point_step * i < 2 ^ 32 :=
      lt_of_le_of_lt (Nat.mul_le_mul_left _ (Nat.le_succ i)) h
    rw [pclLoopAt_succ, pclLoopBody_offset, ih hi, (pclLoopAt_layout n i).2.1, ← Nat.mul_succ]
    exact Nat.mod_eq_of_lt h
theorem range4 : List.range 4 = [0, 1, 2, 3] := by decide

theorem range18 :
    List.range 18 = [0, 1, 2, 3, 4, 5, 6, 7, 8, 9, 10, 11, 12, 13, 14, 15, 16, 17] := by
  decide

theorem pclWriteCov_writes (E : Ext) (pcl : PointCloud2) (offset : Nat) (cov : MXD) :
    pclWriteCov E pcl offset cov =
      (List.zip [8, 9, 10, 11, 12, 13, 14, 15, 16, 17]
        [E.lowWordF64 (cov 0 0), E.lowWordF64 (cov 0 1), E.lowWordF64 (cov 0 2),
         E.lowWordF64 (cov 0 3), E.lowWordF64 (cov 1 1), E.lowWordF64 (cov 1 2),
         E.lowWordF64 (cov 1 3), E.lowWordF64 (cov 2 2), E.lowWordF64 (cov 2 3),
         E.lowWordF64 (cov 3 3)]).foldl
        (fun pcl jw => pclWrite pcl offset jw.1 jw.2) pcl := by
  simp only [pclWriteCov, range4, List.foldl_cons, List.foldl_nil, List.zip_cons_cons,
    List.zip_nil_right, List.range', Nat.sub_zero, Nat.reduceSub, Nat.reduceAdd]

theorem pclValid_writes {E : Ext} (fs : FilterState E.S) (st : PclLoop E) (i : Nat) :
    ∃ ws : List Nat, ws.length = 18 ∧
      (pclValid fs st i).node.pclMsg_ =
        (List.zip (List.range 18) ws).foldl (fun pcl jw => pclWrite pcl st.offset jw.1 jw.2)
          st.node.pclMsg_ := by
  refine ⟨[E.bitsF32 (scaledBearing E (E.CfP_nor_vec fs.state_ i)
        (rayDistances E fs.state_ fs.cov_ i).d).x,
      E.bitsF32 (scaledBearing E (E.CfP_nor_vec fs.state_ i)
        (rayDistances E fs.state_ fs.cov_ i).d).y,
      E.bitsF32 (scaledBearing E (E.CfP_nor_vec fs.state_ i)
        (rayDistances E fs.state_ fs.cov_ i).d).z,
      (255 <<< 16) ||| (255 <<< 8) ||| 255,
      E.lowWordF64 (E.featureReadable (E.transformFeature i (fs.camID_ i) fs.state_)).bea.x,
      E.lowWordF64 (E.featureReadable (E.transformFeature i (fs.camID_ i) fs.state_)).bea.y,
      E.lowWordF64 (E.featureReadable (E.transformFeature i (fs.camID_ i) fs.state_)).bea.z,
      E.lowWordF64 (E.featureReadable (E.transformFeature i (fs.camID_ i) fs.state_)).dis,
      E.lowWordF64 (readableCovOf E fs i 0 0), E.lowWordF64 (readableCovOf E fs i 0 1),
      E.lowWordF64 (readableCovOf E fs i 0 2), E.lowWordF64 (readableCovOf E fs i 0 3),
      E.lowWordF64 (readableCovOf E fs i 1 1), E.lowWordF64 (readableCovOf E fs i 1 2),
      E.lowWordF64 (readableCovOf E fs i 1 3), E.lowWordF64 (readableCovOf E fs i 2 2),
      E.lowWordF64 (readableCovOf E fs i 2 3), E.lowWordF64 (readableCovOf E fs i 3 3)],
    rfl, ?_⟩
  simp only [pclValid, pclWriteCov_writes, range18, List.foldl_cons, List.foldl_nil,
    List.zip_cons_cons, List.zip_nil_right, readableCovOf, featureCovOf]

theorem pclInvalid_writes {E : Ext} (st : PclLoop E) :
    (pclInvalid st).node.pclMsg_ =
      (List.range st.node.pclMsg_.fields.length).foldl
        (fun pcl j => pclWrite pcl st.offset j badPoint) st.node.pclMsg_ := by
  simp only [pclInvalid]
theorem init_layout (E : Ext) (params : NodeParams) (f : E.F) :
    (RovioNode.init E params f).pclMsg_.fields =
        { name := "c_33", offset := 68, datatype := PointField.FLOAT32, count := 1 } ::
          List.replicate 17 PointField.empty ∧
      (RovioNode.init E params f).pclMsg_.point_step = 72 ∧
      (RovioNode.init E params f).pclMsg_.data.length = u32 (72 * u32 E.nMax_) := by
  have hf : ((List.range nFields).foldl fieldLoopBody
      (List.replicate nFields PointField.empty, 0)) =
      ({ name := "c_33", offset := 68, datatype := PointField.FLOAT32, count := 1 } ::
          List.replicate 17 PointField.empty, 72) := by decide
  have h72 : u32 72 = 72 := by decide
  simp only [RovioNode.init, initPclMsg, hf, h72]
  simp [u32]

theorem constructed_offset_le (j : Nat) :
    ((({ name := "c_33", offset := 68, datatype := PointField.FLOAT32, count := 1 } :
        PointField) :: List.replicate 17 PointField.empty).getD j PointField.empty).offset
      ≤ 68 := by
  cases j with
  | zero => exact le_rfl
  | succ j =>
    rw [List.getD_cons_succ, List.getD_eq_getElem?_getD, List.getElem?_replicate]
    split <;> simp [PointField.empty]

theorem writeInBounds_of_layout (pcl : PointCloud2) (nMax i j : Nat) (hmax : 72 * nMax < 2 ^ 32)
    (hl : pcl.fields.length = 18)
    (ho : (pcl.fields.getD j PointField.empty).offset ≤ 68)
    (hd : pcl.data.length = 72 * nMax) (hi : i < nMax) (hj : j < 18) :
    WriteInBounds pcl (72 * i) j := by
  have hlt : 72 * i + (pcl.fields.getD j PointField.empty).offset + 4 ≤ 72 * nMax := by
    have : 72 * (i + 1) ≤ 72 * nMax := Nat.mul_le_mul_left _ hi
    omega
  refine ⟨by rw [hl]; exact hj, ?_⟩
  rw [hd]
  unfold u32
  rw [Nat.mod_eq_of_lt (by omega)]
  exact hlt

/-- Claim C18, the claim as stated fails: with `nMax = 59652324` the 32-bit product
`point_step * width = 72 * 59652324` wraps to 32, so the constructed buffer has 32 bytes;
the landmark loop reaches slot 0 with `offset = 0`, and the write through field 0 (offset
68) would end at byte 72, past the end of the buffer. -/
theorem huge_cloud_write_out_of_bounds :
    0 < (demoExt 1 59652324 (fun _ => false) (fun _ => 1)).nMax_ ∧
    (demoNode 1 59652324 (fun _ => false) (fun _ => 1)).pclMsg_.fields.length = 18 ∧
    (demoNode 1 59652324 (fun _ => false) (fun _ => 1)).pclMsg_.point_step = 72 ∧
    (demoNode 1 59652324 (fun _ => false) (fun _ => 1)).pclMsg_.data.length = 32 ∧
    (pclLoopAt (demoNode 1 59652324 (fun _ => false) (fun _ => 1)) 0).offset = 0 ∧
    ¬ WriteInBounds (pclLoopAt (demoNode 1 59652324 (fun _ => false) (fun _ => 1)) 0).node.pclMsg_
      (pclLoopAt (demoNode 1 59652324 (fun _ => false) (fun _ => 1)) 0).offset 0 := by
  obtain ⟨hf, hp, hd⟩ := init_layout (demoExt 1 59652324 (fun _ => false) (fun _ => 1))
    { world_frame := none, camera_frame := none, imu_frame := none } { safeT := 0, newest := 0 }
  have hd2 : (demoNode 1 59652324 (fun _ => false) (fun _ => 1)).pclMsg_.data.length = 32 := by
    rw [demoNode, hd]; decide
  refine ⟨by decide, by rw [demoNode, hf]; rfl, hp, hd2, rfl, ?_⟩
  intro h
  have h2 := h.2
  have e : (pclLoopAt (demoNode 1 59652324 (fun _ => false) (fun _ => 1)) 0).node.pclMsg_.data.length
      = 32 := hd2
  have e2 : (pclLoopAt (demoNode 1 59652324 (fun _ => false) (fun _ => 1)) 0).node.pclMsg_.fields
      = (demoNode 1 59652324 (fun _ => false) (fun _ => 1)).pclMsg_.fields := rfl
  rw [e, e2, demoNode, hf] at h2
  revert h2
  decide

/-- Claim C18, amended with the bound `72 * nMax < 2^32`. On a node whose point cloud has
the layout of a node reached from construction by any callbacks, the landmark loop reaches
every slot `i < nMax` with `offset = 72 * i`, a field table of 18 entries and a buffer of
`72 * nMax` bytes, and for every field index `j < 18` the four bytes written at
`offset + fields[j].offset` end inside the buffer. The valid branch writes through the
field indices 0 to 17 in order (the covariance counter running over 8 to 17), the invalid
branch through every index below `fields.size()`; the publishing branch runs this loop on
a node that still has the point-cloud message it started with. -/
theorem cloud_writes_in_bounds (E : Ext) (params : NodeParams) (f : E.F)
    (hmax : 72 * E.nMax_ < 2 ^ 32) (cbs : List Callback) (m : RovioNode E)
    (hm : SameLayout ((RovioNode.init E params f).run cbs).pclMsg_ m.pclMsg_)
    (i : Nat) (hi : i < E.nMax_) :
    (pclLoopAt m i).offset = 72 * i ∧
    (pclLoopAt m i).node.pclMsg_.fields.length = 18 ∧
    (pclLoopAt m i).node.pclMsg_.data.length = 72 * E.nMax_ ∧
    (∀ j, j < 18 → WriteInBounds (pclLoopAt m i).node.pclMsg_ (pclLoopAt m i).offset j) ∧
    (∃ ws : List Nat, ws.length = 18 ∧
      (pclValid (E.safe_ m.mpFilter_) (pclLoopAt m i) i).node.pclMsg_ =
        (List.zip (List.range 18) ws).foldl
          (fun pcl jw => pclWrite pcl (pclLoopAt m i).offset jw.1 jw.2)
          (pclLoopAt m i).node.pclMsg_) ∧
    (pclInvalid (pclLoopAt m i)).node.pclMsg_ =
      (List.range 18).foldl (fun pcl j => pclWrite pcl (pclLoopAt m i).offset j badPoint)
        (pclLoopAt m i).node.pclMsg_ ∧
    (∀ n : RovioNode E, publish n = publishPcl (beforePcl n) ∧
      (beforePcl n).pclMsg_ = n.pclMsg_ ∧
      (publishPcl (beforePcl n)).pclMsg_ =
        (pclLoopAt (beforePcl n) E.nMax_).node.pclMsg_) := by
  obtain ⟨hf, hp, hd⟩ := init_layout E params f
  have hrun := sameLayout_trans (sameLayout_trans
    (run_layout (RovioNode.init E params f) cbs) hm) (pclLoopAt_layout m i)
  have hu : u32 (72 * u32 E.nMax_) = 72 * E.nMax_ := by
    have h1 : E.nMax_ < 2 ^ 32 := by omega
    unfold u32
    rw [Nat.mod_eq_of_lt h1, Nat.mod_eq_of_lt hmax]
  have hstep : m.pclMsg_.point_step = 72 := by
    rw [(sameLayout_trans (run_layout (RovioNode.init E params f) cbs) hm).2.1, hp]
  have hfields : (pclLoopAt m i).node.pclMsg_.fields =
      { name := "c_33", offset := 68, datatype := PointField.FLOAT32, count := 1 } ::
        List.replicate 17 PointField.empty := by rw [hrun.1, hf]
  have hlen : (pclLoopAt m i).node.pclMsg_.data.length = 72 * E.nMax_ := by
    rw [hrun.2.2, hd, hu]
  have hoff : (pclLoopAt m i).offset = 72 * i := by
    have h := pclLoopAt_offset m i (by
      rw [hstep]
      exact lt_of_le_of_lt (Nat.mul_le_mul_left _ (le_of_lt hi)) hmax)
    rw [h, hstep]
  have hl18 : (pclLoopAt m i).node.pclMsg_.fields.length = 18 := by rw [hfields]; rfl
  refine ⟨hoff, hl18, hlen, ?_, pclValid_writes _ _ _, ?_, ?_⟩
  · intro j hj
    rw [hoff]
    exact writeInBounds_of_layout _ E.nMax_ i j hmax hl18
      (by rw [hfields]; exact constructed_offset_le j) hlen hi hj
  · rw [pclInvalid_writes, hl18]
  · intro n
    exact ⟨rfl, prePcl_pclMsg n, publishPcl_eq_loop _⟩

theorem cloud_writes_in_bounds_witness :
    72 * (demoExt 1 1 (fun _ => false) (fun _ => 1)).nMax_ < 2 ^ 32 ∧
    (pclLoopAt (demoNode 1 1 (fun _ => false) (fun _ => 1)) 0).node.pclMsg_.data.length = 72 ∧
    WriteInBounds (pclLoopAt (demoNode 1 1 (fun _ => false) (fun _ => 1)) 0).node.pclMsg_
      (pclLoopAt (demoNode 1 1 (fun _ => false) (fun _ => 1)) 0).offset 0 :=
  have h := cloud_writes_in_bounds (demoExt 1 1 (fun _ => false) (fun _ => 1))
    { world_frame := none, camera_frame := none, imu_frame := none } { safeT := 0, newest := 0 }
    (by decide) [] (demoNode 1 1 (fun _ => false) (fun _ => 1)) ⟨rfl, rfl, rfl⟩ 0 (by decide)
  ⟨by decide, h.2.2.1, h.2.2.2.1 0 (by decide)⟩

/-! ## Arrivals that do not pass the guards of the image callback -/

/-- Claim C2, the claim as stated fails for arrivals that do not pass the guards of the
callback. On the two-camera stand-in whose slot 0 is valid for time 5, a camera-1 message
stamped 6 that decodes to an empty image produces no effect at all: no failure is
reported, the batch time stays 5 and slot 0 stays valid. A camera-1 message stamped 6 that
does not decode produces the ROS error only, with the same batch. -/
theorem empty_image_keeps_stale_batch :
    (imgCallback (demoStarted 2 1 (fun _ => false) (fun _ => 1)) (demoImage 5)
      0).isInitialized_ = true ∧
    (imgCallback (demoStarted 2 1 (fun _ => false) (fun _ => 1)) (demoImage 5)
      0).imgUpdateMeas_.isValidPyr_ 0 = true ∧
    (demoEmptyImage 6).stamp ≠ (imgCallback (demoStarted 2 1 (fun _ => false) (fun _ => 1))
      (demoImage 5) 0).imgUpdateMeas_.imgTime_ ∧
    (newEffects (imgCallback (demoStarted 2 1 (fun _ => false) (fun _ => 1)) (demoImage 5) 0)
      (imgCallback (imgCallback (demoStarted 2 1 (fun _ => false) (fun _ => 1)) (demoImage 5) 0)
        (demoEmptyImage 6) 1)).length = 0 ∧
    (imgCallback (imgCallback (demoStarted 2 1 (fun _ => false) (fun _ => 1)) (demoImage 5) 0)
      (demoEmptyImage 6) 1).imgUpdateMeas_.imgTime_ = 5 ∧
    (imgCallback (imgCallback (demoStarted 2 1 (fun _ => false) (fun _ => 1)) (demoImage 5) 0)
      (demoEmptyImage 6) 1).imgUpdateMeas_.isValidPyr_ 0 = true ∧
    (newEffects (imgCallback (demoStarted 2 1 (fun _ => false) (fun _ => 1)) (demoImage 5) 0)
      (imgCallback (imgCallback (demoStarted 2 1 (fun _ => false) (fun _ => 1)) (demoImage 5) 0)
        (demoBadImage 6) 1)).map Effect.kind = [EffectKind.rosError] ∧
    (imgCallback (imgCallback (demoStarted 2 1 (fun _ => false) (fun _ => 1)) (demoImage 5) 0)
      (demoBadImage 6) 1).imgUpdateMeas_.imgTime_ = 5 ∧
    (imgCallback (imgCallback (demoStarted 2 1 (fun _ => false) (fun _ => 1)) (demoImage 5) 0)
      (demoBadImage 6) 1).imgUpdateMeas_.isValidPyr_ 0 = true := by
  decide

/-! ## The counter at the ends of its range -/

/-- Claim C13, the claim as stated fails beyond the range of the counter. From the counter
value `2147483647` two published cycles carry the numbers `2147483647` and `2147483648`,
but the counter after the first is `-2147483648`, not one greater; from the counter value
`-1` (the `int` whose `uint32` image is `4294967295`) two published cycles carry
`4294967295` and then `0`. -/
theorem counter_wraps_at_int_max :
    poseSeqs (newEffects (demoCounterAt 2147483647)
      ((demoCounterAt 2147483647).run [Callback.imu (demoImu 1), Callback.imu (demoImu 2)])) =
      [2147483647, 2147483648] ∧
    ((demoCounterAt 2147483647).run [Callback.imu (demoImu 1)]).poseMsgSeq_ = -2147483648 ∧
    ¬ ((demoCounterAt 2147483647).run [Callback.imu (demoImu 1)]).poseMsgSeq_ =
      (demoCounterAt 2147483647).poseMsgSeq_ + 1 ∧
    poseSeqs (newEffects (demoCounterAt (-1))
      ((demoCounterAt (-1)).run [Callback.imu (demoImu 1), Callback.imu (demoImu 2)])) =
      [4294967295, 0] := by
  decide

/-! ## Ray ends at negative distances -/

theorem demoSqrt_million : demoSqrt 1000000 = 1000 := by
  have h : Nat.sqrt 1000000 = 1000 := by
    rw [show (1000000 : ℕ) = 1000 * 1000 by norm_num]
    exact Nat.sqrt_eq 1000
  simp [demoSqrt, h]

theorem rayDistances_eta (r : RayDistances) :
    r = { d := r.d, d_minus := r.d_minus, d_plus := r.d_plus } := by
  cases r; rfl

theorem depthSigma_demoWide (v : ℚ) :
    depthSigma (demoExt 1 1 (fun _ => true) (fun _ => 1)) (demoWideState v).cov_ 0 =
      demoSqrt v := by
  simp [depthSigma, demoExt, demoWideState]

theorem rayDistances_demoWide :
    rayDistances (demoExt 1 1 (fun _ => true) (fun _ => 1)) () (demoWideState 1000000).cov_ 0 =
      { d := 1, d_minus := -2999, d_plus := 1000 } := by
  obtain ⟨h1, h2, h3⟩ := rayDistances_eq (demoExt 1 1 (fun _ => true) (fun _ => 1)) ()
    (demoWideState 1000000).cov_ 0
  rw [depthSigma_demoWide, demoSqrt_million] at h2 h3
  rw [rayDistances_eta (rayDistances (demoExt 1 1 (fun _ => true) (fun _ => 1)) ()
    (demoWideState 1000000).cov_ 0), h1, h2, h3]
  simp only [distanceAt, demoExt]
  norm_num

/-- Claim C10, the claim as stated fails: a valid landmark with the regular distance model
(`getDistance() = p_`), depth parameter 1 and depth variance `10^6` (standard deviation
1000) has the distance `-2999` at `p - 3*sigma`, which the clamp leaves as it is; the far
end of the ray pushed for it is the bearing `(0, 0, 1)` scaled by `-2999`, a point 2999
units from the camera. -/
theorem ray_end_beyond_1000_units :
    (demoWideState 1000000).isValid_ 0 = true ∧
    rayDistances (demoExt 1 1 (fun _ => true) (fun _ => 1)) () (demoWideState 1000000).cov_ 0 =
      { d := 1, d_minus := -2999, d_plus := 1000 } ∧
    ¬ |(rayDistances (demoExt 1 1 (fun _ => true) (fun _ => 1)) ()
        (demoWideState 1000000).cov_ 0).d_minus| ≤ 1000 ∧
    (pclLoopBody (demoWideState 1000000)
      { node := demoNode 1 1 (fun _ => true) (fun _ => 1), points := [], offset := 0 } 0).points =
      [{ x := 0, y := 0, z := 1000 }, { x := 0, y := 0, z := -2999 }] := by
  refine ⟨rfl, rayDistances_demoWide, ?_, ?_⟩
  · rw [rayDistances_demoWide]
    norm_num
  · have hp : (pclLoopBody (demoWideState 1000000)
        { node := demoNode 1 1 (fun _ => true) (fun _ => 1), points := [], offset := 0 } 0).points =
        (pclValid (demoWideState 1000000)
          { node := demoNode 1 1 (fun _ => true) (fun _ => 1), points := [], offset := 0 }
          0).points := rfl
    rw [hp]
    simp only [pclValid]
    have e : (demoWideState 1000000).state_ = () := rfl
    rw [e, rayDistances_demoWide]
    simp [scaledBearing, demoExt]

end rovio
